import Mathlib

/-!
Shallow embedding of the chart-pattern detection engine
(`src/backend/detectors/*.js`, `src/backend/utils/patternUtils.js`, and the
unnamed turning-point extractor variant `src/unnamed/part_001`).

Modelling conventions, used consistently below:
* JavaScript numbers are modelled by `ℚ`.  Because the library's `Rat.add`,
  `Rat.sub`, `Rat.mul` and `Rat.inv` are `@[irreducible]` (which would make
  concrete runs impossible to check by `decide`), the embedding computes with
  the kernel-reducible wrappers `qadd`, `qsub`, `qmul`, `qdiv`, `qabs`,
  `qmin`, `qmax`, `qsum` defined via `Rat.divInt`; the lemmas `qadd_eq` …
  `qmax_eq` prove them equal to the standard operations, so proofs can move
  freely to ordinary `ℚ` arithmetic.  Fractional constants are written
  `Rat.divInt n d` (e.g. `0.06` is `Rat.divInt 6 100`).
* Division by zero yields `0` (JS would produce `Infinity`/`NaN`); every
  theorem below either carries hypotheses that keep denominators nonzero on
  the relevant control path or concerns a control path on which the quotient
  is not consulted.
* `Math.round x` is `⌊x + 1/2⌋` (ties toward `+∞`, JS semantics), and both
  `Math.round(x*100)/100` and `parseFloat(x.toFixed(2))` are `round2`.
* ISO date strings are modelled as rational day numbers; the JS expression
  `(new Date a - new Date b) / 86400000` becomes plain subtraction of the
  two day numbers.
* `array.sort(cmp)` is stable in JS (ES2019); it is modelled by a stable
  insertion sort.  In `detectDoubleTop` the comparator
  `(a, b) => b.significance - a.significance` always evaluates to `NaN`
  (the turning points produced by `patternUtils.findPeaksAndTroughs` carry no
  `significance` field), and the ECMAScript `SortCompare` operation coerces a
  `NaN` comparator result to `+0`, so that sort is the identity.
* Thrown exceptions are modelled with `Except JsError`.
-/

namespace PatternProof

/-- Kernel-computable addition on `ℚ` (see the header). -/
def qadd (a b : ℚ) : ℚ := Rat.divInt (a.num * b.den + b.num * a.den) (a.den * b.den)

/-- Kernel-computable subtraction on `ℚ`. -/
def qsub (a b : ℚ) : ℚ := Rat.divInt (a.num * b.den - b.num * a.den) (a.den * b.den)

/-- Kernel-computable multiplication on `ℚ`. -/
def qmul (a b : ℚ) : ℚ := Rat.divInt (a.num * b.num) (a.den * b.den)

/-- Kernel-computable division on `ℚ` (`qdiv a 0 = 0`, the convention also
used by the library's `/`). -/
def qdiv (a b : ℚ) : ℚ := Rat.divInt (a.num * b.den) (a.den * b.num)

/-- Kernel-computable absolute value on `ℚ`. -/
def qabs (a : ℚ) : ℚ := Rat.divInt |a.num| a.den

/-- `Math.min` on two numbers. -/
def qmin (a b : ℚ) : ℚ := if a ≤ b then a else b

/-- `Math.max` on two numbers. -/
def qmax (a b : ℚ) : ℚ := if a ≤ b then b else a

/-- `arr.reduce((s, x) => s + x, 0)`. -/
def qsum (l : List ℚ) : ℚ := l.foldl qadd 0

theorem qadd_eq (a b : ℚ) : qadd a b = a + b := by
  conv_rhs => rw [← Rat.num_divInt_den a, ← Rat.num_divInt_den b]
  rw [Rat.divInt_add_divInt _ _ (by exact_mod_cast a.den_nz) (by exact_mod_cast b.den_nz)]
  rfl

theorem qsub_eq (a b : ℚ) : qsub a b = a - b := by
  conv_rhs => rw [← Rat.num_divInt_den a, ← Rat.num_divInt_den b]
  rw [Rat.divInt_sub_divInt _ _ (by exact_mod_cast a.den_nz) (by exact_mod_cast b.den_nz)]
  rfl

theorem qmul_eq (a b : ℚ) : qmul a b = a * b := by
  conv_rhs => rw [← Rat.num_divInt_den a, ← Rat.num_divInt_den b]
  rw [Rat.divInt_mul_divInt']
  rfl

theorem qdiv_eq (a b : ℚ) : qdiv a b = a / b := (Rat.div_def' a b).symm

theorem qabs_eq (a : ℚ) : qabs a = |a| := by
  rcases le_or_lt 0 a with h | h
  · rw [abs_of_nonneg h, qabs, abs_of_nonneg (Rat.num_nonneg.2 h), Rat.num_divInt_den]
  · rw [abs_of_neg h, qabs, abs_of_neg (Rat.num_neg.2 h), ← Rat.neg_divInt,
      Rat.num_divInt_den]

theorem qmin_eq (a b : ℚ) : qmin a b = min a b := (min_def a b).symm

theorem qmax_eq (a b : ℚ) : qmax a b = max a b := (max_def a b).symm

/-- JS `Math.round`: round half toward `+∞`. -/
def jsRound (q : ℚ) : ℤ := ⌊qadd q (Rat.divInt 1 2)⌋

theorem jsRound_eq (q : ℚ) : jsRound q = ⌊q + 1 / 2⌋ := by
  rw [jsRound, qadd_eq, Rat.divInt_eq_div]
  norm_num

/-- JS `Math.round(x * 100) / 100` and `parseFloat(x.toFixed(2))`. -/
def round2 (q : ℚ) : ℚ := Rat.divInt (jsRound (qmul q 100)) 100

theorem round2_eq (q : ℚ) : round2 q = (⌊q * 100 + 1 / 2⌋ : ℚ) / 100 := by
  rw [round2, jsRound_eq, qmul_eq, Rat.divInt_eq_div]
  norm_num

/-- JS exception kinds that the embedded code can raise. -/
inductive JsError where
  | typeError : JsError
  deriving DecidableEq, Repr

instance {ε α : Type} [DecidableEq ε] [DecidableEq α] : DecidableEq (Except ε α) :=
  fun x y =>
    match x, y with
    | .error a, .error b =>
      if h : a = b then .isTrue (by rw [h]) else .isFalse (fun hc => h (Except.error.inj hc))
    | .ok a, .ok b =>
      if h : a = b then .isTrue (by rw [h]) else .isFalse (fun hc => h (Except.ok.inj hc))
    | .error _, .ok _ => .isFalse (fun hc => Except.noConfusion hc)
    | .ok _, .error _ => .isFalse (fun hc => Except.noConfusion hc)

/-- One OHLCV bar.  `date` is the day number of the ISO date string; the JS
field `open` (never read by any detector) is `openPrice` because `open` is a
Lean keyword. -/
structure Candle where
  date : ℚ
  openPrice : ℚ
  high : ℚ
  low : ℚ
  close : ℚ
  volume : ℚ
  deriving DecidableEq, Repr

/-- A turning point as produced by `patternUtils.findPeaksAndTroughs`:
`{ index: i, ...candles[i] }` — the candle's fields plus its position. -/
structure TurningPoint where
  index : ℕ
  date : ℚ
  openPrice : ℚ
  high : ℚ
  low : ℚ
  close : ℚ
  volume : ℚ
  deriving DecidableEq, Repr

/-- `{ index: i, ...candles[i] }`. -/
def mkTurningPoint (i : ℕ) (c : Candle) : TurningPoint :=
  { index := i, date := c.date, openPrice := c.openPrice, high := c.high,
    low := c.low, close := c.close, volume := c.volume }

/-- Fallback candle used to make list indexing total.  All detector call
sites index with positions that are in bounds (turning points come from the
extractor), so the fallback value is never consulted in the theorems below. -/
def dummyCandle : Candle :=
  { date := 0, openPrice := 0, high := 0, low := 0, close := 0, volume := 0 }

/-- `candles[i]` (in-bounds at every use reached by the theorems). -/
def candleAt (candles : List Candle) (i : ℕ) : Candle :=
  candles.getD i dummyCandle

/-- JS `Math.min(...xs)` over a nonempty list (`0` stands for the empty
spread, which yields `Infinity` in JS and is unreachable at the call sites). -/
def jsMinList : List ℚ → ℚ
  | [] => 0
  | h :: t => t.foldl qmin h

/-- Stable insertion (descending by `key`): an element moves left past
strictly smaller keys only, so equal keys keep their original order, matching
the stable JS `Array.prototype.sort`. -/
def insertDescBy (key : α → ℚ) (x : α) : List α → List α
  | [] => [x]
  | y :: ys => if key y < key x then x :: y :: ys else y :: insertDescBy key x ys

/-- Stable descending sort by `key` (models `arr.sort((a,b) => key b - key a)`). -/
def sortDescBy (key : α → ℚ) (l : List α) : List α :=
  l.foldr (insertDescBy key) []

namespace PatternUtils

/-- `calculateOptimalWindowSize` (`patternUtils.js`): 5% / 4% / 3% of the
length with floors 2 / 3 / 5. -/
def calculateOptimalWindowSize (dataLength : ℕ) : ℕ :=
  if dataLength < 50 then
    max 2 (dataLength * 5 / 100)
  else if dataLength < 200 then
    max 3 (dataLength * 4 / 100)
  else
    max 5 (dataLength * 3 / 100)

/-- The window `candles.slice(i - window, i + window + 1)` around `i`. -/
def surrounding (candles : List Candle) (window i : ℕ) : List Candle :=
  (candles.drop (i - window)).take (2 * window + 1)

/-- `surroundingCandles.every(c => currentCandle.high >= c.high)`. -/
def isPeakAt (candles : List Candle) (window i : ℕ) : Bool :=
  (surrounding candles window i).all fun c => c.high ≤ (candleAt candles i).high

/-- `surroundingCandles.every(c => currentCandle.low <= c.low)`. -/
def isTroughAt (candles : List Candle) (window i : ℕ) : Bool :=
  (surrounding candles window i).all fun c => (candleAt candles i).low ≤ c.low

/-- `findPeaksAndTroughs` (`patternUtils.js`).  The loop
`for (i = window; i < candles.length - window; i++)` pushes
`{index: i, ...candles[i]}` onto `peaks` and/or `troughs`; it is rendered as
two `filterMap`s over the same ascending index range.  No significance filter
is applied and the returned points carry no significance field. -/
def findPeaksAndTroughs (candles : List Candle) (window? : Option ℕ := none) :
    List TurningPoint × List TurningPoint :=
  let window := match window? with
    | some w => w
    | none => calculateOptimalWindowSize candles.length
  if candles.length < window * 2 + 1 then ([], [])
  else
    let idxs := List.range' window (candles.length - 2 * window)
    (idxs.filterMap fun i =>
      if isPeakAt candles window i then some (mkTurningPoint i (candleAt candles i)) else none,
     idxs.filterMap fun i =>
      if isTroughAt candles window i then some (mkTurningPoint i (candleAt candles i)) else none)

end PatternUtils

namespace PartOne
/-! The unnamed extractor variant `src/unnamed/part_001`: adaptive window
sizing plus a 0.2% significance filter; its points carry `significance` and
`volumeRatio`. -/

/-- Mid price `(high + low) / 2`. -/
def midPrice (c : Candle) : ℚ := qdiv (qadd c.high c.low) 2

/-- `calculateAdaptiveWindow` (`part_001`): ATR over the first
`min(length, 20)` bars relative to the average mid price. -/
def calculateAdaptiveWindow (candles : List Candle) (baseWindow : ℕ := 10) : ℕ :=
  let n := min candles.length 20
  let atrSum := (List.range' 1 (n - 1)).foldl (fun s i =>
    let cur := candleAt candles i
    let prev := candleAt candles (i - 1)
    qadd s (qmax (qsub cur.high cur.low)
      (qmax (qabs (qsub cur.high prev.close)) (qabs (qsub cur.low prev.close))))) 0
  let atr := qdiv atrSum (qmin (qsub (candles.length : ℚ) 1) 19)
  let avgPrice := qdiv (candles.foldl (fun s c => qadd s (midPrice c)) 0) (candles.length : ℚ)
  let volatilityRatio := qmul (qdiv atr avgPrice) 100
  if 2 < volatilityRatio then max 3 (baseWindow * 6 / 10)
  else if volatilityRatio < 1 then min 15 (baseWindow * 13 / 10)
  else baseWindow * 8 / 10

/-- A turning point of the `part_001` extractor, carrying `significance`
and `volumeRatio`. -/
structure SigTurningPoint where
  index : ℕ
  date : ℚ
  openPrice : ℚ
  high : ℚ
  low : ℚ
  close : ℚ
  volume : ℚ
  significance : ℚ
  volumeRatio : ℚ
  deriving DecidableEq, Repr

/-- Local mean mid price over the `±window` slice around `i`. -/
def localAvgPrice (candles : List Candle) (window i : ℕ) : ℚ :=
  let surr := PatternUtils.surrounding candles window i
  qdiv (surr.foldl (fun s c => qadd s (midPrice c)) 0) (surr.length : ℚ)

/-- Average volume over the `±window` slice around `i`. -/
def localAvgVolume (candles : List Candle) (window i : ℕ) : ℚ :=
  let surr := PatternUtils.surrounding candles window i
  qdiv (surr.foldl (fun s c => qadd s c.volume) 0) (surr.length : ℚ)

/-- `findPeaksAndTroughs` (`part_001`): window extremes are retained only if
their relative deviation from the local mean mid price strictly exceeds the
significance threshold `0.002`. -/
def findPeaksAndTroughs (candles : List Candle) (baseWindow : ℕ := 10) :
    List SigTurningPoint × List SigTurningPoint :=
  if candles.length < baseWindow * 2 + 1 then ([], [])
  else
    let window := calculateAdaptiveWindow candles baseWindow
    let significanceThreshold : ℚ := Rat.divInt 2 1000
    let idxs := List.range' window (candles.length - 2 * window)
    let mk := fun (i : ℕ) (sig : ℚ) =>
      let c := candleAt candles i
      { index := i, date := c.date, openPrice := c.openPrice, high := c.high,
        low := c.low, close := c.close, volume := c.volume,
        significance := sig, volumeRatio := qdiv c.volume (localAvgVolume candles window i) :
        SigTurningPoint }
    (idxs.filterMap fun i =>
      let avgPrice := localAvgPrice candles window i
      let peakSignificance := qdiv (qsub (candleAt candles i).high avgPrice) avgPrice
      if PatternUtils.isPeakAt candles window i ∧ significanceThreshold < peakSignificance then
        some (mk i peakSignificance)
      else none,
     idxs.filterMap fun i =>
      let avgPrice := localAvgPrice candles window i
      let troughSignificance := qdiv (qsub avgPrice (candleAt candles i).low) avgPrice
      if PatternUtils.isTroughAt candles window i ∧ significanceThreshold < troughSignificance then
        some (mk i troughSignificance)
      else none)

end PartOne

/-- A key point rendered as `{ date, price }`. -/
structure PricePoint where
  date : ℚ
  price : ℚ
  deriving DecidableEq, Repr

/-- A key point rendered as `{ date, price, volume }`. -/
structure VolPoint where
  date : ℚ
  price : ℚ
  volume : ℚ
  deriving DecidableEq, Repr

namespace DoubleTop
/-! `src/backend/detectors/doubleTop.js`. -/

/-- The `volatilityFactors` configuration block. -/
structure VolatilityFactors where
  highVolatility : ℚ
  lowVolatility : ℚ
  peakAdjustment : ℚ
  troughAdjustment : ℚ
  deriving DecidableEq, Repr

/-- The configuration fields consulted by `validateDoubleTop` (the detector's
`patternDetectionConfig` additionally carries `minCandles = 60`,
`maxPeakDistance = 60` and `minPeakDistance = 10`, of which only the literal
`60` minimum-candle check is ever used; the peak-distance filter in the
detector uses the literals `Math.min(60, candles.length / 4)`). -/
structure DTConfig where
  maxPeakDifference : ℚ
  minTroughDepth : ℚ
  volatilityFactors : VolatilityFactors
  deriving DecidableEq, Repr

/-- Default config used when `validateDoubleTop` receives no `config`
argument; the detector's `patternDetectionConfig` carries the same values. -/
def dtDefaultConfig : DTConfig :=
  { maxPeakDifference := Rat.divInt 12 100, minTroughDepth := Rat.divInt 4 100,
    volatilityFactors :=
      { highVolatility := Rat.divInt 2 100, lowVolatility := Rat.divInt 1 100,
        peakAdjustment := Rat.divInt 5 4, troughAdjustment := 2 } }

/-- `calculateATR` (doubleTop module): average true range of
`candles.slice(max(0, endIndex - period), endIndex + 1)`. -/
def calculateATR (candles : List Candle) (period endIndex : ℕ) : ℚ :=
  if candles.length < period + 1 ∨ endIndex < period then 0
  else
    let startIdx := endIndex - period
    let relevantCandles := (candles.drop startIdx).take (endIndex + 1 - startIdx)
    if relevantCandles.length < 2 then 0
    else
      let trueRanges := (relevantCandles.zip relevantCandles.tail).map fun pc =>
        qmax (qsub pc.2.high pc.2.low)
          (qmax (qabs (qsub pc.2.high pc.1.close)) (qabs (qsub pc.2.low pc.1.close)))
      qdiv (qsum trueRanges) (trueRanges.length : ℚ)

/-- `calculatePriorTrend`: OLS slope of close against position over the
`lookbackPeriod` bars before `startIndex`, classified as a trend string. -/
def calculatePriorTrend (candles : List Candle) (startIndex : ℕ)
    (lookbackPeriod : ℕ := 20) : String :=
  let lookback := if startIndex < lookbackPeriod then startIndex else lookbackPeriod
  let priorCandles := (candles.drop (startIndex - lookback)).take lookback
  let sumX := qsum (priorCandles.enum.map fun p => ((p.1 : ℕ) : ℚ))
  let sumY := qsum (priorCandles.map (·.close))
  let sumXY := qsum (priorCandles.enum.map fun p => qmul ((p.1 : ℕ) : ℚ) p.2.close)
  let sumX2 := qsum (priorCandles.enum.map fun p => qmul ((p.1 : ℕ) : ℚ) ((p.1 : ℕ) : ℚ))
  let n := (priorCandles.length : ℚ)
  let slope := qdiv (qsub (qmul n sumXY) (qmul sumX sumY))
    (qsub (qmul n sumX2) (qmul sumX sumX))
  let avgPrice := qdiv sumY n
  let trendStrength := qabs (qdiv (qmul slope n) avgPrice)
  if trendStrength < Rat.divInt 3 100 then "sideways"
  else if 0 < slope then "uptrend"
  else "downtrend"

/-- `analyzeVolumeProfile`: volume-decay score between the two peaks
(`!volume` catches a zero volume). -/
def analyzeVolumeProfile (firstPeak secondPeak : TurningPoint) : ℚ :=
  if firstPeak.volume = 0 ∨ secondPeak.volume = 0 then Rat.divInt 1 2
  else
    let volumeRatio := qdiv secondPeak.volume firstPeak.volume
    if volumeRatio < Rat.divInt 4 5 ∧ Rat.divInt 2 5 < volumeRatio then Rat.divInt 9 10
    else if volumeRatio < 1 then Rat.divInt 7 10
    else if volumeRatio < Rat.divInt 6 5 then Rat.divInt 1 2
    else Rat.divInt 3 10

/-- The volatility-adjusted peak-similarity threshold
(`peakSimilarityThreshold`, validator step 1). -/
def dtPeakSimilarityThreshold (cfg : DTConfig) (volatilityRatio : ℚ) : ℚ :=
  if cfg.volatilityFactors.highVolatility < volatilityRatio then
    qmul cfg.maxPeakDifference cfg.volatilityFactors.peakAdjustment
  else if volatilityRatio < cfg.volatilityFactors.lowVolatility then
    qmul cfg.maxPeakDifference (qdiv 1 cfg.volatilityFactors.peakAdjustment)
  else cfg.maxPeakDifference

/-- The peak-similarity confidence ladder of validator step 1 (`none` is the
`return null` branch for peaks that are too different). -/
def dtPeakSimilarityConfidence (heightDiff thr : ℚ) : Option ℚ :=
  if heightDiff ≤ Rat.divInt 2 100 then some 1
  else if heightDiff ≤ Rat.divInt 4 100 then some (Rat.divInt 9 10)
  else if heightDiff ≤ Rat.divInt 6 100 then some (Rat.divInt 8 10)
  else if heightDiff ≤ Rat.divInt 8 100 then some (Rat.divInt 7 10)
  else if heightDiff ≤ Rat.divInt 1 10 then some (Rat.divInt 13 20)
  else if heightDiff ≤ thr then some (Rat.divInt 3 5)
  else none

/-- The valley record built in validator step 2. -/
structure DTValley where
  date : ℚ
  low : ℚ
  index : ℕ
  volume : ℚ
  deriving DecidableEq, Repr

/-- Validator step 2 valley scan: the loop
`for (i = firstPeak.index + 1; i < secondPeak.index; i++)` keeping the first
strictly lowest low (`lowestLow` starts at `Infinity`, so the first bar always
replaces the initial `null`). -/
def dtValleyStep (candles : List Candle) (acc : Option DTValley) (i : ℕ) : Option DTValley :=
  let c := candleAt candles i
  match acc with
  | none => some { date := c.date, low := c.low, index := i, volume := c.volume }
  | some v =>
    if c.low < v.low then some { date := c.date, low := c.low, index := i, volume := c.volume }
    else acc

/-- The valley scan as a fold of `dtValleyStep` over the strict interior
`(firstPeak.index, secondPeak.index)`. -/
def dtFindValley (candles : List Candle) (fpIndex spIndex : ℕ) : Option DTValley :=
  (List.range' (fpIndex + 1) (spIndex - (fpIndex + 1))).foldl (dtValleyStep candles) none

/-- The volatility-adjusted minimum trough depth (validator step 2). -/
def dtMinTroughDepth (cfg : DTConfig) (volatilityRatio : ℚ) : ℚ :=
  if cfg.volatilityFactors.highVolatility < volatilityRatio then
    qmul cfg.minTroughDepth cfg.volatilityFactors.troughAdjustment
  else if volatilityRatio < cfg.volatilityFactors.lowVolatility then
    qmul cfg.minTroughDepth (qdiv 1 cfg.volatilityFactors.troughAdjustment)
  else cfg.minTroughDepth

/-- The trough-quality confidence ladder of validator step 2 (`none` is the
`return null` branch for a trough that is too shallow). -/
def dtTroughConfidence (troughDecline minDepth : ℚ) : Option ℚ :=
  if qmul minDepth (Rat.divInt 3 2) ≤ troughDecline then some 1
  else if qmul minDepth (Rat.divInt 5 4) ≤ troughDecline then some (Rat.divInt 9 10)
  else if minDepth ≤ troughDecline then some (Rat.divInt 4 5)
  else if qmul minDepth (Rat.divInt 7 10) ≤ troughDecline then some (Rat.divInt 3 5)
  else if qmul minDepth (Rat.divInt 1 2) ≤ troughDecline then some (Rat.divInt 1 2)
  else none

/-- The breakout point record (`isPartial` marks the weaker post-peak-decline
signal of validator step 3). -/
structure DTBreakoutPoint where
  date : ℚ
  price : ℚ
  volume : ℚ
  volumeRatio : ℚ
  isPartial : Bool
  deriving DecidableEq, Repr

/-- Validator step 3, strong branch: first close below the confirmation level
within `[secondPeak.index + 1, min(length, secondPeak.index + 30))`. -/
def dtStrongBreakout (candles : List Candle) (spIndex : ℕ) (level avgVolume : ℚ) :
    Option DTBreakoutPoint :=
  let stop := min candles.length (spIndex + 30)
  match (List.range' (spIndex + 1) (stop - (spIndex + 1))).find?
      (fun k => decide ((candleAt candles k).close < level)) with
  | some k =>
    let c := candleAt candles k
    some { date := c.date, price := c.close, volume := c.volume,
           volumeRatio := qdiv c.volume avgVolume, isPartial := false }
  | none => none

/-- The named sub-scores of the returned `metrics` object. -/
structure DTMetrics where
  peakSimilarity : ℚ
  troughQuality : ℚ
  volumeProfile : ℚ
  priorTrend : String
  trendStrength : ℚ
  breakoutStrength : ℚ
  deriving DecidableEq, Repr

/-- The `keyPoints` map of a detected double top. -/
structure DTKeyPoints where
  startPoint : PricePoint
  firstPeak : VolPoint
  valley : VolPoint
  secondPeak : VolPoint
  breakoutPoint : DTBreakoutPoint
  deriving DecidableEq, Repr

/-- The `patternData` object of a detected double top. -/
structure DTPatternData where
  confidence : ℚ
  keyPoints : DTKeyPoints
  necklineLevel : ℚ
  priceTarget : ℚ
  patternHeight : ℚ
  timespan : ℤ
  metrics : DTMetrics
  deriving DecidableEq, Repr

/-- `validateDoubleTop`: the five-stage validator.  `none` models the
`return null` rejections; a `some` result is the JS
`{ detected: true, patternData }`. -/
def validateDoubleTop (startTrough firstPeak secondPeak : TurningPoint)
    (candles : List Candle) (config? : Option DTConfig) : Option DTPatternData :=
  let patternConfig := config?.getD dtDefaultConfig
  -- 1. peak similarity
  let firstPeakHeight := firstPeak.high
  let secondPeakHeight := secondPeak.high
  let heightDiff := qdiv (qabs (qsub firstPeakHeight secondPeakHeight)) firstPeakHeight
  let atr := calculateATR candles 14 firstPeak.index
  let avgPrice := qdiv (qadd firstPeakHeight secondPeakHeight) 2
  let volatilityRatio := qdiv atr avgPrice
  let peakSimilarityThreshold := dtPeakSimilarityThreshold patternConfig volatilityRatio
  match dtPeakSimilarityConfidence heightDiff peakSimilarityThreshold with
  | none => none
  | some peakSimilarityConfidence =>
  -- 2. trough validation
  match dtFindValley candles firstPeak.index secondPeak.index with
  | none => none
  | some valley =>
  let troughDecline := qdiv (qsub firstPeak.high valley.low) firstPeak.high
  let minTroughDepth := dtMinTroughDepth patternConfig volatilityRatio
  match dtTroughConfidence troughDecline minTroughDepth with
  | none => none
  | some troughConfidence =>
  -- 3. breakout confirmation
  let necklineLevel := valley.low
  let breakoutThreshold : ℚ :=
    if patternConfig.volatilityFactors.highVolatility < volatilityRatio then Rat.divInt 24 25
    else if volatilityRatio < patternConfig.volatilityFactors.lowVolatility then Rat.divInt 99 100
    else Rat.divInt 49 50
  let breakoutConfirmationLevel := qmul necklineLevel breakoutThreshold
  let recentCandles := (candles.drop (secondPeak.index - 10)).take
    (secondPeak.index - (secondPeak.index - 10))
  let avgVolume := qdiv (qsum (recentCandles.map (·.volume))) (recentCandles.length : ℚ)
  let breakoutPoint? : Option DTBreakoutPoint :=
    match dtStrongBreakout candles secondPeak.index breakoutConfirmationLevel avgVolume with
    | some b => some b
    | none =>
      if secondPeak.index + 5 < candles.length then
        let postPeakCandles := (candles.drop (secondPeak.index + 1)).take
          (min candles.length (secondPeak.index + 10) - (secondPeak.index + 1))
        let minLow := jsMinList (postPeakCandles.map (·.low))
        let declinePercentage := qdiv (qsub secondPeak.high minLow) secondPeak.high
        if Rat.divInt 3 100 < declinePercentage then
          let rel := postPeakCandles.findIdx fun c => decide (c.low = minLow)
          let lowestPostPeakIdx := secondPeak.index + 1 + rel
          let c := candleAt candles lowestPostPeakIdx
          some { date := c.date, price := c.low, volume := c.volume,
                 volumeRatio := qdiv c.volume avgVolume, isPartial := true }
        else none
      else none
  match breakoutPoint? with
  | none => none
  | some breakoutPoint =>
  -- 4. prior trend, 5. volume, 6. breakout volume
  let priorTrend := calculatePriorTrend candles startTrough.index 20
  let trendConfidence : ℚ :=
    if priorTrend = "uptrend" then 1
    else if priorTrend = "sideways" then Rat.divInt 7 10
    else Rat.divInt 2 5
  let volumeConfidence := analyzeVolumeProfile firstPeak secondPeak
  let breakoutConfidence : ℚ :=
    if breakoutPoint.isPartial then Rat.divInt 2 5
    else if Rat.divInt 3 2 < breakoutPoint.volumeRatio then 1
    else if 1 < breakoutPoint.volumeRatio then Rat.divInt 4 5
    else Rat.divInt 1 2
  -- pattern metrics and composite confidence
  let patternHeight := qsub (qdiv (qadd firstPeak.high secondPeak.high) 2) necklineLevel
  let priceTarget := qsub necklineLevel patternHeight
  let timespan := qsub breakoutPoint.date firstPeak.date
  let overall :=
    qadd (qadd (qadd (qadd (qmul peakSimilarityConfidence (Rat.divInt 3 10))
      (qmul troughConfidence (Rat.divInt 1 5)))
      (qmul volumeConfidence (Rat.divInt 3 20)))
      (qmul trendConfidence (Rat.divInt 1 4)))
      (qmul breakoutConfidence (Rat.divInt 1 10))
  let overall :=
    if breakoutPoint.isPartial ∧ Rat.divInt 7 10 < peakSimilarityConfidence ∧
        Rat.divInt 7 10 < troughConfidence ∧ Rat.divInt 7 10 < trendConfidence then
      qadd overall (Rat.divInt 1 20)
    else overall
  let overall := qmax (Rat.divInt 2 5) overall
  some
    { confidence := round2 overall,
      keyPoints :=
        { startPoint := { date := startTrough.date, price := startTrough.low },
          firstPeak := { date := firstPeak.date, price := firstPeak.high,
                         volume := firstPeak.volume },
          valley := { date := valley.date, price := valley.low, volume := valley.volume },
          secondPeak := { date := secondPeak.date, price := secondPeak.high,
                          volume := secondPeak.volume },
          breakoutPoint := breakoutPoint },
      necklineLevel := necklineLevel,
      priceTarget := priceTarget,
      patternHeight := patternHeight,
      timespan := jsRound timespan,
      metrics :=
        { peakSimilarity := round2 peakSimilarityConfidence,
          troughQuality := round2 troughConfidence,
          volumeProfile := round2 volumeConfidence,
          priorTrend := priorTrend,
          trendStrength := round2 trendConfidence,
          breakoutStrength := round2 breakoutConfidence } }

/-- A detected result: the validator's `patternData` plus the peak indices
added by `detectDoubleTop` (the debug-only `metadata` strings are omitted). -/
structure DTDetected where
  patternData : DTPatternData
  firstPeakIndex : ℕ
  secondPeakIndex : ℕ
  deriving DecidableEq, Repr

/-- Result of `detectDoubleTop`. -/
inductive DTResult where
  | notDetected (reason : String)
  | detected (r : DTDetected)
  deriving DecidableEq, Repr

/-- Candidate enumeration of `detectDoubleTop`: for each first peak (in
`sortedPeaks` order), the most recent preceding trough, and each later peak
within `min(60, candles.length / 4)` bars. -/
def dtCandidates (peaks troughs : List TurningPoint) (len : ℕ) :
    List (TurningPoint × TurningPoint × TurningPoint) :=
  peaks.flatMap fun firstPeak =>
    let precedingTroughs := troughs.filter fun t => t.index < firstPeak.index
    match precedingTroughs.getLast? with
    | none => []
    | some startTrough =>
      (peaks.filter fun p =>
        firstPeak.index < p.index ∧
        ((p.index - firstPeak.index : ℕ) : ℚ) ≤ qmin 60 (qdiv (len : ℚ) 4)).map
        fun secondPeak => (startTrough, firstPeak, secondPeak)

/-- The selection after the candidate loop: stable descending sort by
confidence, first element (or the not-detected result on an empty list). -/
def dtFinalize (acc : List DTDetected) : DTResult :=
  match (sortDescBy (fun r => r.patternData.confidence) acc).head? with
  | some best => .detected best
  | none => .notDetected ("No valid Double Top patterns found")

/-- The candidate loop of `detectDoubleTop`: validate each candidate, return
immediately on confidence above `0.85`, otherwise accumulate and finally pick
the highest-confidence pattern (stable descending sort, first element). -/
def dtSearch (candles : List Candle) (cfg : Option DTConfig) :
    List (TurningPoint × TurningPoint × TurningPoint) → List DTDetected → DTResult
  | [], acc => dtFinalize acc
  | (startTrough, firstPeak, secondPeak) :: rest, acc =>
    match validateDoubleTop startTrough firstPeak secondPeak candles cfg with
    | none => dtSearch candles cfg rest acc
    | some pd =>
      let r : DTDetected :=
        { patternData := pd, firstPeakIndex := firstPeak.index,
          secondPeakIndex := secondPeak.index }
      if Rat.divInt 17 20 < pd.confidence then .detected r
      else dtSearch candles cfg rest (acc ++ [r])

/-- The volatility-adjusted configuration computed at the start of
`detectDoubleTop`.  The `stdDev > 0.02` / `stdDev < 0.01` comparisons are
rendered on the variance (`variance > 0.0004` / `variance < 0.0001`), which
is equivalent since both sides are nonnegative; `Math.pow(x, 2)` is
`qmul x x`. -/
def dtAdjustedConfig (candles : List Candle) : DTConfig :=
  let recentCandles := candles.drop (candles.length - 30)
  let closes := recentCandles.map (·.close)
  let pctChanges := (closes.zip closes.tail).map fun pc => qdiv (qsub pc.2 pc.1) pc.1
  let avgChange := qdiv (qsum pctChanges) (pctChanges.length : ℚ)
  let variance := qdiv
    (qsum (pctChanges.map fun v => qmul (qsub v avgChange) (qsub v avgChange)))
    (pctChanges.length : ℚ)
  let base := dtDefaultConfig
  if Rat.divInt 4 10000 < variance then
    { base with
      maxPeakDifference := qmul base.maxPeakDifference (Rat.divInt 6 5),
      minTroughDepth := qmul base.minTroughDepth (Rat.divInt 3 2),
      volatilityFactors :=
        { base.volatilityFactors with
          highVolatility := qmul base.volatilityFactors.highVolatility (Rat.divInt 3 2) } }
  else if variance < Rat.divInt 1 10000 then
    { base with
      maxPeakDifference := qmul base.maxPeakDifference (Rat.divInt 9 10),
      minTroughDepth := qmul base.minTroughDepth (Rat.divInt 4 5) }
  else base

/-- `detectDoubleTop` (called as in `index.js`, without options).
`sortedPeaks` is `peaks` itself because the significance comparator is
constantly `NaN` (see the header). -/
def detectDoubleTop (candles : List Candle) : DTResult :=
  if candles.length < 20 then .notDetected ("Insufficient data")
  else if candles.length < 60 then
    .notDetected ("Insufficient data for reliable pattern detection")
  else
    let adjustedConfig := dtAdjustedConfig candles
    let pt := PatternUtils.findPeaksAndTroughs candles
    if pt.1.length < 2 ∨ pt.2.length < 1 then
      .notDetected ("Not enough peaks or troughs found")
    else
      dtSearch candles (some adjustedConfig) (dtCandidates pt.1 pt.2 candles.length) []

/-- The accepted results of running the validator over a candidate list, in
order. -/
def dtAcceptedOf (candles : List Candle) (cfg : Option DTConfig)
    (l : List (TurningPoint × TurningPoint × TurningPoint)) : List DTDetected :=
  l.filterMap fun c =>
    (validateDoubleTop c.1 c.2.1 c.2.2 candles cfg).map fun pd =>
      { patternData := pd, firstPeakIndex := c.2.1.index, secondPeakIndex := c.2.2.index }

/-- All accepted candidates of `detectDoubleTop` on `candles`: the validator
run over the full candidate enumeration with the detector's adjusted
configuration, in enumeration order. -/
def dtAccepted (candles : List Candle) : List DTDetected :=
  let pt := PatternUtils.findPeaksAndTroughs candles
  dtAcceptedOf candles (some (dtAdjustedConfig candles)) (dtCandidates pt.1 pt.2 candles.length)

end DoubleTop

/-- `arr.reduce((max, c) => c.high > max.high ? c : max, arr[0])`: first
maximal-high candle (the initial element is folded over twice, as in JS). -/
def jsMaxByHigh : List Candle → Option Candle
  | [] => none
  | h :: t => some ((h :: t).foldl (fun m c => if m.high < c.high then c else m) h)

/-- `arr.reduce((min, c) => c.low < min.low ? c : min, arr[0])`: first
minimal-low candle. -/
def jsMinByLow : List Candle → Option Candle
  | [] => none
  | h :: t => some ((h :: t).foldl (fun m c => if c.low < m.low then c else m) h)

namespace DoubleBottom
/-! `src/backend/detectors/doubleBottom.js`. -/

/-- The `keyPoints` map of a detected double bottom. -/
structure DBKeyPoints where
  startPoint : PricePoint
  firstBottom : VolPoint
  peak : VolPoint
  secondBottom : VolPoint
  breakoutPoint : VolPoint
  deriving DecidableEq, Repr

/-- The `patternData` object of a detected double bottom. -/
structure DBPatternData where
  confidence : ℚ
  keyPoints : DBKeyPoints
  necklineLevel : ℚ
  priceTarget : ℚ
  patternHeight : ℚ
  timespan : ℤ
  deriving DecidableEq, Repr

/-- `validateDoubleBottom`: trough similarity (6% of the lower low), a ≥10%
intermediate peak rise, neckline above both lows, and a close 5% above the
neckline after the second bottom.  `none` models every `return null`. -/
def validateDoubleBottom (startPeak firstBottom secondBottom : TurningPoint)
    (candles : List Candle) : Option DBPatternData :=
  if secondBottom.index ≤ firstBottom.index + 1 then none
  else
  let priceDiff := qdiv (qabs (qsub firstBottom.low secondBottom.low))
    (qmin firstBottom.low secondBottom.low)
  if Rat.divInt 6 100 < priceDiff then none
  else
  let candlesBetween := (candles.drop (firstBottom.index + 1)).take
    (secondBottom.index - (firstBottom.index + 1))
  match jsMaxByHigh candlesBetween with
  | none => none
  | some peak =>
  let peakRise := qdiv (qsub peak.high firstBottom.low) firstBottom.low
  if peakRise < Rat.divInt 1 10 then none
  else
  let necklineLevel := peak.high
  if necklineLevel ≤ firstBottom.low ∨ necklineLevel ≤ secondBottom.low then none
  else
  let breakoutConfirmationLevel := qmul necklineLevel (Rat.divInt 21 20)
  match (List.range' (secondBottom.index + 1) (candles.length - (secondBottom.index + 1))).find?
      (fun k => decide (breakoutConfirmationLevel < (candleAt candles k).close)) with
  | none => none
  | some k =>
  let bc := candleAt candles k
  let patternHeight := qsub necklineLevel (qdiv (qadd firstBottom.low secondBottom.low) 2)
  let priceTarget := qadd necklineLevel patternHeight
  some
    { confidence := qsub 1 priceDiff,
      keyPoints :=
        { startPoint := { date := startPeak.date, price := startPeak.high },
          firstBottom := { date := firstBottom.date, price := firstBottom.low,
                           volume := firstBottom.volume },
          peak := { date := peak.date, price := peak.high, volume := peak.volume },
          secondBottom := { date := secondBottom.date, price := secondBottom.low,
                            volume := secondBottom.volume },
          breakoutPoint := { date := bc.date, price := bc.close, volume := bc.volume } },
      necklineLevel := necklineLevel,
      priceTarget := priceTarget,
      patternHeight := patternHeight,
      timespan := jsRound (qsub bc.date firstBottom.date) }

/-- Result of `detectDoubleBottom` (the final fall-through is the bare
`{ detected: false }` without a reason; the success object also carries the
constant `pattern: "Double Bottom"`). -/
inductive DBResult where
  | notDetected (reason : Option String)
  | detected (patternData : DBPatternData)
  deriving DecidableEq, Repr

/-- Candidate enumeration of `detectDoubleBottom`: each trough as first
bottom (with the most recent preceding peak as start point), paired with
every later trough, in loop order. -/
def dbCandidates (peaks troughs : List TurningPoint) :
    List (TurningPoint × TurningPoint × TurningPoint) :=
  troughs.enum.flatMap fun it =>
    let firstBottom := it.2
    match (peaks.filter fun p => p.index < firstBottom.index).getLast? with
    | none => []
    | some startPeak =>
      (troughs.drop (it.1 + 1)).map fun secondBottom => (startPeak, firstBottom, secondBottom)

/-- The candidate loop: return the first valid pattern found. -/
def dbSearch (candles : List Candle) :
    List (TurningPoint × TurningPoint × TurningPoint) → DBResult
  | [] => .notDetected none
  | (startPeak, firstBottom, secondBottom) :: rest =>
    match validateDoubleBottom startPeak firstBottom secondBottom candles with
    | some r => .detected r
    | none => dbSearch candles rest

/-- `detectDoubleBottom`. -/
def detectDoubleBottom (candles : List Candle) : DBResult :=
  if candles.length < 30 then .notDetected (some ("Not enough data"))
  else
    let pt := PatternUtils.findPeaksAndTroughs candles
    if pt.2.length < 2 ∨ pt.1.length < 1 then
      .notDetected (some ("Not enough peaks or troughs found"))
    else
      dbSearch candles (dbCandidates pt.1 pt.2)

end DoubleBottom

namespace TripleTop
/-! `src/backend/detectors/tripleTop.js`. -/

/-- The `keyPoints` map of a detected triple top (here `startPoint` also
carries a volume). -/
structure TTKeyPoints where
  startPoint : VolPoint
  firstPeak : VolPoint
  firstTrough : VolPoint
  secondPeak : VolPoint
  secondTrough : VolPoint
  thirdPeak : VolPoint
  breakoutPoint : VolPoint
  deriving DecidableEq, Repr

/-- The `patternData` object of a detected triple top. -/
structure TTPatternData where
  confidence : ℚ
  keyPoints : TTKeyPoints
  necklineLevel : ℚ
  priceTarget : ℚ
  patternHeight : ℚ
  timespan : ℤ
  deriving DecidableEq, Repr

/-- `validateTripleTop`: spacing, 5% similarity to the highest peak, the two
intermediate troughs, a neckline below the average peak price, and a close
below the neckline after the third peak. -/
def validateTripleTop (startTrough firstPeak secondPeak thirdPeak : TurningPoint)
    (candles : List Candle) : Option TTPatternData :=
  if secondPeak.index ≤ firstPeak.index + 1 ∨ thirdPeak.index ≤ secondPeak.index + 1 then none
  else
  let peakPrices := [firstPeak.high, secondPeak.high, thirdPeak.high]
  let maxPeakPrice := qmax (qmax firstPeak.high secondPeak.high) thirdPeak.high
  let avgPeakPrice := qdiv (qadd (qadd firstPeak.high secondPeak.high) thirdPeak.high) 3
  let priceDiffs := peakPrices.map fun p => qdiv (qabs (qsub p maxPeakPrice)) maxPeakPrice
  if priceDiffs.any (fun d => decide (Rat.divInt 5 100 < d)) then none
  else
  let candlesBetween1 := (candles.drop (firstPeak.index + 1)).take
    (secondPeak.index - (firstPeak.index + 1))
  let candlesBetween2 := (candles.drop (secondPeak.index + 1)).take
    (thirdPeak.index - (secondPeak.index + 1))
  match jsMinByLow candlesBetween1, jsMinByLow candlesBetween2 with
  | some firstTrough, some secondTrough =>
    let necklineLevel := qmin firstTrough.low secondTrough.low
    if avgPeakPrice ≤ necklineLevel then none
    else
    match (List.range' (thirdPeak.index + 1) (candles.length - (thirdPeak.index + 1))).find?
        (fun i => decide ((candleAt candles i).close < necklineLevel)) with
    | none => none
    | some i =>
      let bc := candleAt candles i
      let patternHeight := qsub avgPeakPrice necklineLevel
      let priceTarget := qsub necklineLevel patternHeight
      some
        { confidence := qsub 1 (priceDiffs.foldl qmax (priceDiffs.headD 0)),
          keyPoints :=
            { startPoint := { date := startTrough.date, price := startTrough.low,
                              volume := startTrough.volume },
              firstPeak := { date := firstPeak.date, price := firstPeak.high,
                             volume := firstPeak.volume },
              firstTrough := { date := firstTrough.date, price := firstTrough.low,
                               volume := firstTrough.volume },
              secondPeak := { date := secondPeak.date, price := secondPeak.high,
                              volume := secondPeak.volume },
              secondTrough := { date := secondTrough.date, price := secondTrough.low,
                                volume := secondTrough.volume },
              thirdPeak := { date := thirdPeak.date, price := thirdPeak.high,
                             volume := thirdPeak.volume },
              breakoutPoint := { date := bc.date, price := bc.close, volume := bc.volume } },
          necklineLevel := necklineLevel,
          priceTarget := priceTarget,
          patternHeight := patternHeight,
          timespan := jsRound (qsub bc.date firstPeak.date) }
  | _, _ => none

/-- Result of `detectTripleTop` (the final fall-through is the bare
`{ detected: false }`). -/
inductive TTResult where
  | notDetected (reason : Option String)
  | detected (patternData : TTPatternData)
  deriving DecidableEq, Repr

/-- Candidate enumeration of `detectTripleTop`: ordered peak triples in the
nested-loop order, each with the most recent trough before the first peak. -/
def ttCandidates (peaks troughs : List TurningPoint) :
    List (TurningPoint × TurningPoint × TurningPoint × TurningPoint) :=
  peaks.enum.flatMap fun ip =>
    let firstPeak := ip.2
    match (troughs.filter fun t => t.index < firstPeak.index).getLast? with
    | none => []
    | some startTrough =>
      let laterPeaks := peaks.drop (ip.1 + 1)
      laterPeaks.enum.flatMap fun jp =>
        (laterPeaks.drop (jp.1 + 1)).map fun thirdPeak =>
          (startTrough, firstPeak, jp.2, thirdPeak)

/-- The candidate loop: return the first valid pattern found. -/
def ttSearch (candles : List Candle) :
    List (TurningPoint × TurningPoint × TurningPoint × TurningPoint) → TTResult
  | [] => .notDetected none
  | (startTrough, p1, p2, p3) :: rest =>
    match validateTripleTop startTrough p1 p2 p3 candles with
    | some r => .detected r
    | none => ttSearch candles rest

/-- `detectTripleTop`. -/
def detectTripleTop (candles : List Candle) : TTResult :=
  if candles.length < 50 then .notDetected (some ("Not enough data"))
  else
    let pt := PatternUtils.findPeaksAndTroughs candles
    if pt.1.length < 3 then .notDetected (some ("Not enough peaks found"))
    else
      ttSearch candles (ttCandidates pt.1 pt.2)

end TripleTop

/-- Fallback turning point for total list indexing (in-bounds at every use
reached by the theorems). -/
def dummyTurningPoint : TurningPoint := mkTurningPoint 0 dummyCandle

/-- `troughs[i]` as a total function. -/
def tpAt (l : List TurningPoint) (i : ℕ) : TurningPoint := l.getD i dummyTurningPoint

namespace TripleBottom
/-! `src/backend/detectors/tripleBottom.js`. -/

/-- `findSignificantPeaks` (tripleBottom module): retry with window
`max(3, ⌊length·0.02⌋)` and then `2` when fewer than 2 peaks are found. -/
def findSignificantPeaks (candles : List Candle) (initialWindow? : Option ℕ) :
    List TurningPoint :=
  let windowSize := initialWindow?.getD (PatternUtils.calculateOptimalWindowSize candles.length)
  let peaks := (PatternUtils.findPeaksAndTroughs candles (some windowSize)).1
  if peaks.length < 2 then
    let smallerWindow := max 3 (candles.length * 2 / 100)
    let smallerResult := (PatternUtils.findPeaksAndTroughs candles (some smallerWindow)).1
    if smallerResult.length < 2 then
      let minResult := (PatternUtils.findPeaksAndTroughs candles (some 2)).1
      if minResult.length < 2 then [] else minResult
    else smallerResult
  else peaks

/-- `findSignificantTroughs` (tripleBottom module): same retry scheme, with
the threshold 3. -/
def findSignificantTroughs (candles : List Candle) (initialWindow? : Option ℕ) :
    List TurningPoint :=
  let windowSize := initialWindow?.getD (PatternUtils.calculateOptimalWindowSize candles.length)
  let troughs := (PatternUtils.findPeaksAndTroughs candles (some windowSize)).2
  if troughs.length < 3 then
    let smallerWindow := max 3 (candles.length * 2 / 100)
    let smallerResult := (PatternUtils.findPeaksAndTroughs candles (some smallerWindow)).2
    if smallerResult.length < 3 then
      let minResult := (PatternUtils.findPeaksAndTroughs candles (some 2)).2
      if minResult.length < 3 then [] else minResult
    else smallerResult
  else troughs

/-- `findStartPeak`: the most recent peak before the trough. -/
def findStartPeak (trough : TurningPoint) (peaks : List TurningPoint) :
    Option TurningPoint :=
  (peaks.filter fun p => p.index < trough.index).getLast?

/-- A trough triplet with its starting peak (the debug-only running `index`
field is omitted). -/
structure TBTriplet where
  startPeak : TurningPoint
  firstBottom : TurningPoint
  secondBottom : TurningPoint
  thirdBottom : TurningPoint
  deriving DecidableEq, Repr

/-- `generateTroughTriplets`: all index triples `i < j < k` over the trough
list, skipping first bottoms without a preceding peak. -/
def generateTroughTriplets (troughs peaks : List TurningPoint) : List TBTriplet :=
  (List.range (troughs.length - 2)).flatMap fun i =>
    let firstBottom := tpAt troughs i
    match findStartPeak firstBottom peaks with
    | none => []
    | some startPeak =>
      (List.range' (i + 1) (troughs.length - 1 - (i + 1))).flatMap fun j =>
        (List.range' (j + 1) (troughs.length - (j + 1))).map fun k =>
          { startPeak := startPeak, firstBottom := firstBottom,
            secondBottom := tpAt troughs j, thirdBottom := tpAt troughs k }

/-- `validateTroughSpacing` (default minimum distance 2). -/
def validateTroughSpacing (firstBottom secondBottom thirdBottom : TurningPoint)
    (minDistance : ℕ := 2) : Bool :=
  firstBottom.index + minDistance ≤ secondBottom.index ∧
  secondBottom.index + minDistance ≤ thirdBottom.index

/-- Result of `validateBottomSimilarity`. -/
structure TBSimilarity where
  isValid : Bool
  differences : List ℚ
  maxDifference : ℚ
  avgBottomPrice : ℚ
  deriving DecidableEq, Repr

/-- `validateBottomSimilarity`: each bottom within `tolerance` of the lowest
bottom (relative to the lowest). -/
def validateBottomSimilarity (firstBottom secondBottom thirdBottom : TurningPoint)
    (tolerance : ℚ := Rat.divInt 8 100) : TBSimilarity :=
  let bottomPrices := [firstBottom.low, secondBottom.low, thirdBottom.low]
  let minBottomPrice := qmin (qmin firstBottom.low secondBottom.low) thirdBottom.low
  let avgBottomPrice := qdiv (qadd (qadd firstBottom.low secondBottom.low) thirdBottom.low) 3
  let priceDiffs := bottomPrices.map fun p => qdiv (qabs (qsub p minBottomPrice)) minBottomPrice
  { isValid := priceDiffs.all fun d => decide (d ≤ tolerance),
    differences := priceDiffs,
    maxDifference := priceDiffs.foldl qmax (priceDiffs.headD 0),
    avgBottomPrice := avgBottomPrice }

/-- `findIntermediatePeaks`: the maximal-high candles strictly between the
consecutive bottoms. -/
def findIntermediatePeaks (firstBottom secondBottom thirdBottom : TurningPoint)
    (candles : List Candle) : Option (Candle × Candle) :=
  let candlesBetween1 := (candles.drop (firstBottom.index + 1)).take
    (secondBottom.index - (firstBottom.index + 1))
  let candlesBetween2 := (candles.drop (secondBottom.index + 1)).take
    (thirdBottom.index - (secondBottom.index + 1))
  match jsMaxByHigh candlesBetween1, jsMaxByHigh candlesBetween2 with
  | some firstPeak, some secondPeak => some (firstPeak, secondPeak)
  | _, _ => none

/-- `calculateNecklineLevel`: the higher of the two intermediate peaks. -/
def calculateNecklineLevel (firstPeak secondPeak : Candle) : ℚ :=
  qmax firstPeak.high secondPeak.high

/-- `validateNeckline`: neckline strictly above the average bottom price. -/
def validateNeckline (necklineLevel avgBottomPrice : ℚ) : Bool :=
  avgBottomPrice < necklineLevel

/-- Breakout record of the tripleBottom module. -/
structure TBBreakout where
  date : ℚ
  price : ℚ
  volume : ℚ
  index : ℕ
  isConfirmed : Bool
  deriving DecidableEq, Repr

/-- `detectBreakout` (tripleBottom module): first close strictly above the
neckline after the third bottom. -/
def detectBreakout (thirdBottom : TurningPoint) (necklineLevel : ℚ)
    (candles : List Candle) : Option TBBreakout :=
  match (List.range' (thirdBottom.index + 1) (candles.length - (thirdBottom.index + 1))).find?
      (fun i => decide (necklineLevel < (candleAt candles i).close)) with
  | some i =>
    let c := candleAt candles i
    some { date := c.date, price := c.close, volume := c.volume, index := i,
           isConfirmed := true }
  | none => none

/-- The `keyPoints` map of a detected triple bottom. -/
structure TBKeyPoints where
  startPoint : VolPoint
  firstBottom : VolPoint
  firstPeak : VolPoint
  secondBottom : VolPoint
  secondPeak : VolPoint
  thirdBottom : VolPoint
  breakoutPoint : TBBreakout
  deriving DecidableEq, Repr

/-- The `patternData` object of a detected triple bottom. -/
structure TBPatternData where
  confidence : ℚ
  keyPoints : TBKeyPoints
  necklineLevel : ℚ
  priceTarget : ℚ
  patternHeight : ℚ
  timespan : ℤ
  type : String
  deriving DecidableEq, Repr

/-- `calculatePatternMetrics` (tripleBottom module). -/
def calculatePatternMetrics (startPeak firstBottom secondBottom thirdBottom : TurningPoint)
    (firstPeak secondPeak : Candle) (breakoutPoint : TBBreakout)
    (necklineLevel avgBottomPrice maxPriceDiff : ℚ) : TBPatternData :=
  let patternHeight := qsub necklineLevel avgBottomPrice
  let priceTarget := qadd necklineLevel patternHeight
  { confidence := qsub 1 maxPriceDiff,
    keyPoints :=
      { startPoint := { date := startPeak.date, price := startPeak.high,
                        volume := startPeak.volume },
        firstBottom := { date := firstBottom.date, price := firstBottom.low,
                         volume := firstBottom.volume },
        firstPeak := { date := firstPeak.date, price := firstPeak.high,
                       volume := firstPeak.volume },
        secondBottom := { date := secondBottom.date, price := secondBottom.low,
                          volume := secondBottom.volume },
        secondPeak := { date := secondPeak.date, price := secondPeak.high,
                        volume := secondPeak.volume },
        thirdBottom := { date := thirdBottom.date, price := thirdBottom.low,
                         volume := thirdBottom.volume },
        breakoutPoint := breakoutPoint },
    necklineLevel := necklineLevel,
    priceTarget := priceTarget,
    patternHeight := patternHeight,
    timespan := jsRound (qsub breakoutPoint.date firstBottom.date),
    type := "Triple Bottom" }

/-- `validateTripleBottom` with the detector's default options
(`minTroughSpacing = 2`, `bottomPriceTolerance = 0.08`,
`requireBreakout = true`; with `requireBreakout = false` and no breakout the
JS code would dereference `null.date` inside the metrics and throw, but no
call site passes `false`). -/
def validateTripleBottom (startPeak firstBottom secondBottom thirdBottom : TurningPoint)
    (candles : List Candle) : Option TBPatternData :=
  if ¬ validateTroughSpacing firstBottom secondBottom thirdBottom 2 then none
  else
  let similarityResult :=
    validateBottomSimilarity firstBottom secondBottom thirdBottom (Rat.divInt 8 100)
  if ¬ similarityResult.isValid then none
  else
  match findIntermediatePeaks firstBottom secondBottom thirdBottom candles with
  | none => none
  | some peaks =>
  let necklineLevel := calculateNecklineLevel peaks.1 peaks.2
  if ¬ validateNeckline necklineLevel similarityResult.avgBottomPrice then none
  else
  match detectBreakout thirdBottom necklineLevel candles with
  | none => none
  | some breakoutPoint =>
  some (calculatePatternMetrics startPeak firstBottom secondBottom thirdBottom
    peaks.1 peaks.2 breakoutPoint necklineLevel similarityResult.avgBottomPrice
    similarityResult.maxDifference)

/-- Result of `detectTripleBottom` (the success object also carries the
constants `detected: true`, `success: true`, `pattern: "Triple Bottom"`). -/
inductive TBResult where
  | notDetected (reason : String)
  | detected (patternData : TBPatternData)
  deriving DecidableEq, Repr

/-- The triplet loop: return the first valid pattern found. -/
def tbSearch (candles : List Candle) : List TBTriplet → TBResult
  | [] => .notDetected ("No valid pattern found")
  | t :: rest =>
    match validateTripleBottom t.startPeak t.firstBottom t.secondBottom t.thirdBottom candles with
    | some r => .detected r
    | none => tbSearch candles rest

/-- `detectTripleBottom` (default options).  The opening dataset-size log
dereferences `candles[0].date`, so an empty input throws a `TypeError`. -/
def detectTripleBottom (candles : List Candle) : Except JsError TBResult :=
  match candles with
  | [] => .error .typeError
  | _ :: _ =>
    if candles.length < 50 then .ok (.notDetected ("Not enough data"))
    else
      let peaks := findSignificantPeaks candles none
      let troughs := findSignificantTroughs candles none
      if peaks.length < 2 ∨ troughs.length < 3 then
        .ok (.notDetected
          (if troughs.length < 3 then "Not enough troughs found" else "Not enough peaks found"))
      else
        .ok (tbSearch candles (generateTroughTriplets troughs peaks))

end TripleBottom

namespace InverseHS
/-! `src/backend/detectors/inverseHeadAndShoulders.js`, with the detector's
default options (`minDataPoints = 30`, `windowSize = null`,
`shoulderDepthTolerance = 0.25`, `breakoutRequired = false`,
`minConfidence = 0.6`, `findFormingPattern = false`; the fixture-only
`analyzeFormingPattern` path is therefore never taken and is not modelled). -/

/-- `findSignificantPeaks` (inverse module): one retry with window
`max(3, ⌊length·0.02⌋)`, keeping the original list unless the retry reaches
2 peaks. -/
def findSignificantPeaks (candles : List Candle) (initialWindow? : Option ℕ) :
    List TurningPoint :=
  let windowSize := initialWindow?.getD (PatternUtils.calculateOptimalWindowSize candles.length)
  let peaks := (PatternUtils.findPeaksAndTroughs candles (some windowSize)).1
  if peaks.length < 2 then
    let smallerWindow := max 3 (candles.length * 2 / 100)
    let smallerResult := (PatternUtils.findPeaksAndTroughs candles (some smallerWindow)).1
    if 2 ≤ smallerResult.length then smallerResult else peaks
  else peaks

/-- `findSignificantTroughs` (inverse module): same retry, threshold 3. -/
def findSignificantTroughs (candles : List Candle) (initialWindow? : Option ℕ) :
    List TurningPoint :=
  let windowSize := initialWindow?.getD (PatternUtils.calculateOptimalWindowSize candles.length)
  let troughs := (PatternUtils.findPeaksAndTroughs candles (some windowSize)).2
  if troughs.length < 3 then
    let smallerWindow := max 3 (candles.length * 2 / 100)
    let smallerResult := (PatternUtils.findPeaksAndTroughs candles (some smallerWindow)).2
    if 3 ≤ smallerResult.length then smallerResult else troughs
  else troughs

/-- `findStartPeak`: the most recent peak before the trough. -/
def findStartPeak (trough : TurningPoint) (peaks : List TurningPoint) :
    Option TurningPoint :=
  (peaks.filter fun p => p.index < trough.index).getLast?

/-- A shoulders/head triplet (the debug-only running `index` field is
omitted). -/
structure IHSTriplet where
  leftShoulder : TurningPoint
  head : TurningPoint
  rightShoulder : TurningPoint
  deriving DecidableEq, Repr

/-- `generateTroughTriplets` (inverse module): consecutive trough triples,
kept only when their indices are strictly ascending. -/
def generateTroughTriplets (troughs : List TurningPoint) : List IHSTriplet :=
  (List.range (troughs.length - 2)).filterMap fun i =>
    let leftShoulder := tpAt troughs i
    let head := tpAt troughs (i + 1)
    let rightShoulder := tpAt troughs (i + 2)
    if leftShoulder.index < head.index ∧ head.index < rightShoulder.index then
      some { leftShoulder := leftShoulder, head := head, rightShoulder := rightShoulder }
    else none

/-- `findIntermediatePeaks` (inverse module): the first peaks strictly
between shoulder and head on each side. -/
def findIntermediatePeaks (leftShoulder head rightShoulder : TurningPoint)
    (peaks : List TurningPoint) : Option (TurningPoint × TurningPoint) :=
  let leftPeak := peaks.find? fun p =>
    decide (leftShoulder.index < p.index ∧ p.index < head.index)
  let rightPeak := peaks.find? fun p =>
    decide (head.index < p.index ∧ p.index < rightShoulder.index)
  match leftPeak, rightPeak with
  | some l, some r => some (l, r)
  | _, _ => none

/-- `checkHeadDominance` (default tolerance 0.02): the head low must be below
both shoulder lows scaled by `1 + tolerance`. -/
def checkHeadDominance (leftShoulder head rightShoulder : TurningPoint)
    (tolerance : ℚ := Rat.divInt 2 100) : Bool :=
  head.low < qmul leftShoulder.low (qadd 1 tolerance) ∧
  head.low < qmul rightShoulder.low (qadd 1 tolerance)

/-- Result of `checkShoulderSymmetry`. -/
structure SymmetryResult where
  isValid : Bool
  shoulderDepthDiff : ℚ
  symmetryRatio : ℚ
  deriving DecidableEq, Repr

/-- `checkShoulderSymmetry` (default tolerance 0.25): relative depth
difference of the shoulder lows, measured against the lower low. -/
def checkShoulderSymmetry (leftShoulder rightShoulder : TurningPoint)
    (tolerance : ℚ := Rat.divInt 1 4) : SymmetryResult :=
  let shoulderDepthDiff := qdiv (qabs (qsub leftShoulder.low rightShoulder.low))
    (qmin leftShoulder.low rightShoulder.low)
  let symmetryRatio := qsub 1 shoulderDepthDiff
  { isValid := ¬ tolerance < shoulderDepthDiff,
    shoulderDepthDiff := shoulderDepthDiff,
    symmetryRatio := symmetryRatio }

/-- `calculateNeckline` (inverse module): the line through the two
intermediate peaks, as a function of the bar index. -/
def calculateNeckline (leftPeak rightPeak : TurningPoint) : ℚ → ℚ :=
  let m := qdiv (qsub rightPeak.high leftPeak.high)
    (qsub (rightPeak.index : ℚ) (leftPeak.index : ℚ))
  let c := qsub leftPeak.high (qmul m (leftPeak.index : ℚ))
  fun index => qadd (qmul m index) c

/-- Breakout record of the inverse module. -/
structure IHSBreakout where
  date : ℚ
  price : ℚ
  volume : ℚ
  index : ℕ
  necklineValue : ℚ
  deriving DecidableEq, Repr

/-- `detectBreakout` (inverse module): first close strictly above the
neckline value after the right shoulder, scanning to the end of the data. -/
def detectBreakout (rightShoulder : TurningPoint) (candles : List Candle)
    (getNecklineValue : ℚ → ℚ) : Option IHSBreakout :=
  match (List.range' (rightShoulder.index + 1) (candles.length - (rightShoulder.index + 1))).find?
      (fun (i : ℕ) => decide (getNecklineValue (i : ℚ) < (candleAt candles i).close)) with
  | some i =>
    let c := candleAt candles i
    some { date := c.date, price := c.close, volume := c.volume, index := i,
           necklineValue := getNecklineValue ((i : ℕ) : ℚ) }
  | none => none

/-- The `keyPoints` map of a detected inverse head and shoulders. -/
structure IHSKeyPoints where
  startPoint : VolPoint
  leftShoulder : VolPoint
  leftPeak : VolPoint
  head : VolPoint
  rightPeak : VolPoint
  rightShoulder : VolPoint
  necklineBreak : Option IHSBreakout
  deriving DecidableEq, Repr

/-- The `patternData` object of a detected inverse head and shoulders. -/
structure IHSPatternData where
  type : String
  confidence : ℚ
  keyPoints : IHSKeyPoints
  completed : Bool
  necklineLevel : ℚ
  priceTarget : ℚ
  patternHeight : ℚ
  timespan : ℤ
  symmetryRatio : ℚ
  volumeProfile : String
  deriving DecidableEq, Repr

/-- `calculatePatternMetrics` (inverse module).  `parseFloat(x.toFixed(2))`
is `round2`. -/
def calculatePatternMetrics (startPeak leftShoulder leftPeak head rightPeak
    rightShoulder : TurningPoint) (getNecklineValue : ℚ → ℚ)
    (breakoutPoint : Option IHSBreakout) (candles : List Candle)
    (symmetryRatio : ℚ) (hasBreakout : Bool) : IHSPatternData :=
  let necklineAtHead := getNecklineValue (head.index : ℚ)
  let patternHeight := qsub necklineAtHead head.low
  let necklineAtBreakout :=
    match breakoutPoint with
    | some b => getNecklineValue (b.index : ℚ)
    | none => getNecklineValue (qsub (candles.length : ℚ) 1)
  let priceTarget := qadd necklineAtBreakout patternHeight
  let timespan :=
    match breakoutPoint with
    | some b => qsub b.date leftShoulder.date
    | none => qsub ((candles.getLast?.map (·.date)).getD 0) leftShoulder.date
  let volumeProfile := if leftShoulder.volume < head.volume then "bullish" else "bearish"
  let confidence := if hasBreakout then symmetryRatio else qmul symmetryRatio (Rat.divInt 9 10)
  { type := "Inverse Head and Shoulders",
    confidence := round2 confidence,
    keyPoints :=
      { startPoint := { date := startPeak.date, price := startPeak.high,
                        volume := startPeak.volume },
        leftShoulder := { date := leftShoulder.date, price := leftShoulder.low,
                          volume := leftShoulder.volume },
        leftPeak := { date := leftPeak.date, price := leftPeak.high,
                      volume := leftPeak.volume },
        head := { date := head.date, price := head.low, volume := head.volume },
        rightPeak := { date := rightPeak.date, price := rightPeak.high,
                       volume := rightPeak.volume },
        rightShoulder := { date := rightShoulder.date, price := rightShoulder.low,
                           volume := rightShoulder.volume },
        necklineBreak := breakoutPoint },
    completed := breakoutPoint.isSome,
    necklineLevel := round2 necklineAtBreakout,
    priceTarget := round2 priceTarget,
    patternHeight := round2 patternHeight,
    timespan := jsRound timespan,
    symmetryRatio := round2 symmetryRatio,
    volumeProfile := volumeProfile }

/-- `validateInverseHeadAndShoulders` with the default options
(`shoulderDepthTolerance = 0.25`, `breakoutRequired = false`,
`minConfidence = 0.6`); the JS `patternData` argument object is flattened
into the six turning points plus the candle list.  The non-rejecting
`checkTimeSymmetry` call only logs and is not modelled. -/
def validateInverseHeadAndShoulders (startPeak leftShoulder head rightShoulder
    leftPeak rightPeak : TurningPoint) (candles : List Candle) :
    Option IHSPatternData :=
  if ¬ checkHeadDominance leftShoulder head rightShoulder (Rat.divInt 2 100) then none
  else
  let symmetryResult := checkShoulderSymmetry leftShoulder rightShoulder (Rat.divInt 1 4)
  if ¬ symmetryResult.isValid then none
  else
  let getNecklineValue := calculateNeckline leftPeak rightPeak
  let breakoutPoint := detectBreakout rightShoulder candles getNecklineValue
  if symmetryResult.symmetryRatio < Rat.divInt 3 5 then none
  else
  some (calculatePatternMetrics startPeak leftShoulder leftPeak head rightPeak
    rightShoulder getNecklineValue breakoutPoint candles
    symmetryResult.symmetryRatio breakoutPoint.isSome)

/-- Result of `detectInverseHeadAndShoulders` (the success object also
carries the constant `pattern` string). -/
inductive IHSResult where
  | failure (reason : String)
  | success (patternData : IHSPatternData)
  deriving DecidableEq, Repr

/-- The triplet loop of the inverse detector: skip triplets without a start
peak or intermediate peaks, return the first validated pattern. -/
def ihsSearch (candles : List Candle) (peaks : List TurningPoint) :
    List IHSTriplet → IHSResult
  | [] => .failure ("No pattern confirmed")
  | t :: rest =>
    match findStartPeak t.leftShoulder peaks with
    | none => ihsSearch candles peaks rest
    | some startPeak =>
      match findIntermediatePeaks t.leftShoulder t.head t.rightShoulder peaks with
      | none => ihsSearch candles peaks rest
      | some ip =>
        match validateInverseHeadAndShoulders startPeak t.leftShoulder t.head
            t.rightShoulder ip.1 ip.2 candles with
        | some r => .success r
        | none => ihsSearch candles peaks rest

/-- `detectInverseHeadAndShoulders` (default options).  The opening logs
dereference `candles[0].date`, so an empty input throws a `TypeError`. -/
def detectInverseHeadAndShoulders (candles : List Candle) : Except JsError IHSResult :=
  match candles with
  | [] => .error .typeError
  | _ :: _ =>
    if candles.length < 30 then .ok (.failure ("Not enough data"))
    else
      let effectiveWindowSize := max 3 (candles.length * 2 / 100)
      let peaks := findSignificantPeaks candles (some effectiveWindowSize)
      let troughs := findSignificantTroughs candles (some effectiveWindowSize)
      if troughs.length < 3 ∨ peaks.length < 2 then
        .ok (.failure ("Not enough troughs or peaks found: " ++
          toString troughs.length ++ " troughs, " ++ toString peaks.length ++ " peaks"))
      else
        .ok (ihsSearch candles peaks (generateTroughTriplets troughs))

end InverseHS

namespace HS
/-! `src/backend/detectors/headAndShoulders.js`.  The validator
`validateHeadAndShoulders` is declared with the FIVE formal parameters
`(candles, head, leftShoulder, rightShoulder, patternConfig)` but both call
sites in `detectHeadAndShoulders` invoke it with the EIGHT arguments
`(startTrough, leftShoulder, head, rightShoulder, leftTrough, rightTrough,
candles, adjustedConfig)`.  Inside the function the formal `candles` is
therefore the start trough turning point, the formal `head` is the left
shoulder, the formal `leftShoulder` is the head, and the formal
`patternConfig` is the left trough (a truthy object, so the fallback default
config is not installed); the identifiers `startTrough`, `leftTrough` and
`rightTrough` used in its body are not defined anywhere in the module. -/

/-- `volatilityFactors` block of the H&S configuration. -/
structure HSVolatilityFactors where
  highVolatility : ℚ
  lowVolatility : ℚ
  headAdjustment : ℚ
  shoulderAdjustment : ℚ
  deriving DecidableEq, Repr

/-- `breakout` block of the H&S configuration. -/
structure HSBreakoutConfig where
  defaultThreshold : ℚ
  highVolatilityThreshold : ℚ
  lowVolatilityThreshold : ℚ
  deriving DecidableEq, Repr

/-- The H&S detector configuration (`patternConfig` in
`detectHeadAndShoulders`; `minCandles = 60` and `windowSize = 10` are used as
literals below). -/
structure HSConfig where
  minHeadProminence : ℚ
  maxShoulderDiff : ℚ
  volatilityFactors : HSVolatilityFactors
  breakout : HSBreakoutConfig
  deriving DecidableEq, Repr

/-- The detector's `patternConfig` values (for the default ticker `''`
neither the index nor the crypto adjustment branch fires, so
`adjustedConfig` has the same values). -/
def hsDefaultConfig : HSConfig :=
  { minHeadProminence := Rat.divInt 3 100, maxShoulderDiff := Rat.divInt 15 100,
    volatilityFactors :=
      { highVolatility := Rat.divInt 2 100, lowVolatility := Rat.divInt 1 100,
        headAdjustment := Rat.divInt 3 2, shoulderAdjustment := Rat.divInt 13 10 },
    breakout :=
      { defaultThreshold := Rat.divInt 49 50, highVolatilityThreshold := Rat.divInt 24 25,
        lowVolatilityThreshold := Rat.divInt 99 100 } }

/-- Stand-in for the validator's (unreachable) success value; only the
confidence is ever consulted, by the final best-pattern sort. -/
structure HSValidated where
  confidence : ℚ
  deriving DecidableEq, Repr

/-- `validateHeadAndShoulders`, modelled at its call sites (see the namespace
comment for the parameter mismatch).  Execution before the throw:
`calculateATR` receives the start-trough turning point as its `candles`
array, so its loop bounds are `NaN`, no iteration runs, and it returns its
`0.01` default; the average price and head/shoulder ratios are computed from
the (permuted) peak arguments; then
`const symbol = candles[0].symbol` evaluates `candles[0]` on the start-trough
turning point, which is `undefined`, and the `.symbol` access throws a
`TypeError`.  Every invocation therefore throws. -/
def validateHeadAndShoulders (startTrough leftShoulder head rightShoulder
    leftTrough rightTrough : TurningPoint) (candles : List Candle)
    (patternConfig : HSConfig) : Except JsError (Option HSValidated) :=
  let atr : ℚ := Rat.divInt 1 100
  let avgPrice := qdiv (qadd (qadd head.high leftShoulder.high) rightShoulder.high) 3
  let _volatilityRatio := qdiv atr avgPrice
  let _headLeftShoulderRatio := qdiv (qsub leftShoulder.high head.high) leftShoulder.high
  let _headRightShoulderRatio := qdiv (qsub leftShoulder.high rightShoulder.high) leftShoulder.high
  let _ := (startTrough, leftTrough, rightTrough, candles, patternConfig)
  .error .typeError

/-- A phase candidate: `(startTrough, leftShoulder, head, rightShoulder,
leftTrough, rightTrough)`. -/
abbrev HSCandidate :=
  TurningPoint × TurningPoint × TurningPoint × TurningPoint × TurningPoint × TurningPoint

/-- Phase 1 candidates: for the five highest peaks as potential heads, every
(left shoulder, right shoulder) pair around them with a preceding start
trough and intermediate troughs on both sides. -/
def hsPhase1Candidates (peaks troughs : List TurningPoint) : List HSCandidate :=
  let sortedPeaks := sortDescBy (·.high) peaks
  let topPeaks := sortedPeaks.take 5
  topPeaks.flatMap fun potentialHead =>
    let potentialLeftShoulders := peaks.filter fun p => p.index < potentialHead.index
    let potentialRightShoulders := peaks.filter fun p => potentialHead.index < p.index
    potentialLeftShoulders.flatMap fun leftShoulder =>
      potentialRightShoulders.filterMap fun rightShoulder =>
        let leftTrough := troughs.find? fun t =>
          decide (leftShoulder.index < t.index ∧ t.index < potentialHead.index)
        let rightTrough := troughs.find? fun t =>
          decide (potentialHead.index < t.index ∧ t.index < rightShoulder.index)
        match (troughs.filter fun t => t.index < leftShoulder.index).getLast? with
        | none => none
        | some startTrough =>
          match leftTrough, rightTrough with
          | some lt, some rt =>
            some (startTrough, leftShoulder, potentialHead, rightShoulder, lt, rt)
          | _, _ => none

/-- Phase 2 candidates: consecutive peak triples
`(peaks[i], peaks[i+1], peaks[i+2])`, with the same trough requirements. -/
def hsPhase2Candidates (peaks troughs : List TurningPoint) : List HSCandidate :=
  (List.range (peaks.length - 2)).filterMap fun i =>
    let leftShoulder := tpAt peaks i
    let head := tpAt peaks (i + 1)
    let rightShoulder := tpAt peaks (i + 2)
    if ¬ (leftShoulder.index < head.index ∧ head.index < rightShoulder.index) then none
    else
      match (troughs.filter fun t => t.index < leftShoulder.index).getLast? with
      | none => none
      | some startTrough =>
        let leftTrough := troughs.find? fun t =>
          decide (leftShoulder.index < t.index ∧ t.index < head.index)
        let rightTrough := troughs.find? fun t =>
          decide (head.index < t.index ∧ t.index < rightShoulder.index)
        match leftTrough, rightTrough with
        | some lt, some rt =>
          some (startTrough, leftShoulder, head, rightShoulder, lt, rt)
        | _, _ => none

/-- Run the validator over a candidate list (exceptions propagate out of the
loop; `null` results are skipped, valid ones accumulated in order). -/
def hsRun (candles : List Candle) (cfg : HSConfig) :
    List HSCandidate → List HSValidated → Except JsError (List HSValidated)
  | [], acc => .ok acc
  | (st, ls, hd, rs, lt, rt) :: rest, acc => do
    let r ← validateHeadAndShoulders st ls hd rs lt rt candles cfg
    match r with
    | some v => hsRun candles cfg rest (acc ++ [v])
    | none => hsRun candles cfg rest acc

/-- Result of `detectHeadAndShoulders`. -/
inductive HSResult where
  | failure (reason : String)
  | success (r : HSValidated)
  deriving DecidableEq, Repr

/-- `detectHeadAndShoulders` with the default ticker `''` (so neither
ticker-specific configuration branch fires). -/
def detectHeadAndShoulders (candles : List Candle) : Except JsError HSResult := do
  if candles.length < 60 then
    return .failure ("Not enough data")
  let adjustedConfig := hsDefaultConfig
  let pt := PatternUtils.findPeaksAndTroughs candles (some 10)
  if pt.1.length < 3 ∨ pt.2.length < 2 then
    return .failure ("Not enough peaks or troughs found")
  let validPatterns ← hsRun candles adjustedConfig (hsPhase1Candidates pt.1 pt.2) []
  let validPatterns ←
    if validPatterns.length = 0 then
      hsRun candles adjustedConfig (hsPhase2Candidates pt.1 pt.2) []
    else pure validPatterns
  match (sortDescBy (fun r => r.confidence) validPatterns).head? with
  | some best => return .success best
  | none => return .failure ("No pattern confirmed")

end HS

/-! ## Accepted-candidate lists of the first-found detectors (the validator
run in enumeration order; the searches return the head of these lists). -/

/-- Accepted double-bottom candidates of `detectDoubleBottom`, in order. -/
def dbAccepted (candles : List Candle) : List DoubleBottom.DBPatternData :=
  let pt := PatternUtils.findPeaksAndTroughs candles
  (DoubleBottom.dbCandidates pt.1 pt.2).filterMap fun c =>
    DoubleBottom.validateDoubleBottom c.1 c.2.1 c.2.2 candles

/-- Accepted triple-top candidates of `detectTripleTop`, in order. -/
def ttAccepted (candles : List Candle) : List TripleTop.TTPatternData :=
  let pt := PatternUtils.findPeaksAndTroughs candles
  (TripleTop.ttCandidates pt.1 pt.2).filterMap fun c =>
    TripleTop.validateTripleTop c.1 c.2.1 c.2.2.1 c.2.2.2 candles

/-- Accepted triple-bottom triplets of `detectTripleBottom`, in order. -/
def tbAccepted (candles : List Candle) : List TripleBottom.TBPatternData :=
  (TripleBottom.generateTroughTriplets (TripleBottom.findSignificantTroughs candles none)
    (TripleBottom.findSignificantPeaks candles none)).filterMap fun t =>
    TripleBottom.validateTripleBottom t.startPeak t.firstBottom t.secondBottom
      t.thirdBottom candles

/-- Accepted inverse-head-and-shoulders triplets of
`detectInverseHeadAndShoulders`, in order (triplets without a start peak or
intermediate peaks are skipped). -/
def ihsAccepted (candles : List Candle) : List InverseHS.IHSPatternData :=
  let w := max 3 (candles.length * 2 / 100)
  let peaks := InverseHS.findSignificantPeaks candles (some w)
  (InverseHS.generateTroughTriplets (InverseHS.findSignificantTroughs candles (some w))).filterMap
    fun t => (InverseHS.findStartPeak t.leftShoulder peaks).bind fun sp =>
      (InverseHS.findIntermediatePeaks t.leftShoulder t.head t.rightShoulder peaks).bind fun ip =>
        InverseHS.validateInverseHeadAndShoulders sp t.leftShoulder t.head t.rightShoulder
          ip.1 ip.2 candles

/-! ## Concrete inputs used by the theorems below. -/

/-- A bar with mid price `m`: high `m+1`, low `m-1`, open and close `m`,
volume 1000, date equal to the index. -/
def midCandle (i : ℕ) (m : ℚ) : Candle :=
  { date := (i : ℚ), openPrice := m, high := qadd m 1, low := qsub m 1, close := m,
    volume := 1000 }

/-- Build a candle list from a list of mid prices. -/
def midCandles (mids : List ℚ) : List Candle :=
  mids.enum.map fun p => midCandle p.1 p.2

/-- A strictly rising 60-bar series: mid price `100 + i` at bar `i`, so
highs, lows and closes all rise strictly bar over bar. -/
def mono60 : List Candle :=
  (List.range 60).map fun i => midCandle i (qadd 100 (i : ℚ))

/-- A 60-bar series containing one double top: rise to a local top at bar 9,
start trough at 14, first peak at 20 (high 131), valley at 26 (low 114),
second peak at 33 (high 124), decline with a breakout, then a falling tail. -/
def dt60 : List Candle := midCandles
  [100, 102, 104, 106, 108, 110, 112, 114, 116, 118,
   116, 114, 112, 110, 108,
   112, 116, 120, 124, 127, 130,
   127, 124, 121, 119, 117, 115,
   117, 118, 119, 120, 121, 122, 123,
   120, 117, 114, 111, 108, 105, 102, 100, 98, 96, 95, 94,
   93, 92, 91, 90, 89, 88, 87, 86, 85, 84, 83, 82, 81, 80]

/-- A 46-bar series with three troughs (lows 100 at bar 9, 105 at bar 19,
100.5 at bar 29) and peaks at 4, 14, 24, followed by a strong rally: the
trough pairs (9,19) and (9,29) both form valid double bottoms with
confidences 0.95 and 0.995. -/
def db45 : List Candle := midCandles
  [110, 112, 114, 116, 118,
   114, 110, 106, 103, 101,
   104, 108, 112, 114, 116,
   113, 110, 108, 107, 106,
   109, 112, 114, 115, 116,
   112, 108, 104, 102, Rat.divInt 203 2,
   105, 110, 116, 122, 126,
   128, 130, 132, 134, 136,
   138, 140, 142, 144, 146, 148]

/-- A 32-bar series whose second trough has the negative low `-1` (bar 19),
while the first trough's low is `10` (bar 9): the double-bottom similarity
ratio `|10 - (-1)| / min(10, -1) = -11` passes the 6% check and yields the
confidence `1 - (-11) = 12`. -/
def negDB : List Candle := midCandles
  [14, 15, 16, 17, 18,
   16, 14, 13, 12, 11,
   13, 15, 17, 18, 19,
   14, 8, 4, 1, 0,
   3, 6, 10, 14, 17,
   19, 20, 21, 22, 23,
   24, 25]

/-- Helper for a candle given explicitly as (high, low, close); open is the
close, volume 1000, date the index. -/
def hlcCandle (i : ℕ) (h l c : ℚ) : Candle :=
  { date := (i : ℚ), openPrice := c, high := h, low := l, close := c, volume := 1000 }

/-- A 40-bar series with a complete inverse head and shoulders: shoulders at
bars 9 and 29 (lows 100), head at bar 19 (low 80), intermediate peaks at 14
(high 110) and 24 (high 120) giving the sloped neckline `i + 96`, and a
breakout close of 130 at bar 33 (neckline value 129 there). -/
def inv40 : List Candle :=
  [hlcCandle 0 106 104 105, hlcCandle 1 108 106 107, hlcCandle 2 110 108 109,
   hlcCandle 3 111 109 110, hlcCandle 4 112 110 111, hlcCandle 5 110 106 108,
   hlcCandle 6 108 104 106, hlcCandle 7 106 102 104, hlcCandle 8 104 101 102,
   hlcCandle 9 102 100 101, hlcCandle 10 104 102 103, hlcCandle 11 106 104 105,
   hlcCandle 12 108 106 107, hlcCandle 13 109 107 108, hlcCandle 14 110 108 109,
   hlcCandle 15 106 98 102, hlcCandle 16 100 92 96, hlcCandle 17 94 86 90,
   hlcCandle 18 88 82 85, hlcCandle 19 84 80 82, hlcCandle 20 90 84 87,
   hlcCandle 21 96 90 93, hlcCandle 22 102 96 99, hlcCandle 23 112 104 108,
   hlcCandle 24 120 110 115, hlcCandle 25 114 106 110, hlcCandle 26 110 104 107,
   hlcCandle 27 106 102 104, hlcCandle 28 104 101 102, hlcCandle 29 102 100 101,
   hlcCandle 30 106 102 104, hlcCandle 31 112 106 110, hlcCandle 32 122 114 120,
   hlcCandle 33 132 124 130, hlcCandle 34 138 130 136, hlcCandle 35 144 136 142,
   hlcCandle 36 150 142 148, hlcCandle 37 156 148 154, hlcCandle 38 162 154 160,
   hlcCandle 39 168 160 166]

/-- Piecewise-linear mid price of the 85-bar head-and-shoulders series:
troughs at 12, 36, 60, shoulders at 24 and 72 (mid 120), head at 48
(mid 132). -/
def hsMid (i : ℕ) : ℚ :=
  if i ≤ 12 then qsub 120 (qmul 2 (i : ℚ))
  else if i ≤ 24 then qadd 96 (qmul 2 (qsub (i : ℚ) 12))
  else if i ≤ 36 then qsub 120 (qmul 2 (qsub (i : ℚ) 24))
  else if i ≤ 48 then qadd 96 (qmul 3 (qsub (i : ℚ) 36))
  else if i ≤ 60 then qsub 132 (qmul 3 (qsub (i : ℚ) 48))
  else if i ≤ 72 then qadd 96 (qmul 2 (qsub (i : ℚ) 60))
  else qsub 120 (qmul 2 (qsub (i : ℚ) 72))

/-- An 85-bar head-and-shoulders shaped series (window 10 extraction yields
peaks 24, 48, 72 and troughs 12, 36, 60), so the head-and-shoulders detector
reaches its validator. -/
def hs85 : List Candle :=
  (List.range 85).map fun i => midCandle i (hsMid i)

/-- A 52-bar series containing a triple bottom: bottoms at bars 10, 22, 34
(lows 100, 102, 104), intermediate peaks at 16 (high 116) and 28 (high 114),
neckline 116, breakout close 117 at bar 42. -/
def tb52 : List Candle := midCandles
  [110, 112, 114, 116, 118,
   115, 112, 108, 105, 103,
   101, 104, 107, 110, 113,
   114, 115, 113, 110, 107,
   105, 104, 103, 105, 107,
   109, 111, 112, 113, 111,
   109, 108, 107, 106, 105,
   107, 109, 111, 113, 114,
   115, 116, 117, 118, 119,
   120, 121, 122, 123, 124, 125, 126]

/-- A 30-bar candle list used to drive `validateDoubleTop` directly: flat
closes 100/101/102 at bars 0-2 (prior-trend window of a start trough at
index 3), lows 950.. at bars 6-11 (the valley scan range for peaks at
indices 5 and 12), and closes 950/945/900 at bars 13-15 (the breakout
scan). -/
def ce30 : List Candle :=
  [hlcCandle 0 101 99 100, hlcCandle 1 102 100 101, hlcCandle 2 103 101 102,
   hlcCandle 3 1010 990 1000, hlcCandle 4 1010 990 1000, hlcCandle 5 1010 990 1000,
   hlcCandle 6 1000 950 990, hlcCandle 7 1000 951 991, hlcCandle 8 1000 952 992,
   hlcCandle 9 1000 953 993, hlcCandle 10 1000 954 994, hlcCandle 11 1000 955 995,
   hlcCandle 12 1000 960 990, hlcCandle 13 960 940 950, hlcCandle 14 955 935 945,
   hlcCandle 15 910 890 900, hlcCandle 16 910 890 900, hlcCandle 17 910 890 900,
   hlcCandle 18 910 890 900, hlcCandle 19 910 890 900, hlcCandle 20 910 890 900,
   hlcCandle 21 910 890 900, hlcCandle 22 910 890 900, hlcCandle 23 910 890 900,
   hlcCandle 24 910 890 900, hlcCandle 25 910 890 900, hlcCandle 26 910 890 900,
   hlcCandle 27 910 890 900, hlcCandle 28 910 890 900, hlcCandle 29 910 890 900]

/-- Start trough (index 3) for the direct `validateDoubleTop` calls. -/
def ceStartTrough : TurningPoint :=
  { index := 3, date := 3, openPrice := 1000, high := 1010, low := 995, close := 1000,
    volume := 1000 }

/-- First peak (index 5, high 1000) for the direct `validateDoubleTop`
calls; its index is below the ATR period, so the ATR is 0 and the
low-volatility branch applies. -/
def ceFirstPeak : TurningPoint :=
  { index := 5, date := 5, openPrice := 1000, high := 1000, low := 990, close := 1000,
    volume := 1000 }

/-- Second peak with high 902: height difference `0.098`, strictly above the
adjusted tolerance `0.12 / 1.25 = 0.096`. -/
def ceSecondPeak902 : TurningPoint :=
  { index := 12, date := 12, openPrice := 990, high := 902, low := 960, close := 990,
    volume := 1000 }

/-- Second peak with high 904: height difference exactly `0.096`, equal to
the adjusted tolerance. -/
def ceSecondPeak904 : TurningPoint :=
  { index := 12, date := 12, openPrice := 990, high := 904, low := 960, close := 990,
    volume := 1000 }

/-- Second peak with high 880: height difference `0.12`, beyond both the
adjusted tolerance and the `0.10` ladder rung. -/
def ceSecondPeak880 : TurningPoint :=
  { index := 12, date := 12, openPrice := 990, high := 880, low := 960, close := 990,
    volume := 1000 }

/-- A five-bar, almost flat series: highs 1000 except 1001 at the centre bar,
all lows 999.  The centre bar is returned as a peak by
`patternUtils.findPeaksAndTroughs` although its relative deviation from the
local mean mid price is only `1.4 / 999.6 < 0.2%`. -/
def flat5 : List Candle :=
  [hlcCandle 0 1000 999 1000, hlcCandle 1 1000 999 1000, hlcCandle 2 1001 999 1000,
   hlcCandle 3 1000 999 1000, hlcCandle 4 1000 999 1000]

/-- A nine-bar series with one pronounced peak (high 121 at bar 4, everything
else high 101 / low 99), used with the `part_001` extractor. -/
def bump9 : List Candle :=
  [hlcCandle 0 101 99 100, hlcCandle 1 101 99 100, hlcCandle 2 101 99 100,
   hlcCandle 3 101 99 100, hlcCandle 4 121 99 110, hlcCandle 5 101 99 100,
   hlcCandle 6 101 99 100, hlcCandle 7 101 99 100, hlcCandle 8 101 99 100]

/-- A five-bar strictly rising series used to witness the short-input
behaviour of the detectors. -/
def short5 : List Candle :=
  (List.range 5).map fun i => midCandle i (qadd 100 (i : ℚ))

/-- A 25-bar strictly rising series (between the 20-bar and 60-bar
double-top minimums). -/
def mono25 : List Candle :=
  (List.range 25).map fun i => midCandle i (qadd 100 (i : ℚ))

/-- The mirror image of `tb52`: a 52-bar series containing a triple top
(peaks at bars 10, 22, 34 with highs 120, 118, 116, troughs at 16 and 28,
neckline 104, breakdown close 103 at bar 42). -/
def tt52 : List Candle := midCandles
  [110, 108, 106, 104, 102,
   105, 108, 112, 115, 117,
   119, 116, 113, 110, 107,
   106, 105, 107, 110, 113,
   115, 116, 117, 115, 113,
   111, 109, 108, 107, 109,
   111, 112, 113, 114, 115,
   113, 111, 109, 107, 106,
   105, 104, 103, 102, 101,
   100, 99, 98, 97, 96, 95, 94]

/-- A trough point with low 100, used as first bottom in the double-bottom
boundary witness. -/
def bw100 : TurningPoint :=
  { index := 5, date := 5, openPrice := 100, high := 101, low := 100, close := 100,
    volume := 1000 }

/-- A trough point with low 90: the similarity ratio against `bw100` is
`10/90`, beyond the 6% tolerance. -/
def bw90 : TurningPoint :=
  { index := 15, date := 15, openPrice := 90, high := 91, low := 90, close := 90,
    volume := 1000 }

/-! ## The concrete detector results referenced by the theorems (each is
verified against the detector by kernel evaluation in the proofs). -/

/-- The double top detected on `dt60`. -/
def dt60Detected : DoubleTop.DTDetected :=
  { patternData :=
      { confidence := Rat.divInt 41 50,
        keyPoints :=
          { startPoint := { date := 14, price := 107 },
            firstPeak := { date := 20, price := 131, volume := 1000 },
            valley := { date := 26, price := 114, volume := 1000 },
            secondPeak := { date := 33, price := 124, volume := 1000 },
            breakoutPoint :=
              { date := 38, price := 108, volume := 1000, volumeRatio := 1,
                isPartial := false } },
        necklineLevel := 114,
        priceTarget := Rat.divInt 201 2,
        patternHeight := Rat.divInt 27 2,
        timespan := 18,
        metrics :=
          { peakSimilarity := Rat.divInt 4 5, troughQuality := 1,
            volumeProfile := Rat.divInt 1 2, priorTrend := "uptrend",
            trendStrength := 1, breakoutStrength := Rat.divInt 1 2 } },
    firstPeakIndex := 20,
    secondPeakIndex := 33 }

/-- The double bottom detected on `db45` (the first accepted candidate). -/
def db45First : DoubleBottom.DBPatternData :=
  { confidence := Rat.divInt 19 20,
    keyPoints :=
      { startPoint := { date := 4, price := 119 },
        firstBottom := { date := 9, price := 100, volume := 1000 },
        peak := { date := 14, price := 117, volume := 1000 },
        secondBottom := { date := 19, price := 105, volume := 1000 },
        breakoutPoint := { date := 34, price := 126, volume := 1000 } },
    necklineLevel := 117,
    priceTarget := Rat.divInt 263 2,
    patternHeight := Rat.divInt 29 2,
    timespan := 25 }

/-- The double bottom reported on `negDB`, with confidence `12`. -/
def negDBPattern : DoubleBottom.DBPatternData :=
  { confidence := 12,
    keyPoints :=
      { startPoint := { date := 4, price := 19 },
        firstBottom := { date := 9, price := 10, volume := 1000 },
        peak := { date := 14, price := 20, volume := 1000 },
        secondBottom := { date := 19, price := -1, volume := 1000 },
        breakoutPoint := { date := 28, price := 22, volume := 1000 } },
    necklineLevel := 20,
    priceTarget := Rat.divInt 71 2,
    patternHeight := Rat.divInt 31 2,
    timespan := 19 }

/-- The inverse head and shoulders reported on `inv40`. -/
def inv40Pattern : InverseHS.IHSPatternData :=
  { type := "Inverse Head and Shoulders",
    confidence := 1,
    keyPoints :=
      { startPoint := { date := 4, price := 112, volume := 1000 },
        leftShoulder := { date := 9, price := 100, volume := 1000 },
        leftPeak := { date := 14, price := 110, volume := 1000 },
        head := { date := 19, price := 80, volume := 1000 },
        rightPeak := { date := 24, price := 120, volume := 1000 },
        rightShoulder := { date := 29, price := 100, volume := 1000 },
        necklineBreak :=
          some { date := 33, price := 130, volume := 1000, index := 33,
                 necklineValue := 129 } },
    completed := true,
    necklineLevel := 129,
    priceTarget := 164,
    patternHeight := 35,
    timespan := 24,
    symmetryRatio := 1,
    volumeProfile := "bearish" }

/-- The triple bottom detected on `tb52`. -/
def tb52Pattern : TripleBottom.TBPatternData :=
  { confidence := Rat.divInt 24 25,
    keyPoints :=
      { startPoint := { date := 4, price := 119, volume := 1000 },
        firstBottom := { date := 10, price := 100, volume := 1000 },
        firstPeak := { date := 16, price := 116, volume := 1000 },
        secondBottom := { date := 22, price := 102, volume := 1000 },
        secondPeak := { date := 28, price := 114, volume := 1000 },
        thirdBottom := { date := 34, price := 104, volume := 1000 },
        breakoutPoint :=
          { date := 42, price := 117, volume := 1000, index := 42, isConfirmed := true } },
    necklineLevel := 116,
    priceTarget := 130,
    patternHeight := 14,
    timespan := 32,
    type := "Triple Bottom" }

/-- The triple top detected on `tt52`. -/
def tt52Pattern : TripleTop.TTPatternData :=
  { confidence := Rat.divInt 29 30,
    keyPoints :=
      { startPoint := { date := 4, price := 101, volume := 1000 },
        firstPeak := { date := 10, price := 120, volume := 1000 },
        firstTrough := { date := 16, price := 104, volume := 1000 },
        secondPeak := { date := 22, price := 118, volume := 1000 },
        secondTrough := { date := 28, price := 106, volume := 1000 },
        thirdPeak := { date := 34, price := 116, volume := 1000 },
        breakoutPoint := { date := 42, price := 103, volume := 1000 } },
    necklineLevel := 104,
    priceTarget := 90,
    patternHeight := 14,
    timespan := 32 }

/-! ## Generic lemmas about the arithmetic and sorting helpers. -/

theorem jsRound_mono {a b : ℚ} (h : a ≤ b) : jsRound a ≤ jsRound b := by
  rw [jsRound_eq, jsRound_eq]
  exact Int.floor_le_floor (by linarith)

theorem round2_mono {a b : ℚ} (h : a ≤ b) : round2 a ≤ round2 b := by
  rw [round2, round2, Rat.divInt_eq_div, Rat.divInt_eq_div]
  have hr : jsRound (qmul a 100) ≤ jsRound (qmul b 100) := by
    apply jsRound_mono
    rw [qmul_eq, qmul_eq]
    nlinarith
  have h100 : (0 : ℚ) < 100 := by norm_num
  exact (div_le_div_iff_of_pos_right h100).mpr (by exact_mod_cast hr)

theorem round2_zero : round2 0 = 0 := by decide

theorem round2_one : round2 1 = 1 := by decide

theorem round2_twoFifths : round2 (Rat.divInt 2 5) = Rat.divInt 2 5 := by decide

/-- Members of `insertDescBy` are the inserted element or old members. -/
theorem mem_insertDescBy {key : α → ℚ} {x a : α} :
    ∀ {l : List α}, a ∈ insertDescBy key x l → a = x ∨ a ∈ l := by
  intro l
  induction l with
  | nil => intro h; rw [insertDescBy] at h; exact Or.inl (List.mem_singleton.1 h)
  | cons y ys ih =>
    intro h
    rw [insertDescBy] at h
    by_cases hc : key y < key x
    · rw [if_pos hc] at h
      rcases List.mem_cons.1 h with rfl | h
      · exact Or.inl rfl
      · exact Or.inr h
    · rw [if_neg hc] at h
      rcases List.mem_cons.1 h with rfl | h
      · exact Or.inr (List.mem_cons_self _ _)
      · rcases ih h with h | h
        · exact Or.inl h
        · exact Or.inr (List.mem_cons_of_mem _ h)

/-- Members of `sortDescBy` are members of the input list. -/
theorem mem_sortDescBy {key : α → ℚ} {a : α} :
    ∀ {l : List α}, a ∈ sortDescBy key l → a ∈ l := by
  intro l
  induction l with
  | nil => intro h; rw [sortDescBy] at h; exact absurd h (List.not_mem_nil a)
  | cons y ys ih =>
    intro h
    rw [sortDescBy, List.foldr_cons] at h
    rcases mem_insertDescBy h with h | h
    · exact h ▸ List.mem_cons_self y ys
    · exact List.mem_cons_of_mem y (ih h)

/-- `insertDescBy` preserves descending sortedness. -/
theorem sorted_insertDescBy {key : α → ℚ} {x : α} :
    ∀ {l : List α}, l.Sorted (fun a b => key b ≤ key a) →
      (insertDescBy key x l).Sorted (fun a b => key b ≤ key a) := by
  intro l
  induction l with
  | nil => intro _; simp [insertDescBy]
  | cons y ys ih =>
    intro hs
    rw [insertDescBy]
    rcases List.sorted_cons.1 hs with ⟨hy, hys⟩
    split
    · next hlt =>
      exact List.sorted_cons.2 ⟨by
        intro b hb
        rcases List.mem_cons.1 hb with rfl | hb
        · exact le_of_lt hlt
        · exact le_trans (hy b hb) (le_of_lt hlt), hs⟩
    · next hge =>
      refine List.sorted_cons.2 ⟨?_, ih hys⟩
      intro b hb
      rcases mem_insertDescBy hb with rfl | hb
      · exact le_of_not_lt hge
      · exact hy b hb

/-- `sortDescBy` sorts descending by the key. -/
theorem sorted_sortDescBy {key : α → ℚ} :
    ∀ (l : List α), (sortDescBy key l).Sorted (fun a b => key b ≤ key a) := by
  intro l
  induction l with
  | nil => simp [sortDescBy]
  | cons y ys ih =>
    rw [sortDescBy, List.foldr_cons]
    exact sorted_insertDescBy ih

/-- The inserted element or a list member appears in the result. -/
theorem insertDescBy_mem_self {key : α → ℚ} (x : α) (l : List α) :
    x ∈ insertDescBy key x l := by
  induction l with
  | nil => simp [insertDescBy]
  | cons y ys ih =>
    rw [insertDescBy]
    split
    · exact List.mem_cons_self _ _
    · exact List.mem_cons_of_mem y ih

theorem insertDescBy_mem_of_mem {key : α → ℚ} (x : α) {a : α} :
    ∀ {l : List α}, a ∈ l → a ∈ insertDescBy key x l := by
  intro l
  induction l with
  | nil => intro h; cases h
  | cons y ys ih =>
    intro h
    rw [insertDescBy]
    split
    · exact List.mem_cons_of_mem x h
    · rcases List.mem_cons.1 h with rfl | h
      · exact List.mem_cons_self _ _
      · exact List.mem_cons_of_mem y (ih h)

/-- Every input member is in `sortDescBy`. -/
theorem sortDescBy_mem_of_mem {key : α → ℚ} {a : α} :
    ∀ {l : List α}, a ∈ l → a ∈ sortDescBy key l := by
  intro l
  induction l with
  | nil => intro h; cases h
  | cons y ys ih =>
    intro h
    rw [sortDescBy, List.foldr_cons]
    rcases List.mem_cons.1 h with rfl | h
    · exact insertDescBy_mem_self a _
    · exact insertDescBy_mem_of_mem y (ih h)

/-- The head of the descending sort is a member of the list and dominates
every member's key. -/
theorem sortDescBy_head_spec {key : α → ℚ} {l : List α} {b : α}
    (hh : (sortDescBy key l).head? = some b) :
    b ∈ l ∧ ∀ a ∈ l, key a ≤ key b := by
  rcases hs : sortDescBy key l with _ | ⟨x, t⟩
  · rw [hs] at hh; cases hh
  · rw [hs, List.head?_cons] at hh
    have hxb : x = b := by injection hh
    subst hxb
    refine ⟨mem_sortDescBy (hs ▸ List.mem_cons_self x t), ?_⟩
    intro a ha
    have ha' : a ∈ sortDescBy key l := sortDescBy_mem_of_mem ha
    rw [hs] at ha'
    rcases List.mem_cons.1 ha' with rfl | hat
    · exact le_refl _
    · have hsorted : (sortDescBy key l).Sorted (fun a b => key b ≤ key a) :=
        sorted_sortDescBy l
      rw [hs] at hsorted
      exact (List.sorted_cons.1 hsorted).1 a hat

/-! ## Lemmas about the turning-point extractor. -/

theorem calculateOptimalWindowSize_pos (n : ℕ) :
    1 ≤ PatternUtils.calculateOptimalWindowSize n := by
  rw [PatternUtils.calculateOptimalWindowSize]
  split_ifs <;> omega

/-- A candle indexed in bounds equals the list element. -/
theorem candleAt_eq_get {c : List Candle} {i : ℕ} (h : i < c.length) :
    candleAt c i = c.get ⟨i, h⟩ := by
  rw [candleAt, List.getD_eq_getElem?_getD, List.getElem?_eq_getElem h, Option.getD_some,
    List.get_eq_getElem]

/-- A turning point indexed in bounds equals the list element. -/
theorem tpAt_eq_get {l : List TurningPoint} {i : ℕ} (h : i < l.length) :
    tpAt l i = l.get ⟨i, h⟩ := by
  rw [tpAt, List.getD_eq_getElem?_getD, List.getElem?_eq_getElem h, Option.getD_some,
    List.get_eq_getElem]

/-- An in-window candle is a member of `surrounding`. -/
theorem mem_surrounding {c : List Candle} {w i j : ℕ} (hj1 : i - w ≤ j)
    (hj2 : j ≤ i + w) (hj3 : j < c.length) :
    candleAt c j ∈ PatternUtils.surrounding c w i := by
  rw [PatternUtils.surrounding]
  have hk1 : j - (i - w) < ((c.drop (i - w)).take (2 * w + 1)).length := by
    rw [List.length_take, List.length_drop]
    omega
  have hidx : i - w + (j - (i - w)) = j := by omega
  have he : ((c.drop (i - w)).take (2 * w + 1)).get ⟨j - (i - w), hk1⟩ = candleAt c j := by
    simp only [List.get_eq_getElem, List.getElem_take, List.getElem_drop, hidx]
    rw [candleAt_eq_get hj3, List.get_eq_getElem]
  exact he ▸ List.get_mem _ _ _

/-- Strictly rising highs admit no window peak at an interior index. -/
theorem mono_high_no_peak {c : List Candle}
    (hmono : List.Chain' (fun a b => a.high < b.high) c)
    {w i : ℕ} (hw : 1 ≤ w) (hi1 : w ≤ i) (hi2 : i + w < c.length) :
    PatternUtils.isPeakAt c w i = false := by
  by_contra hpk
  have htrue : PatternUtils.isPeakAt c w i = true := by
    cases h : PatternUtils.isPeakAt c w i
    · exact absurd h hpk
    · rfl
  rw [PatternUtils.isPeakAt, List.all_eq_true] at htrue
  have hmem : candleAt c (i + 1) ∈ PatternUtils.surrounding c w i :=
    mem_surrounding (by omega) (by omega) (by omega)
  have hle : (candleAt c (i + 1)).high ≤ (candleAt c i).high := by
    have := htrue _ hmem
    exact of_decide_eq_true this
  have hlt : (candleAt c i).high < (candleAt c (i + 1)).high := by
    have hchain := List.chain'_iff_get.1 hmono i (by omega)
    rw [candleAt_eq_get (by omega : i < c.length),
      candleAt_eq_get (by omega : i + 1 < c.length)]
    exact hchain
  exact absurd hle (not_le.2 hlt)

/-- Strictly rising lows admit no window trough at an interior index. -/
theorem mono_low_no_trough {c : List Candle}
    (hmono : List.Chain' (fun a b => a.low < b.low) c)
    {w i : ℕ} (hw : 1 ≤ w) (hi1 : w ≤ i) (hi2 : i + w < c.length) :
    PatternUtils.isTroughAt c w i = false := by
  by_contra htr
  have htrue : PatternUtils.isTroughAt c w i = true := by
    cases h : PatternUtils.isTroughAt c w i
    · exact absurd h htr
    · rfl
  rw [PatternUtils.isTroughAt, List.all_eq_true] at htrue
  have hmem : candleAt c (i - 1) ∈ PatternUtils.surrounding c w i :=
    mem_surrounding (by omega) (by omega) (by omega)
  have hle : (candleAt c i).low ≤ (candleAt c (i - 1)).low := by
    have := htrue _ hmem
    exact of_decide_eq_true this
  have hlt : (candleAt c (i - 1)).low < (candleAt c i).low := by
    have hchain := List.chain'_iff_get.1 hmono (i - 1) (by omega)
    simp only [List.get_eq_getElem, show i - 1 + 1 = i from by omega] at hchain
    rw [candleAt_eq_get (by omega : i - 1 < c.length),
      candleAt_eq_get (by omega : i < c.length)]
    simp only [List.get_eq_getElem]
    exact hchain
  exact absurd hle (not_le.2 hlt)

/-- The default-window extraction equals the explicit optimal-window call. -/
theorem findPT_none_eq (c : List Candle) :
    PatternUtils.findPeaksAndTroughs c none =
      PatternUtils.findPeaksAndTroughs c
        (some (PatternUtils.calculateOptimalWindowSize c.length)) := rfl

/-- On strictly rising highs the extractor returns no peaks (any window). -/
theorem findPT_peaks_nil {c : List Candle}
    (hmono : List.Chain' (fun a b => a.high < b.high) c) {w : ℕ} (hw : 1 ≤ w) :
    (PatternUtils.findPeaksAndTroughs c (some w)).1 = [] := by
  simp only [PatternUtils.findPeaksAndTroughs]
  split
  · rfl
  · next hlen =>
    apply List.filterMap_eq_nil_iff.2
    intro i hi
    rw [List.mem_range'_1] at hi
    have hfalse := mono_high_no_peak (i := i) hmono hw (by omega) (by omega)
    rw [hfalse]
    rfl

/-- On strictly rising lows the extractor returns no troughs (any window). -/
theorem findPT_troughs_nil {c : List Candle}
    (hmono : List.Chain' (fun a b => a.low < b.low) c) {w : ℕ} (hw : 1 ≤ w) :
    (PatternUtils.findPeaksAndTroughs c (some w)).2 = [] := by
  simp only [PatternUtils.findPeaksAndTroughs]
  split
  · rfl
  · next hlen =>
    apply List.filterMap_eq_nil_iff.2
    intro i hi
    rw [List.mem_range'_1] at hi
    have hfalse := mono_low_no_trough (i := i) hmono hw (by omega) (by omega)
    rw [hfalse]
    rfl

/-- Every extracted peak is `{index: i, ...candles[i]}` for an in-bounds
index `i`. -/
theorem mem_peaks_spec {c : List Candle} {w? : Option ℕ} {p : TurningPoint}
    (hp : p ∈ (PatternUtils.findPeaksAndTroughs c w?).1) :
    ∃ i, i < c.length ∧ p = mkTurningPoint i (candleAt c i) := by
  simp only [PatternUtils.findPeaksAndTroughs] at hp
  split at hp
  · cases hp
  · next hlen =>
    rcases List.mem_filterMap.1 hp with ⟨i, hi, hif⟩
    rw [List.mem_range'_1] at hi
    refine ⟨i, by omega, ?_⟩
    split at hif
    · exact (Option.some.inj hif).symm
    · cases hif

/-- Every extracted trough is `{index: i, ...candles[i]}` for an in-bounds
index `i`. -/
theorem mem_troughs_spec {c : List Candle} {w? : Option ℕ} {p : TurningPoint}
    (hp : p ∈ (PatternUtils.findPeaksAndTroughs c w?).2) :
    ∃ i, i < c.length ∧ p = mkTurningPoint i (candleAt c i) := by
  simp only [PatternUtils.findPeaksAndTroughs] at hp
  split at hp
  · cases hp
  · next hlen =>
    rcases List.mem_filterMap.1 hp with ⟨i, hi, hif⟩
    rw [List.mem_range'_1] at hi
    refine ⟨i, by omega, ?_⟩
    split at hif
    · exact (Option.some.inj hif).symm
    · cases hif

/-- A candle indexed in bounds is a list member. -/
theorem candleAt_mem {c : List Candle} {i : ℕ} (h : i < c.length) :
    candleAt c i ∈ c := by
  rw [candleAt_eq_get h]
  exact List.get_mem _ _ _

/-- A turning point indexed in bounds is a list member. -/
theorem tpAt_mem {l : List TurningPoint} {i : ℕ} (h : i < l.length) :
    tpAt l i ∈ l := by
  rw [tpAt_eq_get h]
  exact List.get_mem _ _ _

/-! ## Rounding and min/max bound corollaries. -/

theorem round2_le_one {x : ℚ} (h : x ≤ 1) : round2 x ≤ 1 := by
  have hm := round2_mono h
  rwa [round2_one] at hm

theorem round2_nonneg {x : ℚ} (h : 0 ≤ x) : 0 ≤ round2 x := by
  have hm := round2_mono h
  rwa [round2_zero] at hm

theorem twoFifths_le_round2 {x : ℚ} (h : Rat.divInt 2 5 ≤ x) :
    Rat.divInt 2 5 ≤ round2 x := by
  have hm := round2_mono h
  rwa [round2_twoFifths] at hm

theorem le_qmax_left (a b : ℚ) : a ≤ qmax a b := by
  rw [qmax_eq]; exact le_max_left a b

theorem le_qmax_right (a b : ℚ) : b ≤ qmax a b := by
  rw [qmax_eq]; exact le_max_right a b

theorem qmax_le {a b c : ℚ} (h1 : a ≤ c) (h2 : b ≤ c) : qmax a b ≤ c := by
  rw [qmax_eq]; exact max_le h1 h2

theorem qmin_le_left (a b : ℚ) : qmin a b ≤ a := by
  rw [qmin_eq]; exact min_le_left a b

theorem qmin_le_right (a b : ℚ) : qmin a b ≤ b := by
  rw [qmin_eq]; exact min_le_right a b

theorem qmin_pos {a b : ℚ} (ha : 0 < a) (hb : 0 < b) : 0 < qmin a b := by
  rw [qmin_eq]; exact lt_min ha hb

/-- A ratio `|x| / m` with a positive denominator is nonnegative. -/
theorem qdiv_abs_nonneg {x m : ℚ} (hm : 0 < m) : 0 ≤ qdiv (qabs x) m := by
  rw [qdiv_eq, qabs_eq]
  exact div_nonneg (abs_nonneg x) (le_of_lt hm)

/-! ## First-found plumbing of the candidate loops. -/

/-- A detected double bottom comes from the first validated candidate. -/
theorem dbSearch_detected {candles : List Candle}
    {l : List (TurningPoint × TurningPoint × TurningPoint)} {r : DoubleBottom.DBPatternData}
    (h : DoubleBottom.dbSearch candles l = .detected r) :
    ∃ c ∈ l, DoubleBottom.validateDoubleBottom c.1 c.2.1 c.2.2 candles = some r := by
  induction l with
  | nil => rw [DoubleBottom.dbSearch] at h; cases h
  | cons hd tl ih =>
    obtain ⟨sp, fb, sb⟩ := hd
    cases hv : DoubleBottom.validateDoubleBottom sp fb sb candles with
    | none =>
      rw [DoubleBottom.dbSearch, hv] at h
      rcases ih h with ⟨c, hc, hval⟩
      exact ⟨c, List.mem_cons_of_mem _ hc, hval⟩
    | some r' =>
      rw [DoubleBottom.dbSearch, hv] at h
      have hrr : r' = r := by injection h
      exact ⟨(sp, fb, sb), List.mem_cons_self _ _, by rw [hv, hrr]⟩

/-- A detected triple top comes from the first validated candidate. -/
theorem ttSearch_detected {candles : List Candle}
    {l : List (TurningPoint × TurningPoint × TurningPoint × TurningPoint)}
    {r : TripleTop.TTPatternData}
    (h : TripleTop.ttSearch candles l = .detected r) :
    ∃ c ∈ l, TripleTop.validateTripleTop c.1 c.2.1 c.2.2.1 c.2.2.2 candles = some r := by
  induction l with
  | nil => rw [TripleTop.ttSearch] at h; cases h
  | cons hd tl ih =>
    obtain ⟨st, p1, p2, p3⟩ := hd
    cases hv : TripleTop.validateTripleTop st p1 p2 p3 candles with
    | none =>
      rw [TripleTop.ttSearch, hv] at h
      rcases ih h with ⟨c, hc, hval⟩
      exact ⟨c, List.mem_cons_of_mem _ hc, hval⟩
    | some r' =>
      rw [TripleTop.ttSearch, hv] at h
      have hrr : r' = r := by injection h
      exact ⟨(st, p1, p2, p3), List.mem_cons_self _ _, by rw [hv, hrr]⟩

/-- A detected triple bottom comes from the first validated triplet. -/
theorem tbSearch_detected {candles : List Candle}
    {l : List TripleBottom.TBTriplet} {r : TripleBottom.TBPatternData}
    (h : TripleBottom.tbSearch candles l = .detected r) :
    ∃ t ∈ l, TripleBottom.validateTripleBottom t.startPeak t.firstBottom t.secondBottom
      t.thirdBottom candles = some r := by
  induction l with
  | nil => rw [TripleBottom.tbSearch] at h; cases h
  | cons hd tl ih =>
    cases hv : TripleBottom.validateTripleBottom hd.startPeak hd.firstBottom hd.secondBottom
        hd.thirdBottom candles with
    | none =>
      rw [TripleBottom.tbSearch, hv] at h
      rcases ih h with ⟨t, ht, hval⟩
      exact ⟨t, List.mem_cons_of_mem _ ht, hval⟩
    | some r' =>
      rw [TripleBottom.tbSearch, hv] at h
      have hrr : r' = r := by injection h
      exact ⟨hd, List.mem_cons_self _ _, by rw [hv, hrr]⟩

/-- A successful inverse head and shoulders comes from the first triplet that
has a start peak, intermediate peaks, and passes the validator. -/
theorem ihsSearch_success {candles : List Candle} {peaks : List TurningPoint}
    {l : List InverseHS.IHSTriplet} {r : InverseHS.IHSPatternData}
    (h : InverseHS.ihsSearch candles peaks l = .success r) :
    ∃ t ∈ l, ∃ sp ip,
      InverseHS.findStartPeak t.leftShoulder peaks = some sp ∧
      InverseHS.findIntermediatePeaks t.leftShoulder t.head t.rightShoulder peaks = some ip ∧
      InverseHS.validateInverseHeadAndShoulders sp t.leftShoulder t.head t.rightShoulder
        ip.1 ip.2 candles = some r := by
  induction l with
  | nil => rw [InverseHS.ihsSearch] at h; cases h
  | cons hd tl ih =>
    cases hsp : InverseHS.findStartPeak hd.leftShoulder peaks with
    | none =>
      rw [InverseHS.ihsSearch, hsp] at h
      rcases ih h with ⟨t, ht, hrest⟩
      exact ⟨t, List.mem_cons_of_mem _ ht, hrest⟩
    | some sp =>
      cases hip : InverseHS.findIntermediatePeaks hd.leftShoulder hd.head hd.rightShoulder
          peaks with
      | none =>
        simp only [InverseHS.ihsSearch, hsp, hip] at h
        rcases ih h with ⟨t, ht, hrest⟩
        exact ⟨t, List.mem_cons_of_mem _ ht, hrest⟩
      | some ip =>
        cases hv : InverseHS.validateInverseHeadAndShoulders sp hd.leftShoulder hd.head
            hd.rightShoulder ip.1 ip.2 candles with
        | none =>
          simp only [InverseHS.ihsSearch, hsp, hip, hv] at h
          rcases ih h with ⟨t, ht, hrest⟩
          exact ⟨t, List.mem_cons_of_mem _ ht, hrest⟩
        | some r' =>
          simp only [InverseHS.ihsSearch, hsp, hip, hv] at h
          have hrr : r' = r := by injection h
          exact ⟨hd, List.mem_cons_self _ _, sp, ip, hsp, hip, by rw [hv, hrr]⟩

/-! ## Double-top validator and search lemmas. -/

/-- The peak-similarity ladder values lie in `[0.6, 1]`. -/
theorem dtPeakSimilarityConfidence_bounds {hd thr v : ℚ}
    (h : DoubleTop.dtPeakSimilarityConfidence hd thr = some v) :
    Rat.divInt 3 5 ≤ v ∧ v ≤ 1 := by
  rw [DoubleTop.dtPeakSimilarityConfidence] at h
  split_ifs at h <;> cases h <;> exact ⟨by decide, by decide⟩

/-- Beyond both the adjusted threshold and the last fixed rung the ladder
rejects. -/
theorem dtPeakSimilarityConfidence_none {hd thr : ℚ}
    (h : qmax thr (Rat.divInt 1 10) < hd) :
    DoubleTop.dtPeakSimilarityConfidence hd thr = none := by
  have hthr : thr < hd := lt_of_le_of_lt (le_qmax_left _ _) h
  have h10 : Rat.divInt 1 10 < hd := lt_of_le_of_lt (le_qmax_right _ _) h
  have h10' : ¬ hd ≤ Rat.divInt 1 10 := not_le.2 h10
  rw [DoubleTop.dtPeakSimilarityConfidence]
  rw [if_neg (by intro hle; exact h10' (le_trans hle (by decide)))]
  rw [if_neg (by intro hle; exact h10' (le_trans hle (by decide)))]
  rw [if_neg (by intro hle; exact h10' (le_trans hle (by decide)))]
  rw [if_neg (by intro hle; exact h10' (le_trans hle (by decide)))]
  rw [if_neg h10', if_neg (not_le.2 hthr)]

/-- The trough-quality ladder values lie in `[0.5, 1]`. -/
theorem dtTroughConfidence_bounds {td md v : ℚ}
    (h : DoubleTop.dtTroughConfidence td md = some v) :
    Rat.divInt 1 2 ≤ v ∧ v ≤ 1 := by
  rw [DoubleTop.dtTroughConfidence] at h
  split_ifs at h <;> cases h <;> exact ⟨by decide, by decide⟩

/-- The volume-profile score lies in `[0.3, 1]`. -/
theorem analyzeVolumeProfile_bounds (fp sp : TurningPoint) :
    Rat.divInt 3 10 ≤ DoubleTop.analyzeVolumeProfile fp sp ∧
      DoubleTop.analyzeVolumeProfile fp sp ≤ 1 := by
  simp only [DoubleTop.analyzeVolumeProfile]
  split_ifs <;> exact ⟨by decide, by decide⟩

/-- Invariant of the valley fold: a `some` result either is the start
accumulator or records an index of the scanned list, its fields come from
that candle, it is minimal over the scanned indices, and it improves on any
start accumulator. -/
theorem dtValleyAux {candles : List Candle} :
    ∀ (idxs : List ℕ) (acc : Option DoubleTop.DTValley) (v : DoubleTop.DTValley),
      idxs.foldl (DoubleTop.dtValleyStep candles) acc = some v →
      (acc = some v ∨ (v.index ∈ idxs ∧ v.date = (candleAt candles v.index).date ∧
          v.low = (candleAt candles v.index).low ∧
          v.volume = (candleAt candles v.index).volume)) ∧
        (∀ j ∈ idxs, v.low ≤ (candleAt candles j).low) ∧
        (∀ u, acc = some u → v.low ≤ u.low) := by
  intro idxs
  induction idxs with
  | nil =>
    intro acc v h
    rw [List.foldl_nil] at h
    refine ⟨Or.inl h, ?_, ?_⟩
    · intro j hj; cases hj
    · intro u hu
      rw [h] at hu
      have hvu : v = u := by injection hu
      rw [hvu]
  | cons i rest ih =>
    intro acc v h
    rw [List.foldl_cons] at h
    rcases ih (DoubleTop.dtValleyStep candles acc i) v h with ⟨h1, h2, h3⟩
    cases acc with
    | none =>
      have hw : DoubleTop.dtValleyStep candles none i =
          some { date := (candleAt candles i).date, low := (candleAt candles i).low,
                 index := i, volume := (candleAt candles i).volume } := rfl
      refine ⟨Or.inr ?_, ?_, ?_⟩
      · rcases h1 with hacc' | hgood
        · rw [hw] at hacc'
          have hv := Option.some.inj hacc'
          rw [← hv]
          exact ⟨List.mem_cons_self _ _, rfl, rfl, rfl⟩
        · exact ⟨List.mem_cons_of_mem _ hgood.1, hgood.2⟩
      · intro j hj
        rcases List.mem_cons.1 hj with rfl | hj'
        · exact h3 _ hw
        · exact h2 j hj'
      · intro u hu; cases hu
    | some u0 =>
      by_cases hc : (candleAt candles i).low < u0.low
      · have hw : DoubleTop.dtValleyStep candles (some u0) i =
            some { date := (candleAt candles i).date, low := (candleAt candles i).low,
                   index := i, volume := (candleAt candles i).volume } := by
          rw [DoubleTop.dtValleyStep]
          simp only [hc, if_true]
        refine ⟨Or.inr ?_, ?_, ?_⟩
        · rcases h1 with hacc' | hgood
          · rw [hw] at hacc'
            have hv := Option.some.inj hacc'
            rw [← hv]
            exact ⟨List.mem_cons_self _ _, rfl, rfl, rfl⟩
          · exact ⟨List.mem_cons_of_mem _ hgood.1, hgood.2⟩
        · intro j hj
          rcases List.mem_cons.1 hj with rfl | hj'
          · exact h3 _ hw
          · exact h2 j hj'
        · intro u hu
          have huu : u = u0 := by injection hu with hu'; rw [hu']
          rw [huu]
          exact le_of_lt (lt_of_le_of_lt (h3 _ hw) hc)
      · have hw : DoubleTop.dtValleyStep candles (some u0) i = some u0 := by
          rw [DoubleTop.dtValleyStep]
          simp only [hc, if_false]
        refine ⟨?_, ?_, ?_⟩
        · rcases h1 with hacc' | hgood
          · rw [hw] at hacc'
            exact Or.inl hacc'
          · exact Or.inr ⟨List.mem_cons_of_mem _ hgood.1, hgood.2⟩
        · intro j hj
          rcases List.mem_cons.1 hj with rfl | hj'
          · exact le_trans (h3 _ hw) (not_lt.1 hc)
          · exact h2 j hj'
        · intro u hu
          have huu : u = u0 := by injection hu with hu'; rw [hu']
          rw [huu]
          exact h3 _ hw

/-- A found valley lies strictly between the peaks, copies its candle, and is
minimal over the strict interior. -/
theorem dtFindValley_spec {candles : List Candle} {a b : ℕ} {v : DoubleTop.DTValley}
    (h : DoubleTop.dtFindValley candles a b = some v) :
    a < v.index ∧ v.index < b ∧ v.date = (candleAt candles v.index).date ∧
    v.low = (candleAt candles v.index).low ∧ v.volume = (candleAt candles v.index).volume ∧
    ∀ j, a < j → j < b → v.low ≤ (candleAt candles j).low := by
  rw [DoubleTop.dtFindValley] at h
  rcases dtValleyAux _ _ _ h with ⟨h1, h2, _⟩
  rcases h1 with hacc | ⟨hmem, hdate, hlow, hvol⟩
  · cases hacc
  · rw [List.mem_range'_1] at hmem
    obtain ⟨hm1, hm2⟩ := hmem
    refine ⟨by omega, by omega, hdate, hlow, hvol, ?_⟩
    intro j hj1 hj2
    exact h2 j (List.mem_range'_1.2 ⟨by omega, by omega⟩)

/-- Success-branch anatomy of `validateDoubleTop`: the valley link, the
returned key points and metrics, the sub-score bounds, and the exact
composite-confidence formula. -/
theorem validateDoubleTop_some_spec {st fp sp : TurningPoint} {candles : List Candle}
    {cfg? : Option DoubleTop.DTConfig} {pd : DoubleTop.DTPatternData}
    (h : DoubleTop.validateDoubleTop st fp sp candles cfg? = some pd) :
    ∃ (psc tc vol trend bconf : ℚ) (v : DoubleTop.DTValley)
      (bp : DoubleTop.DTBreakoutPoint),
      DoubleTop.dtFindValley candles fp.index sp.index = some v ∧
      pd.keyPoints.firstPeak.price = fp.high ∧
      pd.keyPoints.secondPeak.price = sp.high ∧
      pd.keyPoints.valley = { date := v.date, price := v.low, volume := v.volume } ∧
      pd.keyPoints.breakoutPoint = bp ∧
      pd.necklineLevel = v.low ∧
      pd.patternHeight = qsub (qdiv (qadd fp.high sp.high) 2) v.low ∧
      pd.priceTarget = qsub v.low pd.patternHeight ∧
      (Rat.divInt 3 5 ≤ psc ∧ psc ≤ 1) ∧
      (Rat.divInt 1 2 ≤ tc ∧ tc ≤ 1) ∧
      (Rat.divInt 3 10 ≤ vol ∧ vol ≤ 1) ∧
      (Rat.divInt 2 5 ≤ trend ∧ trend ≤ 1) ∧
      (bp.isPartial = true → bconf = Rat.divInt 2 5) ∧
      (Rat.divInt 2 5 ≤ bconf ∧ bconf ≤ 1) ∧
      pd.confidence = round2 (qmax (Rat.divInt 2 5)
        (if bp.isPartial = true ∧ Rat.divInt 7 10 < psc ∧ Rat.divInt 7 10 < tc ∧
            Rat.divInt 7 10 < trend then
          qadd (qadd (qadd (qadd (qadd (qmul psc (Rat.divInt 3 10))
            (qmul tc (Rat.divInt 1 5))) (qmul vol (Rat.divInt 3 20)))
            (qmul trend (Rat.divInt 1 4))) (qmul bconf (Rat.divInt 1 10)))
            (Rat.divInt 1 20)
        else
          qadd (qadd (qadd (qadd (qmul psc (Rat.divInt 3 10))
            (qmul tc (Rat.divInt 1 5))) (qmul vol (Rat.divInt 3 20)))
            (qmul trend (Rat.divInt 1 4))) (qmul bconf (Rat.divInt 1 10)))) := by
  simp only [DoubleTop.validateDoubleTop] at h
  split at h
  · exact absurd h (by simp)
  next psc hpsc =>
    split at h
    · exact absurd h (by simp)
    next v hv =>
      split at h
      · exact absurd h (by simp)
      next tc htc =>
        split at h
        · exact absurd h (by simp)
        next bp hbp =>
          have hpd := Option.some.inj h
          subst hpd
          refine ⟨psc, tc, DoubleTop.analyzeVolumeProfile fp sp,
            (if DoubleTop.calculatePriorTrend candles st.index = "uptrend" then 1
             else if DoubleTop.calculatePriorTrend candles st.index = "sideways" then
               Rat.divInt 7 10
             else Rat.divInt 2 5),
            (if bp.isPartial = true then Rat.divInt 2 5
             else if Rat.divInt 3 2 < bp.volumeRatio then 1
             else if 1 < bp.volumeRatio then Rat.divInt 4 5
             else Rat.divInt 1 2),
            v, bp,
            hv, rfl, rfl, rfl, rfl, rfl, rfl, rfl,
            dtPeakSimilarityConfidence_bounds hpsc,
            dtTroughConfidence_bounds htc,
            analyzeVolumeProfile_bounds fp sp,
            by split_ifs <;> exact ⟨by decide, by decide⟩,
            fun hp => by rw [if_pos hp],
            by split_ifs <;> exact ⟨by decide, by decide⟩,
            rfl⟩

/-- Any hereditary property of accepted candidates holds for a detected
double-top search result. -/
theorem dtSearch_prop {candles : List Candle} {cfg : Option DoubleTop.DTConfig}
    (P : DoubleTop.DTDetected → Prop) :
    ∀ {l : List (TurningPoint × TurningPoint × TurningPoint)}
      {acc : List DoubleTop.DTDetected} {r : DoubleTop.DTDetected},
      (∀ a ∈ acc, P a) →
      (∀ c ∈ l, ∀ pd, DoubleTop.validateDoubleTop c.1 c.2.1 c.2.2 candles cfg = some pd →
        P { patternData := pd, firstPeakIndex := c.2.1.index,
            secondPeakIndex := c.2.2.index }) →
      DoubleTop.dtSearch candles cfg l acc = .detected r → P r := by
  intro l
  induction l with
  | nil =>
    intro acc r hacc _ h
    rw [DoubleTop.dtSearch, DoubleTop.dtFinalize] at h
    cases hh : (sortDescBy (fun x => x.patternData.confidence) acc).head? with
    | none => rw [hh] at h; cases h
    | some best =>
      rw [hh] at h
      have hbr : best = r := by injection h
      rw [← hbr]
      exact hacc best (sortDescBy_head_spec hh).1
  | cons c tl ih =>
    intro acc r hacc hval h
    obtain ⟨st, fp, sp⟩ := c
    cases hv : DoubleTop.validateDoubleTop st fp sp candles cfg with
    | none =>
      simp only [DoubleTop.dtSearch, hv] at h
      exact ih hacc (fun c hc pd hpd => hval c (List.mem_cons_of_mem _ hc) pd hpd) h
    | some pd =>
      simp only [DoubleTop.dtSearch, hv] at h
      by_cases hcmp : Rat.divInt 17 20 < pd.confidence
      · rw [if_pos hcmp] at h
        injection h with hbr
        rw [← hbr]
        exact hval (st, fp, sp) (List.mem_cons_self _ _) pd hv
      · rw [if_neg hcmp] at h
        refine ih ?_ (fun c hc pd' hpd' => hval c (List.mem_cons_of_mem _ hc) pd' hpd') h
        intro a ha
        rcases List.mem_append.1 ha with ha' | ha'
        · exact hacc a ha'
        · rw [List.mem_singleton.1 ha']
          exact hval (st, fp, sp) (List.mem_cons_self _ _) pd hv

/-- When no accepted candidate exceeds `0.85`, the search equals the final
sort-and-pick over the accumulated accepted candidates. -/
theorem dtSearch_eq_finalize {candles : List Candle} {cfg : Option DoubleTop.DTConfig} :
    ∀ {l : List (TurningPoint × TurningPoint × TurningPoint)}
      {acc : List DoubleTop.DTDetected},
      (∀ a ∈ DoubleTop.dtAcceptedOf candles cfg l,
        a.patternData.confidence ≤ Rat.divInt 17 20) →
      DoubleTop.dtSearch candles cfg l acc =
        DoubleTop.dtFinalize (acc ++ DoubleTop.dtAcceptedOf candles cfg l) := by
  intro l
  induction l with
  | nil =>
    intro acc _
    rw [DoubleTop.dtSearch, DoubleTop.dtAcceptedOf, List.filterMap_nil, List.append_nil]
  | cons c tl ih =>
    intro acc hbound
    obtain ⟨st, fp, sp⟩ := c
    cases hv : DoubleTop.validateDoubleTop st fp sp candles cfg with
    | none =>
      have hAcc : DoubleTop.dtAcceptedOf candles cfg ((st, fp, sp) :: tl) =
          DoubleTop.dtAcceptedOf candles cfg tl := by
        simp only [DoubleTop.dtAcceptedOf, List.filterMap_cons, hv, Option.map_none']
      simp only [DoubleTop.dtSearch, hv]
      rw [hAcc] at hbound ⊢
      exact ih hbound
    | some pd =>
      have hAcc : DoubleTop.dtAcceptedOf candles cfg ((st, fp, sp) :: tl) =
          { patternData := pd, firstPeakIndex := fp.index,
            secondPeakIndex := sp.index } :: DoubleTop.dtAcceptedOf candles cfg tl := by
        simp only [DoubleTop.dtAcceptedOf, List.filterMap_cons, hv, Option.map_some']
      rw [hAcc] at hbound
      have hle : pd.confidence ≤ Rat.divInt 17 20 :=
        hbound _ (List.mem_cons_self _ _)
      simp only [DoubleTop.dtSearch, hv]
      rw [if_neg (not_lt.2 hle), ih (fun a ha => hbound a (List.mem_cons_of_mem _ ha)),
        hAcc, List.append_assoc, List.singleton_append]

/-- A finalized detection is an accepted candidate of maximal confidence. -/
theorem dtFinalize_detected {acc : List DoubleTop.DTDetected} {r : DoubleTop.DTDetected}
    (h : DoubleTop.dtFinalize acc = .detected r) :
    r ∈ acc ∧ ∀ a ∈ acc, a.patternData.confidence ≤ r.patternData.confidence := by
  rw [DoubleTop.dtFinalize] at h
  cases hh : (sortDescBy (fun x => x.patternData.confidence) acc).head? with
  | none => rw [hh] at h; cases h
  | some best =>
    rw [hh] at h
    have hbr : best = r := by injection h
    rw [← hbr]
    exact sortDescBy_head_spec hh

/-! ## Validator anatomy of the other detectors. -/

/-- Success-branch anatomy of `validateDoubleBottom`: confidence formula, the
accepted similarity bound, and the metric relations. -/
theorem validateDoubleBottom_some_spec {sp fb sb : TurningPoint} {candles : List Candle}
    {r : DoubleBottom.DBPatternData}
    (h : DoubleBottom.validateDoubleBottom sp fb sb candles = some r) :
    r.confidence = qsub 1 (qdiv (qabs (qsub fb.low sb.low)) (qmin fb.low sb.low)) ∧
    qdiv (qabs (qsub fb.low sb.low)) (qmin fb.low sb.low) ≤ Rat.divInt 6 100 ∧
    r.keyPoints.firstBottom.price = fb.low ∧
    r.keyPoints.secondBottom.price = sb.low ∧
    r.patternHeight = qsub r.necklineLevel
      (qdiv (qadd r.keyPoints.firstBottom.price r.keyPoints.secondBottom.price) 2) ∧
    r.priceTarget = qadd r.necklineLevel r.patternHeight := by
  simp only [DoubleBottom.validateDoubleBottom] at h
  split at h
  · exact absurd h (by simp)
  next hidx =>
    split at h
    · exact absurd h (by simp)
    next hdiff =>
      split at h
      · exact absurd h (by simp)
      next peak hpk =>
        split at h
        · exact absurd h (by simp)
        next hrise =>
          split at h
          · exact absurd h (by simp)
          next hneck =>
            split at h
            · exact absurd h (by simp)
            next k hk =>
              have hr := Option.some.inj h
              subst hr
              exact ⟨rfl, not_lt.1 hdiff, rfl, rfl, rfl, rfl⟩

/-- A trough-similarity difference beyond the 6% tolerance rejects the
double-bottom candidate. -/
theorem validateDoubleBottom_none_of_diff {sp fb sb : TurningPoint} {candles : List Candle}
    (hd : Rat.divInt 6 100 < qdiv (qabs (qsub fb.low sb.low)) (qmin fb.low sb.low)) :
    DoubleBottom.validateDoubleBottom sp fb sb candles = none := by
  simp only [DoubleBottom.validateDoubleBottom]
  by_cases hidx : sb.index ≤ fb.index + 1
  · rw [if_pos hidx]
  · rw [if_neg hidx, if_pos hd]

/-- Success-branch anatomy of `validateTripleTop`. -/
theorem validateTripleTop_some_spec {st p1 p2 p3 : TurningPoint} {candles : List Candle}
    {r : TripleTop.TTPatternData}
    (h : TripleTop.validateTripleTop st p1 p2 p3 candles = some r) :
    ∃ M d1 d2 d3 : ℚ,
      M = qmax (qmax p1.high p2.high) p3.high ∧
      d1 = qdiv (qabs (qsub p1.high M)) M ∧
      d2 = qdiv (qabs (qsub p2.high M)) M ∧
      d3 = qdiv (qabs (qsub p3.high M)) M ∧
      d1 ≤ Rat.divInt 5 100 ∧ d2 ≤ Rat.divInt 5 100 ∧ d3 ≤ Rat.divInt 5 100 ∧
      r.confidence = qsub 1 (qmax (qmax (qmax d1 d1) d2) d3) ∧
      r.keyPoints.firstPeak.price = p1.high ∧
      r.keyPoints.secondPeak.price = p2.high ∧
      r.keyPoints.thirdPeak.price = p3.high ∧
      r.patternHeight = qsub (qdiv (qadd (qadd r.keyPoints.firstPeak.price
        r.keyPoints.secondPeak.price) r.keyPoints.thirdPeak.price) 3) r.necklineLevel ∧
      r.priceTarget = qsub r.necklineLevel r.patternHeight := by
  simp only [TripleTop.validateTripleTop] at h
  split at h
  · exact absurd h (by simp)
  next hsp =>
    split at h
    · exact absurd h (by simp)
    next hany =>
      rw [List.map_cons, List.map_cons, List.map_cons, List.map_nil, List.any_cons,
        List.any_cons, List.any_cons, List.any_nil] at hany
      simp only [Bool.or_eq_true, decide_eq_true_eq, not_or] at hany
      obtain ⟨h1, h2, h3, _⟩ := hany
      split at h
      · next ft st' hft =>
        split at h
        · exact absurd h (by simp)
        next hneck =>
          split at h
          · exact absurd h (by simp)
          next i hi =>
            have hr := Option.some.inj h
            subst hr
            refine ⟨_, _, _, _, rfl, rfl, rfl, rfl,
              not_lt.1 h1, not_lt.1 h2, not_lt.1 h3, rfl, rfl, rfl, rfl, rfl, rfl⟩
      · exact absurd h (by simp)

/-- Success-branch anatomy of `validateTripleBottom`. -/
theorem validateTripleBottom_some_spec {sp fb sb tb : TurningPoint} {candles : List Candle}
    {r : TripleBottom.TBPatternData}
    (h : TripleBottom.validateTripleBottom sp fb sb tb candles = some r) :
    ∃ m d1 d2 d3 : ℚ,
      m = qmin (qmin fb.low sb.low) tb.low ∧
      d1 = qdiv (qabs (qsub fb.low m)) m ∧
      d2 = qdiv (qabs (qsub sb.low m)) m ∧
      d3 = qdiv (qabs (qsub tb.low m)) m ∧
      d1 ≤ Rat.divInt 8 100 ∧ d2 ≤ Rat.divInt 8 100 ∧ d3 ≤ Rat.divInt 8 100 ∧
      r.confidence = qsub 1 (qmax (qmax (qmax d1 d1) d2) d3) ∧
      r.keyPoints.firstBottom.price = fb.low ∧
      r.keyPoints.secondBottom.price = sb.low ∧
      r.keyPoints.thirdBottom.price = tb.low ∧
      r.patternHeight = qsub r.necklineLevel (qdiv (qadd (qadd r.keyPoints.firstBottom.price
        r.keyPoints.secondBottom.price) r.keyPoints.thirdBottom.price) 3) ∧
      r.priceTarget = qadd r.necklineLevel r.patternHeight := by
  simp only [TripleBottom.validateTripleBottom, TripleBottom.validateBottomSimilarity,
    TripleBottom.findIntermediatePeaks, TripleBottom.calculateNecklineLevel,
    TripleBottom.validateNeckline, TripleBottom.detectBreakout,
    TripleBottom.calculatePatternMetrics] at h
  split at h
  · exact absurd h (by simp)
  next hspc =>
    split at h
    · exact absurd h (by simp)
    next hall =>
      rw [not_not] at hall
      rw [List.map_cons, List.map_cons, List.map_cons, List.map_nil, List.all_cons,
        List.all_cons, List.all_cons, List.all_nil] at hall
      simp only [Bool.and_eq_true, decide_eq_true_eq] at hall
      obtain ⟨h1, h2, h3, -⟩ := hall
      split at h
      · exact absurd h (by simp)
      next peaks hpk =>
        split at h
        · exact absurd h (by simp)
        next hneck =>
          split at h
          · exact absurd h (by simp)
          next bq hbrk =>
            have hr := Option.some.inj h
            subst hr
            exact ⟨_, _, _, _, rfl, rfl, rfl, rfl, h1, h2, h3, rfl, rfl, rfl, rfl, rfl, rfl⟩

/-- Success-branch anatomy of `validateInverseHeadAndShoulders`. -/
theorem validateIHS_some_spec {sp ls hd rs lp rp : TurningPoint} {candles : List Candle}
    {r : InverseHS.IHSPatternData}
    (h : InverseHS.validateInverseHeadAndShoulders sp ls hd rs lp rp candles = some r) :
    ∃ sym : ℚ,
      sym = qsub 1 (qdiv (qabs (qsub ls.low rs.low)) (qmin ls.low rs.low)) ∧
      qdiv (qabs (qsub ls.low rs.low)) (qmin ls.low rs.low) ≤ Rat.divInt 1 4 ∧
      Rat.divInt 3 5 ≤ sym ∧
      (r.confidence = round2 sym ∨ r.confidence = round2 (qmul sym (Rat.divInt 9 10))) := by
  simp only [InverseHS.validateInverseHeadAndShoulders, InverseHS.checkShoulderSymmetry,
    InverseHS.calculatePatternMetrics] at h
  split at h
  · exact absurd h (by simp)
  next hdom =>
    split at h
    · exact absurd h (by simp)
    next hsymOk =>
      split at h
      · exact absurd h (by simp)
      next hmin =>
        have hr := Option.some.inj h
        subst hr
        refine ⟨_, rfl, ?_, not_lt.1 hmin, ?_⟩
        · simp only [decide_eq_true_eq, Bool.not_eq_true', decide_eq_false_iff_not,
            not_not, not_lt] at hsymOk
          exact hsymOk
        · by_cases hbrk : (InverseHS.detectBreakout rs candles
              (InverseHS.calculateNeckline lp rp)).isSome
          · rw [if_pos hbrk]
            exact Or.inl rfl
          · rw [if_neg hbrk]
            exact Or.inr rfl

/-- The double-bottom search returns the head of the accepted list. -/
theorem dbSearch_first {candles : List Candle} :
    ∀ {l : List (TurningPoint × TurningPoint × TurningPoint)} {r : DoubleBottom.DBPatternData},
      DoubleBottom.dbSearch candles l = .detected r →
      (l.filterMap fun c => DoubleBottom.validateDoubleBottom c.1 c.2.1 c.2.2 candles).head? =
        some r := by
  intro l
  induction l with
  | nil => intro r h; rw [DoubleBottom.dbSearch] at h; cases h
  | cons hd tl ih =>
    intro r h
    obtain ⟨sp, fb, sb⟩ := hd
    cases hv : DoubleBottom.validateDoubleBottom sp fb sb candles with
    | none =>
      rw [DoubleBottom.dbSearch, hv] at h
      rw [List.filterMap_cons_none (by exact hv)]
      exact ih h
    | some r' =>
      rw [DoubleBottom.dbSearch, hv] at h
      injection h with hrr
      rw [List.filterMap_cons_some (by exact hv), List.head?_cons, hrr]

/-- The triple-top search returns the head of the accepted list. -/
theorem ttSearch_first {candles : List Candle} :
    ∀ {l : List (TurningPoint × TurningPoint × TurningPoint × TurningPoint)}
      {r : TripleTop.TTPatternData},
      TripleTop.ttSearch candles l = .detected r →
      (l.filterMap fun c =>
        TripleTop.validateTripleTop c.1 c.2.1 c.2.2.1 c.2.2.2 candles).head? = some r := by
  intro l
  induction l with
  | nil => intro r h; rw [TripleTop.ttSearch] at h; cases h
  | cons hd tl ih =>
    intro r h
    obtain ⟨st, p1, p2, p3⟩ := hd
    cases hv : TripleTop.validateTripleTop st p1 p2 p3 candles with
    | none =>
      rw [TripleTop.ttSearch, hv] at h
      rw [List.filterMap_cons_none (by exact hv)]
      exact ih h
    | some r' =>
      rw [TripleTop.ttSearch, hv] at h
      injection h with hrr
      rw [List.filterMap_cons_some (by exact hv), List.head?_cons, hrr]

/-- The triple-bottom search returns the head of the accepted list. -/
theorem tbSearch_first {candles : List Candle} :
    ∀ {l : List TripleBottom.TBTriplet} {r : TripleBottom.TBPatternData},
      TripleBottom.tbSearch candles l = .detected r →
      (l.filterMap fun t => TripleBottom.validateTripleBottom t.startPeak t.firstBottom
        t.secondBottom t.thirdBottom candles).head? = some r := by
  intro l
  induction l with
  | nil => intro r h; rw [TripleBottom.tbSearch] at h; cases h
  | cons hd tl ih =>
    intro r h
    cases hv : TripleBottom.validateTripleBottom hd.startPeak hd.firstBottom hd.secondBottom
        hd.thirdBottom candles with
    | none =>
      rw [TripleBottom.tbSearch, hv] at h
      rw [List.filterMap_cons_none (by exact hv)]
      exact ih h
    | some r' =>
      rw [TripleBottom.tbSearch, hv] at h
      injection h with hrr
      rw [List.filterMap_cons_some (by exact hv), List.head?_cons, hrr]

/-- The inverse-pattern search returns the head of the accepted list (where a
triplet's acceptance chains the start-peak lookup, the intermediate-peak
lookup, and the validator). -/
theorem ihsSearch_first {candles : List Candle} {peaks : List TurningPoint} :
    ∀ {l : List InverseHS.IHSTriplet} {r : InverseHS.IHSPatternData},
      InverseHS.ihsSearch candles peaks l = .success r →
      (l.filterMap fun t => (InverseHS.findStartPeak t.leftShoulder peaks).bind fun sp =>
        (InverseHS.findIntermediatePeaks t.leftShoulder t.head t.rightShoulder peaks).bind
          fun ip => InverseHS.validateInverseHeadAndShoulders sp t.leftShoulder t.head
            t.rightShoulder ip.1 ip.2 candles).head? = some r := by
  intro l
  induction l with
  | nil => intro r h; rw [InverseHS.ihsSearch] at h; cases h
  | cons hd tl ih =>
    intro r h
    cases hsp : InverseHS.findStartPeak hd.leftShoulder peaks with
    | none =>
      rw [InverseHS.ihsSearch, hsp] at h
      rw [List.filterMap_cons_none (by rw [hsp]; rfl)]
      exact ih h
    | some sp =>
      cases hip : InverseHS.findIntermediatePeaks hd.leftShoulder hd.head
          hd.rightShoulder peaks with
      | none =>
        simp only [InverseHS.ihsSearch, hsp, hip] at h
        rw [List.filterMap_cons_none (by rw [hsp, hip]; rfl)]
        exact ih h
      | some ip =>
        cases hv : InverseHS.validateInverseHeadAndShoulders sp hd.leftShoulder hd.head
            hd.rightShoulder ip.1 ip.2 candles with
        | none =>
          simp only [InverseHS.ihsSearch, hsp, hip, hv] at h
          rw [List.filterMap_cons_none (by rw [hsp, hip]; exact hv)]
          exact ih h
        | some r' =>
          simp only [InverseHS.ihsSearch, hsp, hip, hv] at h
          injection h with hrr
          rw [List.filterMap_cons_some (by rw [hsp, hip]; exact hv), List.head?_cons, hrr]

/-! ## Extractor emptiness through the retrying wrappers. -/

/-- On strictly rising highs the tripleBottom peak wrapper finds nothing. -/
theorem tbSigPeaks_nil {c : List Candle}
    (hm : List.Chain' (fun a b => a.high < b.high) c) (w? : Option ℕ)
    (hw : 1 ≤ w?.getD (PatternUtils.calculateOptimalWindowSize c.length)) :
    TripleBottom.findSignificantPeaks c w? = [] := by
  simp only [TripleBottom.findSignificantPeaks]
  rw [findPT_peaks_nil hm hw, findPT_peaks_nil hm (by omega : 1 ≤ max 3 (c.length * 2 / 100)),
    findPT_peaks_nil hm (by omega : (1 : ℕ) ≤ 2)]
  simp

/-- On strictly rising lows the tripleBottom trough wrapper finds nothing. -/
theorem tbSigTroughs_nil {c : List Candle}
    (hm : List.Chain' (fun a b => a.low < b.low) c) (w? : Option ℕ)
    (hw : 1 ≤ w?.getD (PatternUtils.calculateOptimalWindowSize c.length)) :
    TripleBottom.findSignificantTroughs c w? = [] := by
  simp only [TripleBottom.findSignificantTroughs]
  rw [findPT_troughs_nil hm hw, findPT_troughs_nil hm (by omega : 1 ≤ max 3 (c.length * 2 / 100)),
    findPT_troughs_nil hm (by omega : (1 : ℕ) ≤ 2)]
  simp

/-- On strictly rising highs the inverse peak wrapper finds nothing. -/
theorem ihsSigPeaks_nil {c : List Candle}
    (hm : List.Chain' (fun a b => a.high < b.high) c) (w? : Option ℕ)
    (hw : 1 ≤ w?.getD (PatternUtils.calculateOptimalWindowSize c.length)) :
    InverseHS.findSignificantPeaks c w? = [] := by
  simp only [InverseHS.findSignificantPeaks]
  rw [findPT_peaks_nil hm hw, findPT_peaks_nil hm (by omega : 1 ≤ max 3 (c.length * 2 / 100))]
  simp

/-- On strictly rising lows the inverse trough wrapper finds nothing. -/
theorem ihsSigTroughs_nil {c : List Candle}
    (hm : List.Chain' (fun a b => a.low < b.low) c) (w? : Option ℕ)
    (hw : 1 ≤ w?.getD (PatternUtils.calculateOptimalWindowSize c.length)) :
    InverseHS.findSignificantTroughs c w? = [] := by
  simp only [InverseHS.findSignificantTroughs]
  rw [findPT_troughs_nil hm hw, findPT_troughs_nil hm (by omega : 1 ≤ max 3 (c.length * 2 / 100))]
  simp

/-! ## Candidate membership and detector unfolding. -/

/-- Both bottoms of a double-bottom candidate come from the trough list. -/
theorem mem_dbCandidates {peaks troughs : List TurningPoint}
    {c : TurningPoint × TurningPoint × TurningPoint}
    (hc : c ∈ DoubleBottom.dbCandidates peaks troughs) :
    c.2.1 ∈ troughs ∧ c.2.2 ∈ troughs := by
  rw [DoubleBottom.dbCandidates] at hc
  rcases List.mem_flatMap.1 hc with ⟨it, hit, hin⟩
  cases hsp : (peaks.filter fun p => p.index < it.2.index).getLast? with
  | none => simp only [hsp] at hin; cases hin
  | some sp =>
    simp only [hsp] at hin
    rcases List.mem_map.1 hin with ⟨sb, hsb, hceq⟩
    rw [← hceq]
    exact ⟨List.snd_mem_of_mem_enum hit, List.mem_of_mem_drop hsb⟩

/-- All three peaks of a triple-top candidate come from the peak list. -/
theorem mem_ttCandidates {peaks troughs : List TurningPoint}
    {c : TurningPoint × TurningPoint × TurningPoint × TurningPoint}
    (hc : c ∈ TripleTop.ttCandidates peaks troughs) :
    c.2.1 ∈ peaks ∧ c.2.2.1 ∈ peaks ∧ c.2.2.2 ∈ peaks := by
  rw [TripleTop.ttCandidates] at hc
  rcases List.mem_flatMap.1 hc with ⟨ip, hip, hin⟩
  cases hst : (troughs.filter fun t => t.index < ip.2.index).getLast? with
  | none => simp only [hst] at hin; cases hin
  | some st =>
    simp only [hst] at hin
    rcases List.mem_flatMap.1 hin with ⟨jp, hjp, hin2⟩
    rcases List.mem_map.1 hin2 with ⟨tp, htp, hceq⟩
    rw [← hceq]
    refine ⟨List.snd_mem_of_mem_enum hip, ?_, ?_⟩
    · exact List.mem_of_mem_drop (List.snd_mem_of_mem_enum hjp)
    · exact List.mem_of_mem_drop (List.mem_of_mem_drop htp)

/-- All three bottoms of a triple-bottom triplet come from the trough list. -/
theorem mem_tbTriplets {troughs peaks : List TurningPoint}
    {t : TripleBottom.TBTriplet}
    (ht : t ∈ TripleBottom.generateTroughTriplets troughs peaks) :
    t.firstBottom ∈ troughs ∧ t.secondBottom ∈ troughs ∧ t.thirdBottom ∈ troughs := by
  rw [TripleBottom.generateTroughTriplets] at ht
  rcases List.mem_flatMap.1 ht with ⟨i, hi, hin⟩
  rw [List.mem_range] at hi
  cases hsp : TripleBottom.findStartPeak (tpAt troughs i) peaks with
  | none => simp only [hsp] at hin; cases hin
  | some sp =>
    simp only [hsp] at hin
    rcases List.mem_flatMap.1 hin with ⟨j, hj, hin2⟩
    rcases List.mem_map.1 hin2 with ⟨k, hk, hteq⟩
    rw [List.mem_range'_1] at hj hk
    rw [← hteq]
    exact ⟨tpAt_mem (by omega), tpAt_mem (by omega), tpAt_mem (by omega)⟩

/-- The shoulders and head of an inverse-pattern triplet come from the trough
list. -/
theorem mem_ihsTriplets {troughs : List TurningPoint} {t : InverseHS.IHSTriplet}
    (ht : t ∈ InverseHS.generateTroughTriplets troughs) :
    t.leftShoulder ∈ troughs ∧ t.head ∈ troughs ∧ t.rightShoulder ∈ troughs := by
  rw [InverseHS.generateTroughTriplets] at ht
  rcases List.mem_filterMap.1 ht with ⟨i, hi, hif⟩
  rw [List.mem_range] at hi
  have hif' : (if (tpAt troughs i).index < (tpAt troughs (i + 1)).index ∧
      (tpAt troughs (i + 1)).index < (tpAt troughs (i + 2)).index then
      some ({ leftShoulder := tpAt troughs i, head := tpAt troughs (i + 1),
              rightShoulder := tpAt troughs (i + 2) } : InverseHS.IHSTriplet)
    else none) = some t := hif
  split at hif'
  · have hteq := Option.some.inj hif'
    rw [← hteq]
    exact ⟨tpAt_mem (by omega), tpAt_mem (by omega), tpAt_mem (by omega)⟩
  · cases hif'

/-- Every trough returned by the tripleBottom extractor wrapper is an indexed
candle of the input. -/
theorem mem_tbSigTroughs {candles : List Candle} {w? : Option ℕ} {p : TurningPoint}
    (hp : p ∈ TripleBottom.findSignificantTroughs candles w?) :
    ∃ i, i < candles.length ∧ p = mkTurningPoint i (candleAt candles i) := by
  simp only [TripleBottom.findSignificantTroughs] at hp
  split at hp
  · split at hp
    · split at hp
      · cases hp
      · exact mem_troughs_spec hp
    · exact mem_troughs_spec hp
  · exact mem_troughs_spec hp

/-- Every trough returned by the inverse extractor wrapper is an indexed
candle of the input. -/
theorem mem_ihsSigTroughs {candles : List Candle} {w? : Option ℕ} {p : TurningPoint}
    (hp : p ∈ InverseHS.findSignificantTroughs candles w?) :
    ∃ i, i < candles.length ∧ p = mkTurningPoint i (candleAt candles i) := by
  simp only [InverseHS.findSignificantTroughs] at hp
  split at hp
  · split at hp
    · exact mem_troughs_spec hp
    · exact mem_troughs_spec hp
  · exact mem_troughs_spec hp

/-- A detection of `detectDoubleTop` comes from the candidate search with the
adjusted configuration. -/
theorem detectDoubleTop_detected {candles : List Candle} {r : DoubleTop.DTDetected}
    (h : DoubleTop.detectDoubleTop candles = .detected r) :
    DoubleTop.dtSearch candles (some (DoubleTop.dtAdjustedConfig candles))
      (DoubleTop.dtCandidates (PatternUtils.findPeaksAndTroughs candles).1
        (PatternUtils.findPeaksAndTroughs candles).2 candles.length) [] = .detected r := by
  simp only [DoubleTop.detectDoubleTop] at h
  split at h
  · cases h
  split at h
  · cases h
  split at h
  · cases h
  exact h

/-- A detection of `detectDoubleBottom` comes from the candidate search. -/
theorem detectDoubleBottom_detected {candles : List Candle} {r : DoubleBottom.DBPatternData}
    (h : DoubleBottom.detectDoubleBottom candles = .detected r) :
    DoubleBottom.dbSearch candles
      (DoubleBottom.dbCandidates (PatternUtils.findPeaksAndTroughs candles).1
        (PatternUtils.findPeaksAndTroughs candles).2) = .detected r := by
  simp only [DoubleBottom.detectDoubleBottom] at h
  split at h
  · cases h
  split at h
  · cases h
  exact h

/-- A detection of `detectTripleTop` comes from the candidate search. -/
theorem detectTripleTop_detected {candles : List Candle} {r : TripleTop.TTPatternData}
    (h : TripleTop.detectTripleTop candles = .detected r) :
    TripleTop.ttSearch candles
      (TripleTop.ttCandidates (PatternUtils.findPeaksAndTroughs candles).1
        (PatternUtils.findPeaksAndTroughs candles).2) = .detected r := by
  simp only [TripleTop.detectTripleTop] at h
  split at h
  · cases h
  split at h
  · cases h
  exact h

/-- A detection of `detectTripleBottom` comes from the triplet search over the
extracted significant troughs and peaks. -/
theorem detectTripleBottom_detected {candles : List Candle} {r : TripleBottom.TBPatternData}
    (h : TripleBottom.detectTripleBottom candles = .ok (.detected r)) :
    TripleBottom.tbSearch candles
      (TripleBottom.generateTroughTriplets (TripleBottom.findSignificantTroughs candles none)
        (TripleBottom.findSignificantPeaks candles none)) = .detected r := by
  cases candles with
  | nil => cases h
  | cons c0 cs =>
    simp only [TripleBottom.detectTripleBottom] at h
    split at h
    · cases h
    split at h
    · exact absurd h (by simp)
    injection h

/-- A success of `detectInverseHeadAndShoulders` comes from the triplet search
over the extracted significant troughs and peaks. -/
theorem detectIHS_success {candles : List Candle} {r : InverseHS.IHSPatternData}
    (h : InverseHS.detectInverseHeadAndShoulders candles = .ok (.success r)) :
    InverseHS.ihsSearch candles
      (InverseHS.findSignificantPeaks candles (some (max 3 (candles.length * 2 / 100))))
      (InverseHS.generateTroughTriplets (InverseHS.findSignificantTroughs candles
        (some (max 3 (candles.length * 2 / 100))))) = .success r := by
  cases candles with
  | nil => cases h
  | cons c0 cs =>
    simp only [InverseHS.detectInverseHeadAndShoulders] at h
    split at h
    · cases h
    split at h
    · exact absurd h (by simp)
    injection h

/-- Binding an error propagates it. -/
theorem except_error_bind {ε α β : Type} (e : ε) (k : α → Except ε β) :
    (Except.error e >>= k) = Except.error e := rfl

/-- Binding a success applies the continuation. -/
theorem except_ok_bind {ε α β : Type} (a : α) (k : α → Except ε β) :
    (Except.ok a >>= k) = k a := rfl

/-- The head-and-shoulders validator loop can only succeed on an empty
candidate list (every validator invocation throws). -/
theorem hsRun_ok {candles : List Candle} {cfg : HS.HSConfig}
    {l : List HS.HSCandidate} {acc res : List HS.HSValidated}
    (h : HS.hsRun candles cfg l acc = .ok res) : l = [] ∧ res = acc := by
  cases l with
  | nil =>
    rw [HS.hsRun] at h
    have hr : acc = res := by injection h
    exact ⟨rfl, hr.symm⟩
  | cons hd tl =>
    obtain ⟨st, ls, hh, rs, lt, rt⟩ := hd
    rw [HS.hsRun] at h
    rw [show HS.validateHeadAndShoulders st ls hh rs lt rt candles cfg =
      Except.error JsError.typeError from rfl, except_error_bind] at h
    cases h

/-- `detectHeadAndShoulders` never returns a success object: any `.ok` result
is a typed failure (the validator throws on every candidate, so both phases
must have produced no candidates at all). -/
theorem detectHS_ok {candles : List Candle} {r : HS.HSResult}
    (h : HS.detectHeadAndShoulders candles = .ok r) : ∃ s, r = HS.HSResult.failure s := by
  simp only [HS.detectHeadAndShoulders] at h
  split at h
  · injection h with h2
    exact ⟨_, h2.symm⟩
  simp only [pure_bind] at h
  split at h
  · injection h with h2
    exact ⟨_, h2.symm⟩
  cases hrun : HS.hsRun candles HS.hsDefaultConfig
      (HS.hsPhase1Candidates (PatternUtils.findPeaksAndTroughs candles (some 10)).1
        (PatternUtils.findPeaksAndTroughs candles (some 10)).2) [] with
  | error e =>
    rw [hrun, except_error_bind] at h
    exact absurd h (by simp)
  | ok vp =>
    obtain ⟨-, hvp⟩ := hsRun_ok hrun
    rw [hrun, except_ok_bind] at h
    subst hvp
    simp only [List.length_nil, if_pos] at h
    cases hrun2 : HS.hsRun candles HS.hsDefaultConfig
        (HS.hsPhase2Candidates (PatternUtils.findPeaksAndTroughs candles (some 10)).1
          (PatternUtils.findPeaksAndTroughs candles (some 10)).2) [] with
    | error e =>
      rw [hrun2, except_error_bind] at h
      exact absurd h (by simp)
    | ok vp2 =>
      obtain ⟨-, hvp2⟩ := hsRun_ok hrun2
      rw [hrun2, except_ok_bind] at h
      subst hvp2
      rw [show (sortDescBy (fun x => x.confidence) ([] : List HS.HSValidated)).head? =
        none from rfl] at h
      injection h with h2
      exact ⟨_, h2.symm⟩


/-- Beyond both the volatility-adjusted threshold and the last fixed ladder
rung the double-top validator rejects. -/
theorem validateDoubleTop_none_of_diff {st fp sp : TurningPoint} {candles : List Candle}
    {cfg? : Option DoubleTop.DTConfig}
    (h : qmax (DoubleTop.dtPeakSimilarityThreshold (cfg?.getD DoubleTop.dtDefaultConfig)
      (qdiv (DoubleTop.calculateATR candles 14 fp.index) (qdiv (qadd fp.high sp.high) 2)))
      (Rat.divInt 1 10) < qdiv (qabs (qsub fp.high sp.high)) fp.high) :
    DoubleTop.validateDoubleTop st fp sp candles cfg? = none := by
  simp only [DoubleTop.validateDoubleTop]
  rw [dtPeakSimilarityConfidence_none h]

/-! ## The claims. -/

set_option maxRecDepth 40000 in
set_option maxHeartbeats 4000000 in
/-- C1: on an 85-bar head-and-shoulders-shaped series — long enough for the
detector and rich enough to yield at least 3 peaks and 2 troughs, so the
validator is reached — `detectHeadAndShoulders` does not return a result
object but throws a `TypeError` (the validator dereferences
`candles[0].symbol` on a turning point because its five formal parameters
are bound to the first five of eight arguments).  This refutes the claim
that detection never raises an exception in normal operation. -/
theorem c1_validator_throws :
    60 ≤ hs85.length ∧
    3 ≤ (PatternUtils.findPeaksAndTroughs hs85 (some 10)).1.length ∧
    2 ≤ (PatternUtils.findPeaksAndTroughs hs85 (some 10)).2.length ∧
    HS.detectHeadAndShoulders hs85 = .error JsError.typeError := by decide

set_option maxRecDepth 40000 in
set_option maxHeartbeats 4000000 in
/-- C4 counterexample: `detectInverseHeadAndShoulders` accepts the 40-bar
series `inv40` (its minimum is 30, not the head-and-shoulders family's 60)
and reports a pattern, refuting "rejects every input shorter than 60". -/
theorem c4_counterexample :
    inv40.length = 40 ∧ inv40.length < 60 ∧
    InverseHS.detectInverseHeadAndShoulders inv40 = .ok (.success inv40Pattern) := by decide

/-- C4 (amended): each detector rejects inputs below its own implemented
minimum with the typed reason shown — 20 and 60 for the double top, 30 for
the double bottom, 50 for both triple detectors, 60 for the head and
shoulders, and 30 (not 60) for the inverse head and shoulders — without
running the candidate search. -/
theorem c4_minimum_lengths :
    (∀ c : List Candle, c.length < 20 →
      DoubleTop.detectDoubleTop c = .notDetected "Insufficient data") ∧
    (∀ c : List Candle, 20 ≤ c.length → c.length < 60 →
      DoubleTop.detectDoubleTop c =
        .notDetected "Insufficient data for reliable pattern detection") ∧
    (∀ c : List Candle, c.length < 30 →
      DoubleBottom.detectDoubleBottom c = .notDetected (some "Not enough data")) ∧
    (∀ c : List Candle, c.length < 50 →
      TripleTop.detectTripleTop c = .notDetected (some "Not enough data")) ∧
    (∀ c : List Candle, c ≠ [] → c.length < 50 →
      TripleBottom.detectTripleBottom c = .ok (.notDetected "Not enough data")) ∧
    (∀ c : List Candle, c ≠ [] → c.length < 30 →
      InverseHS.detectInverseHeadAndShoulders c = .ok (.failure "Not enough data")) ∧
    (∀ c : List Candle, c.length < 60 →
      HS.detectHeadAndShoulders c = .ok (.failure "Not enough data")) := by
  refine ⟨?_, ?_, ?_, ?_, ?_, ?_, ?_⟩
  · intro c h
    simp only [DoubleTop.detectDoubleTop]
    rw [if_pos h]
  · intro c h1 h2
    simp only [DoubleTop.detectDoubleTop]
    rw [if_neg (by omega), if_pos h2]
  · intro c h
    simp only [DoubleBottom.detectDoubleBottom]
    rw [if_pos h]
  · intro c h
    simp only [TripleTop.detectTripleTop]
    rw [if_pos h]
  · intro c hne h
    cases c with
    | nil => exact absurd rfl hne
    | cons c0 cs =>
      simp only [TripleBottom.detectTripleBottom]
      rw [if_pos h]
  · intro c hne h
    cases c with
    | nil => exact absurd rfl hne
    | cons c0 cs =>
      simp only [InverseHS.detectInverseHeadAndShoulders]
      rw [if_pos h]
  · intro c h
    simp only [HS.detectHeadAndShoulders]
    rw [if_pos h]
    rfl

set_option maxRecDepth 40000 in
set_option maxHeartbeats 4000000 in
/-- C4 witness: the short-input rejections at the 5-bar series `short5` and
the 25-bar series `mono25`. -/
theorem c4_minimum_lengths_witness :
    DoubleTop.detectDoubleTop short5 = .notDetected "Insufficient data" ∧
    DoubleTop.detectDoubleTop mono25 =
      .notDetected "Insufficient data for reliable pattern detection" ∧
    DoubleBottom.detectDoubleBottom short5 = .notDetected (some "Not enough data") ∧
    TripleTop.detectTripleTop short5 = .notDetected (some "Not enough data") ∧
    TripleBottom.detectTripleBottom short5 = .ok (.notDetected "Not enough data") ∧
    InverseHS.detectInverseHeadAndShoulders short5 = .ok (.failure "Not enough data") ∧
    HS.detectHeadAndShoulders short5 = .ok (.failure "Not enough data") :=
  ⟨c4_minimum_lengths.1 short5 (by decide),
   c4_minimum_lengths.2.1 mono25 (by decide) (by decide),
   c4_minimum_lengths.2.2.1 short5 (by decide),
   c4_minimum_lengths.2.2.2.1 short5 (by decide),
   c4_minimum_lengths.2.2.2.2.1 short5 (by decide) (by decide),
   c4_minimum_lengths.2.2.2.2.2.1 short5 (by decide) (by decide),
   c4_minimum_lengths.2.2.2.2.2.2 short5 (by decide)⟩

/-- C10: every double top reported by `detectDoubleTop` carries a confidence
of at least `0.4` (the validator clamps the composite score from below at
`0.4` before rounding, and rounding preserves the floor). -/
theorem c10_confidence_floor (candles : List Candle) (r : DoubleTop.DTDetected)
    (h : DoubleTop.detectDoubleTop candles = .detected r) :
    Rat.divInt 2 5 ≤ r.patternData.confidence := by
  have hs := detectDoubleTop_detected h
  refine dtSearch_prop (fun x => Rat.divInt 2 5 ≤ x.patternData.confidence) ?_ ?_ hs
  · intro a ha
    cases ha
  · intro c hc pd hpd
    obtain ⟨psc, tc, vol, trend, bconf, v, bp, hvl, hk1, hk2, hk3, hk4, hnk, hph, hpt,
      hpsc, htc, hvol, htr, himp, hbc, hcf⟩ := validateDoubleTop_some_spec hpd
    show Rat.divInt 2 5 ≤ pd.confidence
    rw [hcf]
    exact twoFifths_le_round2 (le_qmax_left _ _)

set_option maxRecDepth 40000 in
set_option maxHeartbeats 4000000 in
/-- C10 witness: the double top detected on `dt60` (confidence `0.82`). -/
theorem c10_confidence_floor_witness :
    Rat.divInt 2 5 ≤ dt60Detected.patternData.confidence :=
  c10_confidence_floor dt60 dt60Detected (by decide)

/-- C8: the valley key point of every detected double top is the (first)
lowest-low candle strictly between the two peak indices, and a candidate
whose second peak is not at least two bars after the first (so that no
candle lies strictly between them) is rejected by the validator. -/
theorem c8_valley_between :
    (∀ (candles : List Candle) (r : DoubleTop.DTDetected),
      DoubleTop.detectDoubleTop candles = .detected r →
      ∃ i, r.firstPeakIndex < i ∧ i < r.secondPeakIndex ∧
        r.patternData.keyPoints.valley =
          { date := (candleAt candles i).date, price := (candleAt candles i).low,
            volume := (candleAt candles i).volume } ∧
        ∀ j, r.firstPeakIndex < j → j < r.secondPeakIndex →
          (candleAt candles i).low ≤ (candleAt candles j).low) ∧
    (∀ (st fp sp : TurningPoint) (candles : List Candle) (cfg? : Option DoubleTop.DTConfig),
      sp.index ≤ fp.index + 1 →
      DoubleTop.validateDoubleTop st fp sp candles cfg? = none) := by
  constructor
  · intro candles r h
    have hs := detectDoubleTop_detected h
    refine dtSearch_prop (fun x => ∃ i, x.firstPeakIndex < i ∧ i < x.secondPeakIndex ∧
      x.patternData.keyPoints.valley =
        { date := (candleAt candles i).date, price := (candleAt candles i).low,
          volume := (candleAt candles i).volume } ∧
      ∀ j, x.firstPeakIndex < j → j < x.secondPeakIndex →
        (candleAt candles i).low ≤ (candleAt candles j).low) ?_ ?_ hs
    · intro a ha
      cases ha
    · intro c hc pd hpd
      obtain ⟨psc, tc, vol, trend, bconf, v, bp, hvl, hk1, hk2, hk3, hk4, hnk, hph, hpt,
        hpsc, htc, hvol, htr, himp, hbc, hcf⟩ := validateDoubleTop_some_spec hpd
      obtain ⟨hia, hib, hdate, hlow, hvolm, hmin⟩ := dtFindValley_spec hvl
      refine ⟨v.index, hia, hib, ?_, ?_⟩
      · show pd.keyPoints.valley = _
        rw [hk3, hdate, hlow, hvolm]
      · intro j hj1 hj2
        rw [← hlow]
        exact hmin j hj1 hj2
  · intro st fp sp candles cfg? hle
    simp only [DoubleTop.validateDoubleTop]
    have hval : DoubleTop.dtFindValley candles fp.index sp.index = none := by
      rw [DoubleTop.dtFindValley, show sp.index - (fp.index + 1) = 0 from by omega]
      rfl
    rw [hval]
    split <;> rfl

set_option maxRecDepth 40000 in
set_option maxHeartbeats 4000000 in
/-- C8 witness: on `dt60` the valley is bar 26, and a direct validator call
with coinciding peaks is rejected. -/
theorem c8_valley_between_witness :
    (∃ i, dt60Detected.firstPeakIndex < i ∧ i < dt60Detected.secondPeakIndex ∧
      dt60Detected.patternData.keyPoints.valley =
        { date := (candleAt dt60 i).date, price := (candleAt dt60 i).low,
          volume := (candleAt dt60 i).volume } ∧
      ∀ j, dt60Detected.firstPeakIndex < j → j < dt60Detected.secondPeakIndex →
        (candleAt dt60 i).low ≤ (candleAt dt60 j).low) ∧
    DoubleTop.validateDoubleTop ceStartTrough ceFirstPeak ceFirstPeak ce30 none = none :=
  ⟨c8_valley_between.1 dt60 dt60Detected (by decide),
   c8_valley_between.2 ceStartTrough ceFirstPeak ceFirstPeak ce30 none (by decide)⟩

set_option maxRecDepth 40000 in
set_option maxHeartbeats 4000000 in
/-- C9 counterexample: with the first peak at 1000 and the second at 902 the
relative height difference `0.098` strictly exceeds the volatility-adjusted
tolerance `0.096 = 0.12/1.25`, yet `validateDoubleTop` accepts the candidate
(the fixed `0.10` ladder rung fires), refuting "any difference strictly
greater than the tolerance causes rejection". -/
theorem c9_counterexample :
    DoubleTop.dtPeakSimilarityThreshold DoubleTop.dtDefaultConfig
        (qdiv (DoubleTop.calculateATR ce30 14 ceFirstPeak.index)
          (qdiv (qadd ceFirstPeak.high ceSecondPeak902.high) 2)) <
      qdiv (qabs (qsub ceFirstPeak.high ceSecondPeak902.high)) ceFirstPeak.high ∧
    (DoubleTop.validateDoubleTop ceStartTrough ceFirstPeak ceSecondPeak902 ce30
      none).isSome = true := by decide

/-- C9 (amended): a height difference exactly equal to the similarity
tolerance is accepted by the double-top ladder; a difference strictly beyond
both the volatility-adjusted tolerance and the fixed `0.10` ladder rung
rejects the double-top candidate; and the double-bottom tolerance check is
inclusive: only a difference strictly above `0.06` rejects. -/
theorem c9_boundary_amended :
    (∀ thr hD : ℚ, hD = thr → (DoubleTop.dtPeakSimilarityConfidence hD thr).isSome = true) ∧
    (∀ (st fp sp : TurningPoint) (candles : List Candle) (cfg? : Option DoubleTop.DTConfig),
      qmax (DoubleTop.dtPeakSimilarityThreshold (cfg?.getD DoubleTop.dtDefaultConfig)
        (qdiv (DoubleTop.calculateATR candles 14 fp.index) (qdiv (qadd fp.high sp.high) 2)))
        (Rat.divInt 1 10) < qdiv (qabs (qsub fp.high sp.high)) fp.high →
      DoubleTop.validateDoubleTop st fp sp candles cfg? = none) ∧
    (∀ (sp fb sb : TurningPoint) (candles : List Candle),
      Rat.divInt 6 100 < qdiv (qabs (qsub fb.low sb.low)) (qmin fb.low sb.low) →
      DoubleBottom.validateDoubleBottom sp fb sb candles = none) := by
  refine ⟨?_, ?_, ?_⟩
  · intro thr hD he
    subst he
    rw [DoubleTop.dtPeakSimilarityConfidence]
    split_ifs with h1 h2 h3 h4 h5 h6
    · rfl
    · rfl
    · rfl
    · rfl
    · rfl
    · rfl
    · exact absurd le_rfl h6
  · intro st fp sp candles cfg? h
    exact validateDoubleTop_none_of_diff h
  · intro sp fb sb candles h
    exact validateDoubleBottom_none_of_diff h

set_option maxRecDepth 40000 in
set_option maxHeartbeats 4000000 in
/-- C9 witness: acceptance exactly at the adjusted tolerance `0.096`,
rejection of the `0.12` difference (second peak 880), and double-bottom
rejection of a `10/90` low difference. -/
theorem c9_boundary_amended_witness :
    (DoubleTop.dtPeakSimilarityConfidence (Rat.divInt 12 125) (Rat.divInt 12 125)).isSome =
      true ∧
    DoubleTop.validateDoubleTop ceStartTrough ceFirstPeak ceSecondPeak880 ce30 none = none ∧
    DoubleBottom.validateDoubleBottom ceStartTrough bw100 bw90 ce30 = none :=
  ⟨c9_boundary_amended.1 (Rat.divInt 12 125) (Rat.divInt 12 125) rfl,
   c9_boundary_amended.2.1 ceStartTrough ceFirstPeak ceSecondPeak880 ce30 none (by decide),
   c9_boundary_amended.2.2 ceStartTrough bw100 bw90 ce30 (by decide)⟩

set_option maxRecDepth 40000 in
set_option maxHeartbeats 4000000 in
/-- C5 counterexample: the extractor actually used by the detectors
(`patternUtils.findPeaksAndTroughs`) returns the centre bar of `flat5` as a
peak although its relative deviation from the local mean mid price,
`1.4/999.6`, is below the `0.2%` threshold — and its points carry no
significance value at all (the claimed filter lives only in the `part_001`
variant). -/
theorem c5_significance_counterexample :
    (PatternUtils.findPeaksAndTroughs flat5 none).1 = [mkTurningPoint 2 (candleAt flat5 2)] ∧
    qdiv (qsub (mkTurningPoint 2 (candleAt flat5 2)).high (PartOne.localAvgPrice flat5 2 2))
      (PartOne.localAvgPrice flat5 2 2) < Rat.divInt 2 1000 := by decide

set_option maxRecDepth 40000 in
set_option maxHeartbeats 4000000 in
/-- C5 (amended): every turning point returned by the `part_001` extractor
satisfies the significance filter — its relative deviation from the local
mean mid price strictly exceeds `0.002` — and the returned point carries
exactly that deviation as its `significance` field. -/
theorem c5_significance_amended (candles : List Candle) (bw : ℕ)
    (p : PartOne.SigTurningPoint) :
    (p ∈ (PartOne.findPeaksAndTroughs candles bw).1 →
      Rat.divInt 2 1000 < p.significance ∧
      p.significance = qdiv (qsub p.high (PartOne.localAvgPrice candles
          (PartOne.calculateAdaptiveWindow candles bw) p.index))
        (PartOne.localAvgPrice candles (PartOne.calculateAdaptiveWindow candles bw) p.index)) ∧
    (p ∈ (PartOne.findPeaksAndTroughs candles bw).2 →
      Rat.divInt 2 1000 < p.significance ∧
      p.significance = qdiv (qsub (PartOne.localAvgPrice candles
          (PartOne.calculateAdaptiveWindow candles bw) p.index) p.low)
        (PartOne.localAvgPrice candles (PartOne.calculateAdaptiveWindow candles bw) p.index)) := by
  constructor
  · intro hp
    simp only [PartOne.findPeaksAndTroughs] at hp
    split at hp
    · cases hp
    · rcases List.mem_filterMap.1 hp with ⟨i, hi, hif⟩
      split at hif
      · next hcond =>
        have hpe := Option.some.inj hif
        rw [← hpe]
        exact ⟨hcond.2, rfl⟩
      · cases hif
  · intro hp
    simp only [PartOne.findPeaksAndTroughs] at hp
    split at hp
    · cases hp
    · rcases List.mem_filterMap.1 hp with ⟨i, hi, hif⟩
      split at hif
      · next hcond =>
        have hpe := Option.some.inj hif
        rw [← hpe]
        exact ⟨hcond.2, rfl⟩
      · cases hif

/-- The `bump9` peak returned by the `part_001` extractor with base window 3. -/
def bump9Peak : PartOne.SigTurningPoint :=
  { index := 4, date := 4, openPrice := 110, high := 121, low := 99, close := 110,
    volume := 1000, significance := Rat.divInt 137 710, volumeRatio := 1 }

set_option maxRecDepth 40000 in
set_option maxHeartbeats 4000000 in
/-- C5 witness: the pronounced `bump9` peak under the `part_001` extractor
(base window 3) carries significance `137/710 > 0.002`, equal to its
relative deviation from the local mean mid price. -/
theorem c5_significance_amended_witness :
    Rat.divInt 2 1000 < bump9Peak.significance ∧
    bump9Peak.significance =
      qdiv (qsub bump9Peak.high (PartOne.localAvgPrice bump9
          (PartOne.calculateAdaptiveWindow bump9 3) bump9Peak.index))
        (PartOne.localAvgPrice bump9 (PartOne.calculateAdaptiveWindow bump9 3)
          bump9Peak.index) :=
  (c5_significance_amended bump9 3 bump9Peak).1 (by decide)


set_option maxRecDepth 40000 in
set_option maxHeartbeats 4000000 in
/-- C6 counterexample: the inverse detector's reported `patternHeight` (35 on
`inv40`) is measured at the head against the sloped neckline, while the
reported `necklineLevel` (129) is the neckline at the breakout, so the
claimed round-trip `patternHeight = necklineLevel - head.price` fails
(`129 - 80 = 49 ≠ 35`). -/
theorem c6_metrics_counterexample :
    InverseHS.detectInverseHeadAndShoulders inv40 = .ok (.success inv40Pattern) ∧
    inv40Pattern.patternHeight ≠
      qsub inv40Pattern.necklineLevel inv40Pattern.keyPoints.head.price := by decide

/-- C6 (amended): for the double top, double bottom, triple top and triple
bottom the returned metrics satisfy the documented round-trip —
`patternHeight` is the average of the extreme key-point prices minus the
neckline level (neckline minus average for the bottom patterns) and
`priceTarget` is the neckline level minus (plus, for bottoms) the
`patternHeight` — all recomputable from the returned fields.  The inverse
head-and-shoulders detector is excluded: its height is measured at the head
while its reported neckline level is taken at the breakout. -/
theorem c6_metrics_amended :
    (∀ (candles : List Candle) (r : DoubleTop.DTDetected),
      DoubleTop.detectDoubleTop candles = .detected r →
      r.patternData.patternHeight = qsub (qdiv (qadd
          r.patternData.keyPoints.firstPeak.price
          r.patternData.keyPoints.secondPeak.price) 2) r.patternData.necklineLevel ∧
      r.patternData.priceTarget =
        qsub r.patternData.necklineLevel r.patternData.patternHeight) ∧
    (∀ (candles : List Candle) (r : DoubleBottom.DBPatternData),
      DoubleBottom.detectDoubleBottom candles = .detected r →
      r.patternHeight = qsub r.necklineLevel
        (qdiv (qadd r.keyPoints.firstBottom.price r.keyPoints.secondBottom.price) 2) ∧
      r.priceTarget = qadd r.necklineLevel r.patternHeight) ∧
    (∀ (candles : List Candle) (r : TripleTop.TTPatternData),
      TripleTop.detectTripleTop candles = .detected r →
      r.patternHeight = qsub (qdiv (qadd (qadd r.keyPoints.firstPeak.price
        r.keyPoints.secondPeak.price) r.keyPoints.thirdPeak.price) 3) r.necklineLevel ∧
      r.priceTarget = qsub r.necklineLevel r.patternHeight) ∧
    (∀ (candles : List Candle) (r : TripleBottom.TBPatternData),
      TripleBottom.detectTripleBottom candles = .ok (.detected r) →
      r.patternHeight = qsub r.necklineLevel (qdiv (qadd (qadd r.keyPoints.firstBottom.price
        r.keyPoints.secondBottom.price) r.keyPoints.thirdBottom.price) 3) ∧
      r.priceTarget = qadd r.necklineLevel r.patternHeight) := by
  refine ⟨?_, ?_, ?_, ?_⟩
  · intro candles r h
    have hs := detectDoubleTop_detected h
    refine dtSearch_prop (fun x =>
      x.patternData.patternHeight = qsub (qdiv (qadd
          x.patternData.keyPoints.firstPeak.price
          x.patternData.keyPoints.secondPeak.price) 2) x.patternData.necklineLevel ∧
      x.patternData.priceTarget =
        qsub x.patternData.necklineLevel x.patternData.patternHeight) ?_ ?_ hs
    · intro a ha
      cases ha
    · intro c hc pd hpd
      obtain ⟨psc, tc, vol, trend, bconf, v, bp, hvl, hk1, hk2, hk3, hk4, hnk, hph, hpt,
        hpsc, htc, hvol, htr, himp, hbc, hcf⟩ := validateDoubleTop_some_spec hpd
      constructor
      · show pd.patternHeight = _
        rw [hph, hk1, hk2, hnk]
      · show pd.priceTarget = _
        rw [hpt, hnk, hph]
  · intro candles r h
    obtain ⟨c, hc, hval⟩ := dbSearch_detected (detectDoubleBottom_detected h)
    obtain ⟨hconf, hd6, hkf, hks, hph, hpt⟩ := validateDoubleBottom_some_spec hval
    exact ⟨hph, hpt⟩
  · intro candles r h
    obtain ⟨c, hc, hval⟩ := ttSearch_detected (detectTripleTop_detected h)
    obtain ⟨M, d1, d2, d3, hM, hd1, hd2, hd3, hb1, hb2, hb3, hconf, hk1, hk2, hk3, hph,
      hpt⟩ := validateTripleTop_some_spec hval
    exact ⟨hph, hpt⟩
  · intro candles r h
    obtain ⟨t, ht, hval⟩ := tbSearch_detected (detectTripleBottom_detected h)
    obtain ⟨m, d1, d2, d3, hm, hd1, hd2, hd3, hb1, hb2, hb3, hconf, hk1, hk2, hk3, hph,
      hpt⟩ := validateTripleBottom_some_spec hval
    exact ⟨hph, hpt⟩

set_option maxRecDepth 40000 in
set_option maxHeartbeats 8000000 in
/-- C6 witness: the metric round-trips of the patterns detected on `dt60`,
`db45`, `tt52` and `tb52`. -/
theorem c6_metrics_amended_witness :
    (dt60Detected.patternData.patternHeight = qsub (qdiv (qadd
        dt60Detected.patternData.keyPoints.firstPeak.price
        dt60Detected.patternData.keyPoints.secondPeak.price) 2)
      dt60Detected.patternData.necklineLevel ∧
     dt60Detected.patternData.priceTarget = qsub dt60Detected.patternData.necklineLevel
       dt60Detected.patternData.patternHeight) ∧
    (db45First.patternHeight = qsub db45First.necklineLevel
       (qdiv (qadd db45First.keyPoints.firstBottom.price
         db45First.keyPoints.secondBottom.price) 2) ∧
     db45First.priceTarget = qadd db45First.necklineLevel db45First.patternHeight) ∧
    (tt52Pattern.patternHeight = qsub (qdiv (qadd (qadd tt52Pattern.keyPoints.firstPeak.price
        tt52Pattern.keyPoints.secondPeak.price) tt52Pattern.keyPoints.thirdPeak.price) 3)
      tt52Pattern.necklineLevel ∧
     tt52Pattern.priceTarget = qsub tt52Pattern.necklineLevel tt52Pattern.patternHeight) ∧
    (tb52Pattern.patternHeight = qsub tb52Pattern.necklineLevel
       (qdiv (qadd (qadd tb52Pattern.keyPoints.firstBottom.price
         tb52Pattern.keyPoints.secondBottom.price) tb52Pattern.keyPoints.thirdBottom.price) 3) ∧
     tb52Pattern.priceTarget = qadd tb52Pattern.necklineLevel tb52Pattern.patternHeight) :=
  ⟨c6_metrics_amended.1 dt60 dt60Detected (by decide),
   c6_metrics_amended.2.1 db45 db45First (by decide),
   c6_metrics_amended.2.2.1 tt52 tt52Pattern (by decide),
   c6_metrics_amended.2.2.2 tb52 tb52Pattern (by decide)⟩

set_option maxRecDepth 40000 in
set_option maxHeartbeats 4000000 in
/-- C3 counterexample: on `db45` the detector returns the first accepted
candidate (confidence `0.95`) although a later candidate of its own
enumeration — the trough pair `(9, 29)` — is accepted with strictly higher
confidence `0.995`, refuting maximum-confidence selection for
`detectDoubleBottom`. -/
theorem c3_selection_counterexample :
    DoubleBottom.detectDoubleBottom db45 = .detected db45First ∧
    (mkTurningPoint 4 (candleAt db45 4), mkTurningPoint 9 (candleAt db45 9),
      mkTurningPoint 29 (candleAt db45 29)) ∈
      DoubleBottom.dbCandidates (PatternUtils.findPeaksAndTroughs db45).1
        (PatternUtils.findPeaksAndTroughs db45).2 ∧
    ((DoubleBottom.validateDoubleBottom (mkTurningPoint 4 (candleAt db45 4))
      (mkTurningPoint 9 (candleAt db45 9)) (mkTurningPoint 29 (candleAt db45 29))
      db45).map (fun x => x.confidence)) = some (Rat.divInt 199 200) ∧
    db45First.confidence < Rat.divInt 199 200 := by decide

/-- C3 (amended): `detectDoubleTop` returns an accepted candidate of maximal
confidence (ties to the earlier candidate) provided no accepted candidate
exceeds the `0.85` early-exit level; the other orchestrators instead return
the FIRST accepted candidate of their enumeration (the head of the accepted
list), regardless of later candidates' confidences. -/
theorem c3_selection_amended :
    (∀ (candles : List Candle) (r : DoubleTop.DTDetected),
      DoubleTop.detectDoubleTop candles = .detected r →
      (∀ a ∈ DoubleTop.dtAccepted candles, a.patternData.confidence ≤ Rat.divInt 17 20) →
      r ∈ DoubleTop.dtAccepted candles ∧
        ∀ a ∈ DoubleTop.dtAccepted candles,
          a.patternData.confidence ≤ r.patternData.confidence) ∧
    (∀ (candles : List Candle) (r : DoubleBottom.DBPatternData),
      DoubleBottom.detectDoubleBottom candles = .detected r →
      (dbAccepted candles).head? = some r) ∧
    (∀ (candles : List Candle) (r : TripleTop.TTPatternData),
      TripleTop.detectTripleTop candles = .detected r →
      (ttAccepted candles).head? = some r) ∧
    (∀ (candles : List Candle) (r : TripleBottom.TBPatternData),
      TripleBottom.detectTripleBottom candles = .ok (.detected r) →
      (tbAccepted candles).head? = some r) ∧
    (∀ (candles : List Candle) (r : InverseHS.IHSPatternData),
      InverseHS.detectInverseHeadAndShoulders candles = .ok (.success r) →
      (ihsAccepted candles).head? = some r) := by
  refine ⟨?_, ?_, ?_, ?_, ?_⟩
  · intro candles r h hb
    have hs := detectDoubleTop_detected h
    have hb' : ∀ a ∈ DoubleTop.dtAcceptedOf candles
        (some (DoubleTop.dtAdjustedConfig candles))
        (DoubleTop.dtCandidates (PatternUtils.findPeaksAndTroughs candles).1
          (PatternUtils.findPeaksAndTroughs candles).2 candles.length),
        a.patternData.confidence ≤ Rat.divInt 17 20 := hb
    rw [dtSearch_eq_finalize hb', List.nil_append] at hs
    exact dtFinalize_detected hs
  · intro candles r h
    exact dbSearch_first (detectDoubleBottom_detected h)
  · intro candles r h
    exact ttSearch_first (detectTripleTop_detected h)
  · intro candles r h
    exact tbSearch_first (detectTripleBottom_detected h)
  · intro candles r h
    exact ihsSearch_first (detectIHS_success h)

set_option maxRecDepth 40000 in
set_option maxHeartbeats 8000000 in
/-- C3 witness: maximal selection on `dt60` (its only accepted candidate has
confidence `0.82`), and first-accepted selection on `db45`, `tt52`, `tb52`
and `inv40`. -/
theorem c3_selection_amended_witness :
    (dt60Detected ∈ DoubleTop.dtAccepted dt60 ∧
      ∀ a ∈ DoubleTop.dtAccepted dt60,
        a.patternData.confidence ≤ dt60Detected.patternData.confidence) ∧
    (dbAccepted db45).head? = some db45First ∧
    (ttAccepted tt52).head? = some tt52Pattern ∧
    (tbAccepted tb52).head? = some tb52Pattern ∧
    (ihsAccepted inv40).head? = some inv40Pattern :=
  ⟨c3_selection_amended.1 dt60 dt60Detected (by decide) (by decide),
   c3_selection_amended.2.1 db45 db45First (by decide),
   c3_selection_amended.2.2.1 tt52 tt52Pattern (by decide),
   c3_selection_amended.2.2.2.1 tb52 tb52Pattern (by decide),
   c3_selection_amended.2.2.2.2 inv40 inv40Pattern (by decide)⟩


set_option maxRecDepth 40000 in
set_option maxHeartbeats 4000000 in
/-- C2 counterexample: on `negDB` (whose second trough has a negative low)
the double-bottom similarity ratio is negative, passes the 6% check, and the
detector reports the pattern with confidence `12 > 1`, refuting the
unconditional `[0,1]` range. -/
theorem c2_confidence_counterexample :
    DoubleBottom.detectDoubleBottom negDB = .detected negDBPattern ∧
    ¬ (negDBPattern.confidence ≤ 1) := by decide

set_option maxHeartbeats 2000000 in
/-- C2 (amended): on inputs whose candles all have strictly positive lows
and highs, every confidence reported by any of the six detectors lies in
`[0,1]` — the double-top composite (bounded by its score ladders, the `0.4`
floor and the partial-breakout case analysis), the `1 - priceDiff` scores of
the double-bottom and the two triple detectors (their accepted relative
differences lie in `[0, tolerance]` once the reference price is positive),
and the symmetry-ratio score of the inverse detector; the head-and-shoulders
detector never reports a confidence at all (any non-throwing run is a typed
failure). -/
theorem c2_confidence_amended (candles : List Candle)
    (hpos : ∀ cd ∈ candles, 0 < cd.low ∧ 0 < cd.high) :
    (∀ r : DoubleTop.DTDetected, DoubleTop.detectDoubleTop candles = .detected r →
      0 ≤ r.patternData.confidence ∧ r.patternData.confidence ≤ 1) ∧
    (∀ r : DoubleBottom.DBPatternData, DoubleBottom.detectDoubleBottom candles = .detected r →
      0 ≤ r.confidence ∧ r.confidence ≤ 1) ∧
    (∀ r : TripleTop.TTPatternData, TripleTop.detectTripleTop candles = .detected r →
      0 ≤ r.confidence ∧ r.confidence ≤ 1) ∧
    (∀ r : TripleBottom.TBPatternData,
      TripleBottom.detectTripleBottom candles = .ok (.detected r) →
      0 ≤ r.confidence ∧ r.confidence ≤ 1) ∧
    (∀ r : InverseHS.IHSPatternData,
      InverseHS.detectInverseHeadAndShoulders candles = .ok (.success r) →
      0 ≤ r.confidence ∧ r.confidence ≤ 1) ∧
    (∀ r : HS.HSResult, HS.detectHeadAndShoulders candles = .ok r →
      ∃ s, r = HS.HSResult.failure s) := by
  have hlowT : ∀ p ∈ (PatternUtils.findPeaksAndTroughs candles).2, 0 < p.low := by
    intro p hp
    obtain ⟨i, hi, hpe⟩ := mem_troughs_spec hp
    rw [hpe]
    exact (hpos _ (candleAt_mem hi)).1
  have hhighP : ∀ p ∈ (PatternUtils.findPeaksAndTroughs candles).1, 0 < p.high := by
    intro p hp
    obtain ⟨i, hi, hpe⟩ := mem_peaks_spec hp
    rw [hpe]
    exact (hpos _ (candleAt_mem hi)).2
  have hlowTB : ∀ p ∈ TripleBottom.findSignificantTroughs candles none, 0 < p.low := by
    intro p hp
    obtain ⟨i, hi, hpe⟩ := mem_tbSigTroughs hp
    rw [hpe]
    exact (hpos _ (candleAt_mem hi)).1
  have hlowIHS : ∀ p ∈ InverseHS.findSignificantTroughs candles
      (some (max 3 (candles.length * 2 / 100))), 0 < p.low := by
    intro p hp
    obtain ⟨i, hi, hpe⟩ := mem_ihsSigTroughs hp
    rw [hpe]
    exact (hpos _ (candleAt_mem hi)).1
  refine ⟨?_, ?_, ?_, ?_, ?_, ?_⟩
  · intro r h
    have hs := detectDoubleTop_detected h
    refine dtSearch_prop (fun x => 0 ≤ x.patternData.confidence ∧
      x.patternData.confidence ≤ 1) ?_ ?_ hs
    · intro a ha
      cases ha
    · intro c hc pd hpd
      obtain ⟨psc, tc, vol, trend, bconf, v, bp, hvl, hk1, hk2, hk3, hk4, hnk, hph, hpt,
        hpsc, htc, hvol, htr, himp, hbc, hcf⟩ := validateDoubleTop_some_spec hpd
      constructor
      · show 0 ≤ pd.confidence
        rw [hcf]
        exact le_trans (by decide : (0 : ℚ) ≤ Rat.divInt 2 5)
          (twoFifths_le_round2 (le_qmax_left _ _))
      · show pd.confidence ≤ 1
        rw [hcf]
        apply round2_le_one
        apply qmax_le (by decide : (Rat.divInt 2 5 : ℚ) ≤ 1)
        split_ifs with hbst
        · rw [himp hbst.1]
          simp only [qadd_eq, qmul_eq, Rat.divInt_eq_div]
          push_cast
          have e1 := hpsc.2
          have e2 := htc.2
          have e3 := hvol.2
          have e4 := htr.2
          linarith
        · simp only [qadd_eq, qmul_eq, Rat.divInt_eq_div]
          push_cast
          have e1 := hpsc.2
          have e2 := htc.2
          have e3 := hvol.2
          have e4 := htr.2
          have e5 := hbc.2
          linarith
  · intro r h
    obtain ⟨c, hc, hval⟩ := dbSearch_detected (detectDoubleBottom_detected h)
    obtain ⟨hconf, hd6, -, -, -, -⟩ := validateDoubleBottom_some_spec hval
    obtain ⟨hfb, hsb⟩ := mem_dbCandidates hc
    have hd0 : 0 ≤ qdiv (qabs (qsub c.2.1.low c.2.2.low)) (qmin c.2.1.low c.2.2.low) :=
      qdiv_abs_nonneg (qmin_pos (hlowT _ hfb) (hlowT _ hsb))
    rw [show (Rat.divInt 6 100 : ℚ) = 6 / 100 from by
      rw [Rat.divInt_eq_div]; norm_num] at hd6
    rw [hconf, qsub_eq]
    constructor <;> linarith
  · intro r h
    obtain ⟨c, hc, hval⟩ := ttSearch_detected (detectTripleTop_detected h)
    obtain ⟨M, d1, d2, d3, hM, hd1, hd2, hd3, hb1, hb2, hb3, hconf, -, -, -, -, -⟩ :=
      validateTripleTop_some_spec hval
    obtain ⟨hp1, hp2, hp3⟩ := mem_ttCandidates hc
    have hM0 : 0 < M := by
      rw [hM]
      exact lt_of_lt_of_le (hhighP _ hp1)
        (le_trans (le_qmax_left _ _) (le_qmax_left _ _))
    have h01 : 0 ≤ d1 := by rw [hd1]; exact qdiv_abs_nonneg hM0
    have h02 : 0 ≤ d2 := by rw [hd2]; exact qdiv_abs_nonneg hM0
    have h03 : 0 ≤ d3 := by rw [hd3]; exact qdiv_abs_nonneg hM0
    have h5 : (Rat.divInt 5 100 : ℚ) = 5 / 100 := by rw [Rat.divInt_eq_div]; norm_num
    rw [h5] at hb1 hb2 hb3
    have hFle : qmax (qmax (qmax d1 d1) d2) d3 ≤ 5 / 100 :=
      qmax_le (qmax_le (qmax_le hb1 hb1) hb2) hb3
    have hFge : 0 ≤ qmax (qmax (qmax d1 d1) d2) d3 :=
      le_trans h01 (le_trans (le_qmax_left d1 d1)
        (le_trans (le_qmax_left _ _) (le_qmax_left _ _)))
    rw [hconf, qsub_eq]
    constructor <;> linarith
  · intro r h
    obtain ⟨t, ht, hval⟩ := tbSearch_detected (detectTripleBottom_detected h)
    obtain ⟨m, d1, d2, d3, hm, hd1, hd2, hd3, hb1, hb2, hb3, hconf, -, -, -, -, -⟩ :=
      validateTripleBottom_some_spec hval
    obtain ⟨hfb, hsb, htb⟩ := mem_tbTriplets ht
    have hm0 : 0 < m := by
      rw [hm]
      exact qmin_pos (qmin_pos (hlowTB _ hfb) (hlowTB _ hsb)) (hlowTB _ htb)
    have h01 : 0 ≤ d1 := by rw [hd1]; exact qdiv_abs_nonneg hm0
    have h02 : 0 ≤ d2 := by rw [hd2]; exact qdiv_abs_nonneg hm0
    have h03 : 0 ≤ d3 := by rw [hd3]; exact qdiv_abs_nonneg hm0
    have h8 : (Rat.divInt 8 100 : ℚ) = 8 / 100 := by rw [Rat.divInt_eq_div]; norm_num
    rw [h8] at hb1 hb2 hb3
    have hFle : qmax (qmax (qmax d1 d1) d2) d3 ≤ 8 / 100 :=
      qmax_le (qmax_le (qmax_le hb1 hb1) hb2) hb3
    have hFge : 0 ≤ qmax (qmax (qmax d1 d1) d2) d3 :=
      le_trans h01 (le_trans (le_qmax_left d1 d1)
        (le_trans (le_qmax_left _ _) (le_qmax_left _ _)))
    rw [hconf, qsub_eq]
    constructor <;> linarith
  · intro r h
    obtain ⟨t, ht, sp, ip, hsp, hip, hval⟩ := ihsSearch_success (detectIHS_success h)
    obtain ⟨sym, hsym, hd4, hmin, hcf⟩ := validateIHS_some_spec hval
    obtain ⟨hls, -, hrs⟩ := mem_ihsTriplets ht
    have hd0 : 0 ≤ qdiv (qabs (qsub t.leftShoulder.low t.rightShoulder.low))
        (qmin t.leftShoulder.low t.rightShoulder.low) :=
      qdiv_abs_nonneg (qmin_pos (hlowIHS _ hls) (hlowIHS _ hrs))
    have h35 : (Rat.divInt 3 5 : ℚ) = 3 / 5 := by rw [Rat.divInt_eq_div]; norm_num
    rw [h35] at hmin
    have hsym1 : sym ≤ 1 := by
      rw [hsym, qsub_eq]
      linarith
    rcases hcf with hcf | hcf
    · rw [hcf]
      exact ⟨round2_nonneg (by linarith), round2_le_one hsym1⟩
    · rw [hcf]
      have h910 : (Rat.divInt 9 10 : ℚ) = 9 / 10 := by rw [Rat.divInt_eq_div]; norm_num
      rw [qmul_eq, h910]
      constructor
      · exact round2_nonneg (by nlinarith)
      · exact round2_le_one (by nlinarith)
  · intro r h
    exact detectHS_ok h

set_option maxRecDepth 40000 in
set_option maxHeartbeats 4000000 in
/-- C2 witness: the double bottom detected on `db45` (all prices positive)
has confidence `0.95`, inside `[0,1]`. -/
theorem c2_confidence_amended_witness :
    0 ≤ db45First.confidence ∧ db45First.confidence ≤ 1 :=
  (c2_confidence_amended db45 (by decide)).2.1 db45First (by decide)


/-- Executable strict-increase check for a candle projection. -/
def strictlyInc (f : Candle → ℚ) : List Candle → Bool
  | [] => true
  | [_] => true
  | a :: b :: t => decide (f a < f b) && strictlyInc f (b :: t)

/-- A passing strict-increase check yields the corresponding chain. -/
theorem chain'_of_strictlyInc {f : Candle → ℚ} :
    ∀ {l : List Candle}, strictlyInc f l = true →
      List.Chain' (fun a b => f a < f b) l := by
  intro l
  induction l with
  | nil => intro _; exact List.chain'_nil
  | cons a t ih =>
    intro h
    cases t with
    | nil => exact List.chain'_singleton a
    | cons b t' =>
      rw [strictlyInc, Bool.and_eq_true, decide_eq_true_eq] at h
      exact List.Chain'.cons h.1 (ih h.2)

/-- C7: on any 60-bar series whose highs, lows and closes rise strictly bar
over bar, every one of the six detectors returns its typed not-detected
result, because no interior window extreme exists on such a series. -/
theorem c7_monotone_not_detected (candles : List Candle)
    (hlen : candles.length = 60)
    (hH : List.Chain' (fun a b => a.high < b.high) candles)
    (hL : List.Chain' (fun a b => a.low < b.low) candles)
    (hC : List.Chain' (fun a b => a.close < b.close) candles) :
    (∃ s, DoubleTop.detectDoubleTop candles = .notDetected s) ∧
    (∃ s, DoubleBottom.detectDoubleBottom candles = .notDetected s) ∧
    (∃ s, TripleTop.detectTripleTop candles = .notDetected s) ∧
    (∃ s, TripleBottom.detectTripleBottom candles = .ok (.notDetected s)) ∧
    (∃ s, InverseHS.detectInverseHeadAndShoulders candles = .ok (.failure s)) ∧
    (∃ s, HS.detectHeadAndShoulders candles = .ok (.failure s)) := by
  refine ⟨?_, ?_, ?_, ?_, ?_, ?_⟩
  · refine ⟨"Not enough peaks or troughs found", ?_⟩
    simp only [DoubleTop.detectDoubleTop]
    rw [if_neg (by omega), if_neg (by omega), findPT_none_eq,
      findPT_peaks_nil hH (calculateOptimalWindowSize_pos _), if_pos (by simp)]
  · refine ⟨some "Not enough peaks or troughs found", ?_⟩
    simp only [DoubleBottom.detectDoubleBottom]
    rw [if_neg (by omega), findPT_none_eq,
      findPT_troughs_nil hL (calculateOptimalWindowSize_pos _), if_pos (by simp)]
  · refine ⟨some "Not enough peaks found", ?_⟩
    simp only [TripleTop.detectTripleTop]
    rw [if_neg (by omega), findPT_none_eq,
      findPT_peaks_nil hH (calculateOptimalWindowSize_pos _), if_pos (by simp)]
  · cases candles with
    | nil => simp at hlen
    | cons c0 cs =>
      refine ⟨"Not enough troughs found", ?_⟩
      simp only [TripleBottom.detectTripleBottom]
      rw [if_neg (by omega),
        tbSigPeaks_nil hH none (by exact calculateOptimalWindowSize_pos _),
        tbSigTroughs_nil hL none (by exact calculateOptimalWindowSize_pos _),
        if_pos (by simp)]
      rfl
  · cases candles with
    | nil => simp at hlen
    | cons c0 cs =>
      refine ⟨"Not enough troughs or peaks found: 0 troughs, 0 peaks", ?_⟩
      simp only [InverseHS.detectInverseHeadAndShoulders]
      rw [if_neg (by omega),
        ihsSigPeaks_nil hH (some (max 3 ((c0 :: cs).length * 2 / 100)))
          (by show (1 : ℕ) ≤ max 3 ((c0 :: cs).length * 2 / 100); omega),
        ihsSigTroughs_nil hL (some (max 3 ((c0 :: cs).length * 2 / 100)))
          (by show (1 : ℕ) ≤ max 3 ((c0 :: cs).length * 2 / 100); omega),
        if_pos (by simp)]
      rfl
  · refine ⟨"Not enough peaks or troughs found", ?_⟩
    simp only [HS.detectHeadAndShoulders]
    rw [if_neg (by omega)]
    simp only [pure_bind]
    rw [findPT_peaks_nil hH (by omega : (1 : ℕ) ≤ 10), if_pos (by simp)]
    rfl

set_option maxRecDepth 40000 in
set_option maxHeartbeats 4000000 in
/-- C7 witness: the strictly rising 60-bar series `mono60`. -/
theorem c7_monotone_not_detected_witness :
    (∃ s, DoubleTop.detectDoubleTop mono60 = .notDetected s) ∧
    (∃ s, DoubleBottom.detectDoubleBottom mono60 = .notDetected s) ∧
    (∃ s, TripleTop.detectTripleTop mono60 = .notDetected s) ∧
    (∃ s, TripleBottom.detectTripleBottom mono60 = .ok (.notDetected s)) ∧
    (∃ s, InverseHS.detectInverseHeadAndShoulders mono60 = .ok (.failure s)) ∧
    (∃ s, HS.detectHeadAndShoulders mono60 = .ok (.failure s)) :=
  c7_monotone_not_detected mono60 (by decide)
    (chain'_of_strictlyInc (by decide))
    (chain'_of_strictlyInc (by decide))
    (chain'_of_strictlyInc (by decide))

end PatternProof
